import Mathlib

/-!
# EPS fault-detection core: chronic idle, power-monitor read error, source decay

A shallow embedding of `chronic_idle.c`, `pwr_mon_read_error.c` and
`source_decay.c`.

* Every file-scope variable of the three C files is a field of `State`
  (one sub-structure per translation unit, plus the two `g_` globals).
* Unsigned machine integers are `Nat` with an explicit `% 2^w` wherever the C
  code increments or shifts them.
* `float` values are modelled by exact rationals.  In the detectors the
  arithmetic on them is exact arithmetic (`convert_raw_to_celsius`,
  `convert_raw_to_mv`, `convert_raw_to_watts`, the sums and averages of
  `log_current_power`).  For the two conversions of `chronic_idle.c` this
  loses nothing for any 16-bit raw value
  (`convert_raw_to_celsius_float_agrees`, `convert_raw_to_mv_float_agrees`);
  for `source_decay.c` it is the idealisation under which the averaging
  properties are stated, and it is not what the C functions return.
* The section *Binary floating point* gives the three unit conversions with
  the roundings of binary32 and binary64 in place
  (`convert_raw_to_celsius_float`, `convert_raw_to_mv_float`,
  `convert_raw_to_watts_float`).  What a conversion returns is stated about
  these.
* The external drivers (power monitor, MPPT, `printf`) are not part of the
  repository: what a driver call returns is an argument of the function that
  makes the call, and every call is recorded, in order, in `State.trace`.
* Each detector counts ticks and then fires.  The firing branch of a detector
  is a definition of its own (`detect_chronic_idle_fire`, `daily_read_fire`,
  `detect_source_decay_fire`) that the detector calls; properties of sequences
  of firings are stated over runs of these, and `detect_chronic_idle_expired`,
  `daily_read_expired`, `detect_source_decay_expired` relate them to a call of
  the detector with its counter expired.
-/

namespace EPS

/-! ## External interface -/

/-- Modelled from the spec: the enumeration `eps_mppt_status` of `mppt.h` is
not in the repository; it has the enumerator `EPS_MPPT_CHARGING_IDLE` and at
least one other one. Every other enumerator is `EPS_MPPT_OTHER k`. -/
inductive eps_mppt_status where
  | EPS_MPPT_CHARGING_IDLE
  | EPS_MPPT_OTHER (k : Nat)
  deriving DecidableEq, Repr

/-- What one power-monitor read hands back: the returned raw register value
and the text the driver leaves in `out_message`. -/
structure Reading where
  raw : Int
  out_message : String
  deriving DecidableEq, Repr

/-- The readings available to one pass over the four registers
(`temp_check`, `volt_check`, `current_check`, `power_check`). -/
structure MonitorReads where
  temp : Reading
  v_bus : Reading
  current : Reading
  power : Reading
  deriving DecidableEq, Repr

/-- Observable actions: calls into the external drivers, `printf` output, and
entry markers of the three fault handlers. -/
inductive Event where
  | eps_get_power_monitor_temp_func
  | eps_get_power_monitor_v_bus_val_func
  | eps_get_power_monitor_current_func
  | eps_get_power_monitor_power_func
  | mppt_get_charge_status
  | mppt_init
  | printf (text : String)
  | call_handle_chronic_idle
  | call_handle_pwr_mon_read_error
  | call_handle_source_decay
  deriving DecidableEq, Repr

/-! ## Constants (`chronic_idle.h`, and the `static const`s of the `.c` files) -/

def g_const_PASS_REQ : Nat := 7999
def TEMP_CONVERT_FAC : ℚ := 0.125
def VOLT_CONVERT_FAC : ℚ := 3.125
def TRUE : Nat := 1
def FALSE : Nat := 0
def ERROR : Int := -1

def DAYLIGHT_TEMP_LIM : ℚ := 50
def DAYLIGHT_VOLT_LIM : ℚ := 0

def read_error_delay : Nat := g_const_PASS_REQ * 60
def read_error_pass_constant : Nat := 60 * 24

def MAXIMUM_EXPECTED_CURRENT : Int := 32768
def MONTHS_LOG_SZ : Nat := 128
def CAP_THRESHOLD : ℚ := 0.8

/-! ## State -/

/-- File-scope variables of `chronic_idle.c`. -/
structure ChronicIdle where
  pass_num : Nat
  consecutive_idles : Nat
  mppt_was_reset : Nat

/-- File-scope variables of `pwr_mon_read_error.c` (without `g_read_error`). -/
structure PwrMon where
  pass_num : Nat
  delay_counter : Nat
  last_test_failed : Nat

/-- File-scope variables of `source_decay.c` (without `g_source_decay`). -/
structure SourceDecay where
  pass_num : Nat
  minutes_roll_avg : ℚ
  hours_roll_avg : ℚ
  days_roll_avg : ℚ
  months_log : Nat → ℚ
  minutes_pos : Nat
  hours_pos : Nat
  days_pos : Nat
  months_pos : Nat
  baseline_avg : ℚ
  raw_power_val : Int
  perform_monthly_check : Nat

/-- The whole program state, with the trace of observable actions. -/
structure State where
  ci : ChronicIdle
  pm : PwrMon
  sd : SourceDecay
  g_read_error : Nat
  g_source_decay : Nat
  trace : List Event

/-- The state after static initialisation. -/
def init : State where
  ci := { pass_num := 0, consecutive_idles := 0, mppt_was_reset := FALSE }
  pm := { pass_num := 0, delay_counter := 0, last_test_failed := FALSE }
  sd := { pass_num := 0, minutes_roll_avg := 0, hours_roll_avg := 0, days_roll_avg := 0,
          months_log := fun _ => 0, minutes_pos := 0, hours_pos := 0, days_pos := 0,
          months_pos := 0, baseline_avg := 0, raw_power_val := 0,
          perform_monthly_check := FALSE }
  g_read_error := 0
  g_source_decay := 0
  trace := []

/-- Record one observable action. -/
def State.emit (s : State) (e : Event) : State :=
  { s with trace := s.trace ++ [e] }

/-- The actions recorded between an earlier state `s` and a later state `s2`. -/
def new_events (s s2 : State) : List Event :=
  s2.trace.drop s.trace.length

/-! ## chronic_idle.c -/

def convert_raw_to_celsius (raw_temp_val : Int) : ℚ :=
  raw_temp_val * TEMP_CONVERT_FAC

def check_if_in_daylight_temp (temp : Reading) (s : State) : Int × State :=
  let s := s.emit Event.eps_get_power_monitor_temp_func
  let raw_temp_val := temp.raw
  if temp.out_message = "ERRORT\r\n" then
    (ERROR, s)
  else
    let temperature_celsius := convert_raw_to_celsius raw_temp_val
    if temperature_celsius ≥ DAYLIGHT_TEMP_LIM then (TRUE, s) else (FALSE, s)

def convert_raw_to_mv (raw_volt_val : Int) : ℚ :=
  raw_volt_val * VOLT_CONVERT_FAC

def check_if_in_daylight_volt (v_bus : Reading) (s : State) : Int × State :=
  let s := s.emit Event.eps_get_power_monitor_v_bus_val_func
  let raw_volt_val := v_bus.raw
  if v_bus.out_message = "ERRORT\r\n" then
    (ERROR, s)
  else
    let voltage_mv := convert_raw_to_mv raw_volt_val
    if voltage_mv ≥ DAYLIGHT_VOLT_LIM then (TRUE, s) else (FALSE, s)

def handle_chronic_idle (temp v_bus : Reading) (s : State) : State :=
  let s := s.emit Event.call_handle_chronic_idle
  if s.ci.mppt_was_reset = FALSE then
    let r1 := check_if_in_daylight_temp temp s
    let r2 := check_if_in_daylight_volt v_bus r1.2
    let temp_check := r1.1
    let volt_check := r2.1
    let s := r2.2
    if temp_check = ERROR ∨ volt_check = ERROR then
      { s with g_read_error := TRUE }
    else if temp_check = TRUE ∧ volt_check = TRUE then
      let s := s.emit Event.mppt_init
      { s with ci := { s.ci with mppt_was_reset := TRUE } }
    else s
  else if s.ci.mppt_was_reset = TRUE then
    (s.emit (Event.printf "Entering Safety Mode\n")).emit (Event.printf "Fault: chronic_idle\n")
  else s

/-- The `else` branch of `detect_chronic_idle` (lines 122-136): one firing of
the detector, which samples the MPPT charge status `out`. -/
def detect_chronic_idle_fire (out : eps_mppt_status) (temp v_bus : Reading) (s : State) :
    State :=
  let s := s.emit Event.mppt_get_charge_status
  let s :=
    if out = eps_mppt_status.EPS_MPPT_CHARGING_IDLE then
      let s := { s with ci := { s.ci with
        consecutive_idles := ((s.ci.consecutive_idles <<< 1) ||| 1) % 256 } }
      if s.ci.consecutive_idles = 0xFF then handle_chronic_idle temp v_bus s else s
    else
      { s with ci := { s.ci with consecutive_idles := 0, mppt_was_reset := FALSE } }
  { s with ci := { s.ci with pass_num := 0 } }

def detect_chronic_idle (out : eps_mppt_status) (temp v_bus : Reading) (s : State) : State :=
  if s.ci.pass_num ≤ g_const_PASS_REQ / (s.g_source_decay + 1) then
    { s with ci := { s.ci with pass_num := (s.ci.pass_num + 1) % 2 ^ 16 } }
  else
    detect_chronic_idle_fire out temp v_bus s

/-! ## pwr_mon_read_error.c -/

def temp_check (temp : Reading) (s : State) : Int × State :=
  let s := s.emit Event.eps_get_power_monitor_temp_func
  if temp.out_message = "ERRORT\r\n" then (ERROR, s) else (0, s)

def volt_check (v_bus : Reading) (s : State) : Int × State :=
  let s := s.emit Event.eps_get_power_monitor_v_bus_val_func
  if v_bus.out_message = "ERRORV\r\n" then (ERROR, s) else (0, s)

def current_check (current : Reading) (s : State) : Int × State :=
  let s := s.emit Event.eps_get_power_monitor_current_func
  if current.out_message = "ERRORC\r\n" then (ERROR, s) else (0, s)

def power_check (power : Reading) (s : State) : Int × State :=
  let s := s.emit Event.eps_get_power_monitor_power_func
  if power.out_message = "ERRORP\r\n" then (ERROR, s) else (0, s)

/-- The condition of lines 120 and 147,
`temp_check() == ERROR || volt_check() == ERROR || current_check() == ERROR
|| power_check() == ERROR`, evaluated left to right with short circuit. -/
def any_check_is_error (r : MonitorReads) (s : State) : Bool × State :=
  let r1 := temp_check r.temp s
  if r1.1 = ERROR then (true, r1.2) else
  let r2 := volt_check r.v_bus r1.2
  if r2.1 = ERROR then (true, r2.2) else
  let r3 := current_check r.current r2.2
  if r3.1 = ERROR then (true, r3.2) else
  let r4 := power_check r.power r3.2
  if r4.1 = ERROR then (true, r4.2) else (false, r4.2)

def follow_up_read (r : MonitorReads) (s : State) : Int × State :=
  if s.g_read_error = 1 then
    if s.pm.delay_counter ≥ read_error_delay then
      let s := { s with pm := { s.pm with delay_counter := 0 } }
      let s := { s with g_read_error := 0 }
      let c := any_check_is_error r s
      if c.1 then (ERROR, c.2) else (0, c.2)
    else
      (0, { s with pm := { s.pm with delay_counter := (s.pm.delay_counter + 1) % 2 ^ 32 } })
  else
    (0, s)

/-- The `then` branch of `daily_read` (lines 145-161): one firing of the daily
probe. -/
def daily_read_fire (r : MonitorReads) (s : State) : Int × State :=
  let s := { s with pm := { s.pm with pass_num := 0 } }
  let c := any_check_is_error r s
  let s := c.2
  if c.1 then
    if s.pm.last_test_failed = TRUE then
      (ERROR, { s with pm := { s.pm with last_test_failed := FALSE } })
    else
      (0, { s with pm := { s.pm with last_test_failed := TRUE } })
  else
    (0, { s with pm := { s.pm with last_test_failed := FALSE } })

def daily_read (r : MonitorReads) (s : State) : Int × State :=
  if s.pm.pass_num ≥ g_const_PASS_REQ * read_error_pass_constant then
    daily_read_fire r s
  else
    (0, { s with pm := { s.pm with pass_num := (s.pm.pass_num + 1) % 2 ^ 64 } })

def handle_pwr_mon_read_error (s : State) : State :=
  let s := s.emit Event.call_handle_pwr_mon_read_error
  (s.emit (Event.printf "Entering Safety Mode\n")).emit
    (Event.printf "Fault: pwr_mon_read_error\n")

/-- The detector of `pwr_mon_read_error.c`; `fu` are the readings available to
`follow_up_read`, `daily` those available to `daily_read`, which is only
called when `follow_up_read` did not return `ERROR`. -/
def detect_pwr_mon_read_error (fu daily : MonitorReads) (s : State) : State :=
  let r1 := follow_up_read fu s
  if r1.1 = ERROR then
    handle_pwr_mon_read_error r1.2
  else
    let r2 := daily_read daily r1.2
    if r2.1 = ERROR then handle_pwr_mon_read_error r2.2 else r2.2

/-! ## source_decay.c -/

/-- The integer division `MAXIMUM_EXPECTED_CURRENT / 32768`, converted to the
return type. -/
def CURRENT_LSB : ℚ :=
  ((MAXIMUM_EXPECTED_CURRENT / 32768 : Int) : ℚ)

/-- The expression `0.2 * CURRENT_LSB() * raw_power_val` in exact arithmetic,
without the roundings of `double` and `float`: the reading under which the
averages of `log_current_power` are stated.  What the C function returns,
roundings included, is `convert_raw_to_watts_float`; it is within a relative
2^-23 of this value (`convert_raw_to_watts_float_near`) and in general not
equal to it (`convert_raw_to_watts_float_exact_only_if`). -/
def convert_raw_to_watts (raw_power_val : Int) : ℚ :=
  0.2 * CURRENT_LSB * raw_power_val

def log_current_power (power : Reading) (s : State) : Int × State :=
  let s := s.emit Event.eps_get_power_monitor_power_func
  let s := { s with sd := { s.sd with raw_power_val := power.raw } }
  if power.out_message = "ERRORP\r\n" then
    (ERROR, s)
  else
    let s := { s with sd := { s.sd with
      minutes_roll_avg := s.sd.minutes_roll_avg + convert_raw_to_watts s.sd.raw_power_val,
      minutes_pos := (s.sd.minutes_pos + 1) % 2 ^ 8 } }
    if s.sd.minutes_pos = 60 then
      let s := { s with sd := { s.sd with
        minutes_pos := 0,
        hours_roll_avg := s.sd.hours_roll_avg + s.sd.minutes_roll_avg / 60,
        minutes_roll_avg := 0,
        hours_pos := (s.sd.hours_pos + 1) % 2 ^ 8 } }
      if s.sd.hours_pos = 24 then
        let s := { s with sd := { s.sd with
          hours_pos := 0,
          days_roll_avg := s.sd.days_roll_avg + s.sd.hours_roll_avg / 24,
          hours_roll_avg := 0,
          days_pos := (s.sd.days_pos + 1) % 2 ^ 8 } }
        if s.sd.days_pos = 30 then
          let s := { s with sd := { s.sd with
            days_pos := 0,
            months_log := Function.update s.sd.months_log s.sd.months_pos
              (s.sd.days_roll_avg / 30),
            days_roll_avg := 0 } }
          let s :=
            if s.sd.baseline_avg = 0 then
              { s with sd := { s.sd with baseline_avg := s.sd.months_log s.sd.months_pos } }
            else
              { s with sd := { s.sd with perform_monthly_check := TRUE } }
          let s := { s with sd := { s.sd with months_pos := (s.sd.months_pos + 1) % 2 ^ 8 } }
          let s :=
            if s.sd.months_pos = MONTHS_LOG_SZ then
              { s with sd := { s.sd with months_pos := 0 } }
            else s
          (0, s)
        else (0, s)
      else (0, s)
    else (0, s)

def handle_source_decay (s : State) : State :=
  let s := s.emit Event.call_handle_source_decay
  let s := { s with g_source_decay := 1 }
  s.emit (Event.printf "Fault: source_decay\n")

/-- The `else` branch of the cadence test of `detect_source_decay`
(lines 137-154): one firing of the detector. -/
def detect_source_decay_fire (power : Reading) (s : State) : State :=
  let r := log_current_power power s
  let s := r.2
  let s :=
    if r.1 = ERROR then
      { s with g_read_error := TRUE }
    else
      if s.sd.perform_monthly_check = TRUE then
        let s :=
          if s.sd.months_log s.sd.months_pos < s.sd.baseline_avg * CAP_THRESHOLD then
            handle_source_decay s
          else s
        { s with sd := { s.sd with perform_monthly_check := FALSE } }
      else s
  { s with sd := { s.sd with pass_num := 0 } }

def detect_source_decay (power : Reading) (s : State) : State :=
  if s.g_source_decay ≠ 1 then
    if s.sd.pass_num < g_const_PASS_REQ then
      { s with sd := { s.sd with pass_num := (s.sd.pass_num + 1) % 2 ^ 16 } }
    else
      detect_source_decay_fire power s
  else s

/-! ## Runs of detector firings -/

/-- What one firing of `detect_chronic_idle` observes: the MPPT charge status,
and the two readings `handle_chronic_idle` gets if it is called and reads. -/
structure IdleFiring where
  status : eps_mppt_status
  temp : Reading
  v_bus : Reading

/-- Successive firings of `detect_chronic_idle`, oldest first. -/
def run_chronic_idle (ins : List IdleFiring) (s : State) : State :=
  ins.foldl (fun s i => detect_chronic_idle_fire i.status i.temp i.v_bus s) s

/-- Length of the run of idle observations at the head of a list of statuses
(used on the most-recent-first list). -/
def idle_streak : List eps_mppt_status → Nat
  | [] => 0
  | eps_mppt_status.EPS_MPPT_CHARGING_IDLE :: r => idle_streak r + 1
  | eps_mppt_status.EPS_MPPT_OTHER _ :: _ => 0

/-- An idle firing whose readings show daylight (raw temperature 500, raw
bus voltage 100, no error tag). -/
def sunlit_idle : IdleFiring :=
  ⟨eps_mppt_status.EPS_MPPT_CHARGING_IDLE, ⟨500, "OK"⟩, ⟨100, "OK"⟩⟩

/-- The status sequence idle x4, non-idle, idle x4. -/
def eclipse_scenario : List IdleFiring :=
  List.replicate 4 sunlit_idle ++
    ⟨eps_mppt_status.EPS_MPPT_OTHER 0, ⟨500, "OK"⟩, ⟨100, "OK"⟩⟩ :: List.replicate 4 sunlit_idle

/-- The four status tags by which the power-monitor driver reports a failed
read (the strings tested in `pwr_mon_read_error.c`). -/
def is_error_tag (m : String) : Bool :=
  m == "ERRORT\r\n" || m == "ERRORV\r\n" || m == "ERRORC\r\n" || m == "ERRORP\r\n"

/-- The actions of the n-th firing (n = 1, 2, ...) of a run of
`detect_chronic_idle` firings started in `s`. -/
def firing_events (ins : List IdleFiring) (s : State) (n : Nat) : List Event :=
  new_events (run_chronic_idle (ins.take (n - 1)) s) (run_chronic_idle (ins.take n) s)

/-- Some firing m of the run reinitialised the MPPT and every later firing of
the run observed idle. -/
def reinit_pending (ins : List IdleFiring) (s : State) : Prop :=
  ∃ m, 1 ≤ m ∧ m ≤ ins.length ∧ Event.mppt_init ∈ firing_events ins s m ∧
    ∀ j, m ≤ j → j < ins.length →
      (ins[j]?).map IdleFiring.status = some eps_mppt_status.EPS_MPPT_CHARGING_IDLE

/-! ## Runs of the read-error detector -/

/-- A pass over the four registers fails when any of the four reads returns
its own channel's error tag. -/
def probe_fails (r : MonitorReads) : Bool :=
  r.temp.out_message == "ERRORT\r\n" || r.v_bus.out_message == "ERRORV\r\n" ||
    r.current.out_message == "ERRORC\r\n" || r.power.out_message == "ERRORP\r\n"

/-- Successive firings of the daily probe (`daily_read` with its counter
expired), oldest first. -/
def run_daily_read (ins : List MonitorReads) (s : State) : State :=
  ins.foldl (fun s r => (daily_read_fire r s).2) s

/-- Length of the run of failures at the head of a list of outcomes (used on
the most-recent-first list). -/
def fail_streak : List Bool → Nat
  | [] => 0
  | true :: r => fail_streak r + 1
  | false :: _ => 0

/-- The driver calls made by one pass over the four registers: the pass stops
at the first check that reports an error. -/
def check_events (r : MonitorReads) : List Event :=
  if r.temp.out_message = "ERRORT\r\n" then
    [Event.eps_get_power_monitor_temp_func]
  else if r.v_bus.out_message = "ERRORV\r\n" then
    [Event.eps_get_power_monitor_temp_func, Event.eps_get_power_monitor_v_bus_val_func]
  else if r.current.out_message = "ERRORC\r\n" then
    [Event.eps_get_power_monitor_temp_func, Event.eps_get_power_monitor_v_bus_val_func,
      Event.eps_get_power_monitor_current_func]
  else
    [Event.eps_get_power_monitor_temp_func, Event.eps_get_power_monitor_v_bus_val_func,
      Event.eps_get_power_monitor_current_func, Event.eps_get_power_monitor_power_func]

/-- Successive ticks of `detect_pwr_mon_read_error`, oldest first; each tick
carries the readings for the follow-up pass and for the daily pass. -/
def run_pwr_mon (ins : List (MonitorReads × MonitorReads)) (s : State) : State :=
  ins.foldl (fun s i => detect_pwr_mon_read_error i.1 i.2 s) s

/-- Four readings without an error tag. -/
def ok_reads : MonitorReads := ⟨⟨0, "OK"⟩, ⟨0, "OK"⟩, ⟨0, "OK"⟩, ⟨0, "OK"⟩⟩

/-- The initial state with the read-error flag set. -/
def read_error_pending : State := { init with g_read_error := 1 }

/-- Four readings whose temperature read reports `ERRORT`. -/
def temp_error_reads : MonitorReads :=
  ⟨⟨0, "ERRORT\r\n"⟩, ⟨0, "OK"⟩, ⟨0, "OK"⟩, ⟨0, "OK"⟩⟩

/-- A state in which the follow-up read is due: the flag is set and the delay
counter stands at `read_error_delay`. -/
def follow_up_due : State :=
  { read_error_pending with pm := { read_error_pending.pm with delay_counter := 479940 } }

/-! ## Runs of the source-decay detector -/

/-- The aggregation state `sd` after `k` successful samples of `w` watts since
the month-start state `sd0` (k < 43200): positions and running sums are those
of minute k of the month, and the monthly fields are untouched. -/
def month_progress (w : ℚ) (k : Nat) (sd0 sd : SourceDecay) : Prop :=
  sd.minutes_pos = k % 60 ∧ sd.hours_pos = k / 60 % 24 ∧ sd.days_pos = k / 1440 ∧
  sd.minutes_roll_avg = ((k % 60 : Nat) : ℚ) * w ∧
  sd.hours_roll_avg = ((k / 60 % 24 : Nat) : ℚ) * w ∧
  sd.days_roll_avg = ((k / 1440 : Nat) : ℚ) * w ∧
  sd.months_log = sd0.months_log ∧ sd.months_pos = sd0.months_pos ∧
  sd.baseline_avg = sd0.baseline_avg ∧
  sd.perform_monthly_check = sd0.perform_monthly_check

/-- The aggregation state at the start of a month: positions and running
sums are 0. -/
def month_start (sd : SourceDecay) : Prop :=
  sd.minutes_pos = 0 ∧ sd.hours_pos = 0 ∧ sd.days_pos = 0 ∧
  sd.minutes_roll_avg = 0 ∧ sd.hours_roll_avg = 0 ∧ sd.days_roll_avg = 0

/-- The power read did not return its error tag. -/
def read_ok (p : Reading) : Bool := p.out_message != "ERRORP\r\n"

/-- Successive calls of `log_current_power`, oldest first. -/
def run_log_current_power (ins : List Reading) (s : State) : State :=
  ins.foldl (fun s p => (log_current_power p s).2) s

/-- The aggregation state `sd` right after the call that closes a month of
constant power `w` begun in `sd0`. -/
def month_closed (w : ℚ) (sd0 sd : SourceDecay) : Prop :=
  month_start sd ∧
  sd.months_log = Function.update sd0.months_log sd0.months_pos w ∧
  sd.months_pos = (if sd0.months_pos + 1 = 128 then 0 else sd0.months_pos + 1) ∧
  sd.baseline_avg = (if sd0.baseline_avg = 0 then w else sd0.baseline_avg) ∧
  sd.perform_monthly_check = (if sd0.baseline_avg = 0 then sd0.perform_monthly_check else TRUE)

/-- Successive firings of `detect_source_decay`, oldest first. -/
def run_source_decay (ins : List Reading) (s : State) : State :=
  ins.foldl (fun s p => detect_source_decay_fire p s) s

/-- A successful power read of raw 50, that is 10 W. -/
def ten_watts : Reading := ⟨50, "OK"⟩

/-- The state after a first month (43200 firings) at 10 W. -/
@[irreducible]
def first_month_end : State :=
  run_source_decay (List.replicate 43200 ten_watts) init

/-- The state one firing before the close of a second month at 10 W. -/
@[irreducible]
def second_month_end : State :=
  run_source_decay (List.replicate 43199 ten_watts) first_month_end

/-! ## Interleaved calls, cadence and month closing -/

/-- One call of an entry point of the core, with what the drivers return
during it. -/
inductive Call where
  | detect_chronic_idle (out : eps_mppt_status) (temp v_bus : Reading)
  | detect_pwr_mon_read_error (fu daily : MonitorReads)
  | detect_source_decay (power : Reading)
  | log_current_power (power : Reading)

/-- The state after a call. -/
def Call.apply : Call → State → State
  | Call.detect_chronic_idle out temp v_bus, s => EPS.detect_chronic_idle out temp v_bus s
  | Call.detect_pwr_mon_read_error fu daily, s => EPS.detect_pwr_mon_read_error fu daily s
  | Call.detect_source_decay power, s => EPS.detect_source_decay power s
  | Call.log_current_power power, s => (EPS.log_current_power power s).2

/-- Successive calls, oldest first, in any interleaving. -/
def run_calls (calls : List Call) (s : State) : State :=
  calls.foldl (fun s c => c.apply s) s

/-- The four position indices are within their stage lengths. -/
def positions_in_range (sd : SourceDecay) : Prop :=
  sd.minutes_pos < 60 ∧ sd.hours_pos < 24 ∧ sd.days_pos < 30 ∧ sd.months_pos < MONTHS_LOG_SZ

/-- The initial state with the source-decay tick counter expired. -/
def source_decay_due : State :=
  { init with sd := { init.sd with pass_num := 7999 } }

/-- The initial state with the source-decay flag set. -/
def latched : State := { init with g_source_decay := 1 }

/-- A power read that reports `ERRORP`. -/
def power_error : Reading := ⟨0, "ERRORP\r\n"⟩

/-- The initial state with a full idle window. -/
def eclipsed_full_window : State :=
  { init with ci := { init.ci with consecutive_idles := 0xFF } }

/-- Successive calls (ticks) of `detect_chronic_idle`, oldest first; each
tick carries what the drivers would return if the tick fires. -/
def run_chronic_idle_ticks (ins : List IdleFiring) (s : State) : State :=
  ins.foldl (fun s i => detect_chronic_idle i.status i.temp i.v_bus s) s

/-- The aggregation state `sd` after `k` successful samples, of any values,
since the month-start state `sd0` (k < 43200): the positions are those of
minute k of the month, and the monthly fields are untouched. -/
def month_position (k : Nat) (sd0 sd : SourceDecay) : Prop :=
  sd.minutes_pos = k % 60 ∧ sd.hours_pos = k / 60 % 24 ∧ sd.days_pos = k / 1440 ∧
  sd.months_log = sd0.months_log ∧ sd.months_pos = sd0.months_pos ∧
  sd.baseline_avg = sd0.baseline_avg ∧
  sd.perform_monthly_check = sd0.perform_monthly_check

/-- The monthly average that the closing call computes from the running sums
and its own sample (`days_roll_avg / 30` after the three roll-ups). -/
def month_average (power : Reading) (sd : SourceDecay) : ℚ :=
  (sd.days_roll_avg + (sd.hours_roll_avg +
    (sd.minutes_roll_avg + convert_raw_to_watts power.raw) / 60) / 24) / 30

/-- The value of `months_pos` after the closing call has advanced it. -/
def next_months_pos (sd : SourceDecay) : Nat :=
  if sd.months_pos + 1 = 128 then 0 else sd.months_pos + 1

/-- The aggregation state one successful sample before a month closes. -/
def month_end (sd : SourceDecay) : Prop :=
  sd.minutes_pos = 59 ∧ sd.hours_pos = 23 ∧ sd.days_pos = 29 ∧ sd.months_pos < 128

/-- A successful power read of raw 0, that is 0 W. -/
def zero_watts : Reading := ⟨0, "OK"⟩

/-! ## The read-error flag under interleaving -/

/-- The call is a call of `detect_pwr_mon_read_error`. -/
def is_read_error_call : Call → Bool
  | Call.detect_pwr_mon_read_error _ _ => true
  | _ => false

/-- The read-error flag is 0 or 1, the delay counter is at most
`read_error_delay`, and it is 0 while the flag is clear. -/
def read_error_inv (s : State) : Prop :=
  (s.g_read_error = 0 ∨ s.g_read_error = 1) ∧
  s.pm.delay_counter ≤ read_error_delay ∧
  (s.g_read_error = 0 → s.pm.delay_counter = 0)

/-! ## Binary floating point

`float` is IEEE 754 binary32 and `double` is binary64.  The result of an
arithmetic operation or of a conversion is the exact value rounded to the
nearest number of the format, ties going to the even significand.
`round_to_format p emin` is this rounding for a format with `p` significand
bits whose least normal exponent is `emin` (gradual underflow included).
Overflow is not modelled: every value rounded below has magnitude at most
2^31, far below the largest finite number of either format.

The three conversions follow, with every rounding of their C expressions in
place.  A conversion of a `float` to `double` is exact and is not written. -/

/-- The nearest integer, a tie going to the even one. -/
def round_half_even (q : ℚ) : Int :=
  if q - ⌊q⌋ < 1 / 2 then ⌊q⌋
  else if 1 / 2 < q - ⌊q⌋ then ⌊q⌋ + 1
  else if ⌊q⌋ % 2 = 0 then ⌊q⌋ else ⌊q⌋ + 1

/-- The exponent of the unit in the last place of `x`: with `p` significand
bits, the numbers of the format around `x` are the integer multiples of
`2 ^ ulp_exponent p emin x`.  `Int.log 2 |x|` is the binary exponent of `x`,
and `emin` replaces it below the normal range. -/
def ulp_exponent (p : Nat) (emin : Int) (x : ℚ) : Int :=
  max (Int.log 2 |x|) emin - ((p : Int) - 1)

/-- Round to nearest, ties to even, in the format `(p, emin)`. -/
def round_to_format (p : Nat) (emin : Int) (x : ℚ) : ℚ :=
  round_half_even (x / 2 ^ ulp_exponent p emin x) * 2 ^ ulp_exponent p emin x

/-- Rounding to `float` (binary32: 24 significand bits, least normal exponent -126). -/
def round_float (x : ℚ) : ℚ := round_to_format 24 (-126) x

/-- Rounding to `double` (binary64: 53 significand bits, least normal exponent -1022). -/
def round_double (x : ℚ) : ℚ := round_to_format 53 (-1022) x

/-- The object `const float TEMP_CONVERT_FAC = 0.125;`: the `double` literal converted
to `float`. -/
def TEMP_CONVERT_FAC_float : ℚ := round_float (round_double 0.125)

/-- The object `const float VOLT_CONVERT_FAC = 3.125;`: the `double` literal converted
to `float`. -/
def VOLT_CONVERT_FAC_float : ℚ := round_float (round_double 3.125)

/-- The value `convert_raw_to_celsius` returns: `raw_temp_val * TEMP_CONVERT_FAC`
with the integer converted to `float` and the product taken in `float`. -/
def convert_raw_to_celsius_float (raw_temp_val : Int) : ℚ :=
  round_float (round_float raw_temp_val * TEMP_CONVERT_FAC_float)

/-- The value `convert_raw_to_mv` returns: `raw_volt_val * VOLT_CONVERT_FAC`
with the integer converted to `float` and the product taken in `float`. -/
def convert_raw_to_mv_float (raw_volt_val : Int) : ℚ :=
  round_float (round_float raw_volt_val * VOLT_CONVERT_FAC_float)

/-- The value `CURRENT_LSB` returns: the integer quotient
`MAXIMUM_EXPECTED_CURRENT / 32768` converted to `float`. -/
def CURRENT_LSB_float : ℚ :=
  round_float ((MAXIMUM_EXPECTED_CURRENT / 32768 : Int) : ℚ)

/-- The value `convert_raw_to_watts` returns.  In
`0.2 * CURRENT_LSB() * raw_power_val` the literal `0.2` is a `double`, so both
products are taken in `double` (the integer is converted to `double`), and
the `return` converts the result to `float`. -/
def convert_raw_to_watts_float (raw_power_val : Int) : ℚ :=
  round_float (round_double
    (round_double (round_double 0.2 * CURRENT_LSB_float) * round_double raw_power_val))

/-! # Theorems -/

/-! ## Chronic idle: the evidence window -/

theorem new_events_of_append {s s2 : State} {evs : List Event}
    (h : s2.trace = s.trace ++ evs) : new_events s s2 = evs := by
  simp [new_events, h]

theorem handle_chronic_idle_window (t v : Reading) (s : State) :
    (handle_chronic_idle t v s).ci.consecutive_idles = s.ci.consecutive_idles := by
  unfold handle_chronic_idle check_if_in_daylight_temp check_if_in_daylight_volt State.emit
  simp only
  split_ifs <;> rfl

theorem handle_chronic_idle_trace (t v : Reading) (s : State) :
    ∃ evs, (handle_chronic_idle t v s).trace
      = s.trace ++ Event.call_handle_chronic_idle :: evs := by
  unfold handle_chronic_idle check_if_in_daylight_temp check_if_in_daylight_volt State.emit
  simp only
  split_ifs <;> simp

theorem fire_window (out : eps_mppt_status) (t v : Reading) (s : State) :
    (detect_chronic_idle_fire out t v s).ci.consecutive_idles
      = if out = eps_mppt_status.EPS_MPPT_CHARGING_IDLE
        then ((s.ci.consecutive_idles <<< 1) ||| 1) % 256 else 0 := by
  unfold detect_chronic_idle_fire
  simp only
  split_ifs <;> simp [handle_chronic_idle_window, State.emit]

theorem fire_trace (out : eps_mppt_status) (t v : Reading) (s : State) :
    ∃ evs, (detect_chronic_idle_fire out t v s).trace = s.trace ++ evs ∧
      (Event.call_handle_chronic_idle ∈ evs ↔
        (out = eps_mppt_status.EPS_MPPT_CHARGING_IDLE ∧
          ((s.ci.consecutive_idles <<< 1) ||| 1) % 256 = 0xFF)) := by
  unfold detect_chronic_idle_fire
  simp only
  split_ifs with h1 h2
  · obtain ⟨evs, he⟩ := handle_chronic_idle_trace t v
      { s.emit Event.mppt_get_charge_status with ci := { s.ci with
        consecutive_idles := ((s.ci.consecutive_idles <<< 1) ||| 1) % 256 } }
    refine ⟨Event.mppt_get_charge_status :: Event.call_handle_chronic_idle :: evs, ?_, ?_⟩
    · simp only [State.emit] at he ⊢
      rw [he]; simp
    · simp [State.emit] at h2; simp [h1, h2]
  · refine ⟨[Event.mppt_get_charge_status], by simp [State.emit], ?_⟩
    simp [State.emit] at h2; simp [h1, h2]
  · refine ⟨[Event.mppt_get_charge_status], by simp [State.emit], ?_⟩
    simp [h1]

theorem run_chronic_idle_snoc (l : List IdleFiring) (x : IdleFiring) (s : State) :
    run_chronic_idle (l ++ [x]) s
      = detect_chronic_idle_fire x.status x.temp x.v_bus (run_chronic_idle l s) := by
  simp [run_chronic_idle, List.foldl_append]

theorem shift_window (m : Nat) (hm : m ≤ 8) :
    (((2 ^ m - 1) <<< 1) ||| 1) % 256 = 2 ^ (min 8 (m + 1)) - 1 := by
  interval_cases m <;> rfl

theorem run_window (l : List IdleFiring) (s : State) (h0 : s.ci.consecutive_idles = 0) :
    (run_chronic_idle l s).ci.consecutive_idles
      = 2 ^ (min 8 (idle_streak (l.map (fun i => i.status)).reverse)) - 1 := by
  induction l using List.reverseRecOn with
  | nil => simp [run_chronic_idle, idle_streak, h0]
  | append_singleton l x ih =>
    rw [run_chronic_idle_snoc, fire_window, ih]
    cases hx : x.status with
    | EPS_MPPT_CHARGING_IDLE =>
      simp only [List.map_append, List.map_cons, List.map_nil, List.reverse_append,
        List.reverse_cons, List.reverse_nil, List.nil_append, List.singleton_append, hx,
        idle_streak, if_true]
      rw [shift_window _ (Nat.min_le_left _ _)]
      congr 2
      omega
    | EPS_MPPT_OTHER k =>
      simp [hx, idle_streak]

theorem le_idle_streak_iff (r : List eps_mppt_status) (k : Nat) :
    k ≤ idle_streak r ↔
      (k ≤ r.length ∧ ∀ i, i < k → r.get? i = some eps_mppt_status.EPS_MPPT_CHARGING_IDLE) := by
  induction r generalizing k with
  | nil => 
    simp [idle_streak]
    intro h; subst h; simp
  | cons a r ih =>
    cases a with
    | EPS_MPPT_CHARGING_IDLE =>
      cases k with
      | zero => simp
      | succ k =>
        simp only [idle_streak, Nat.add_le_add_iff_right, ih, List.length_cons]
        constructor
        · rintro ⟨h1, h2⟩
          refine ⟨h1, ?_⟩
          intro i hi
          cases i with
          | zero => simp
          | succ i => simpa using h2 i (by omega)
        · rintro ⟨h1, h2⟩
          refine ⟨h1, ?_⟩
          intro i hi
          simpa using h2 (i + 1) (by omega)
    | EPS_MPPT_OTHER j =>
      cases k with
      | zero => simp
      | succ k =>
        simp only [idle_streak]
        constructor
        · intro h; omega
        · rintro ⟨_, h2⟩
          have := h2 0 (by omega)
          simp at this

theorem window_full_iff (k : Nat) : 2 ^ (min 8 k) - 1 = 0xFF ↔ 8 ≤ k := by
  constructor
  · intro h
    by_contra hk
    have hk2 : k < 8 := by omega
    interval_cases k <;> simp at h
  · intro h
    rw [Nat.min_eq_left h]; rfl

theorem streak_take_iff (sts : List eps_mppt_status) (n : Nat) (hn : n ≤ sts.length) :
    8 ≤ idle_streak (sts.take n).reverse ↔
      (8 ≤ n ∧ ∀ i, n - 8 ≤ i → i < n →
        sts[i]? = some eps_mppt_status.EPS_MPPT_CHARGING_IDLE) := by
  rw [le_idle_streak_iff]
  simp only [List.length_reverse, List.length_take, Nat.min_eq_left hn, List.get?_eq_getElem?]
  constructor
  · rintro ⟨h8, h⟩
    refine ⟨h8, ?_⟩
    intro i hi1 hi2
    have := h (n - 1 - i) (by omega)
    rw [List.getElem?_reverse (by simp; omega)] at this
    simp only [List.length_take, Nat.min_eq_left hn] at this
    have e : n - 1 - (n - 1 - i) = i := by omega
    rw [e, List.getElem?_take] at this
    simpa [hi2] using this
  · rintro ⟨h8, h⟩
    refine ⟨h8, ?_⟩
    intro i hi
    rw [List.getElem?_reverse (by simp; omega)]
    simp only [List.length_take, Nat.min_eq_left hn]
    rw [List.getElem?_take]
    have := h (n - 1 - i) (by omega) (by omega)
    simpa [show n - 1 - i < n by omega] using this

theorem fire_invokes_iff (out : eps_mppt_status) (t v : Reading) (s : State) :
    Event.call_handle_chronic_idle ∈ new_events s (detect_chronic_idle_fire out t v s) ↔
      (detect_chronic_idle_fire out t v s).ci.consecutive_idles = 0xFF := by
  obtain ⟨evs, he, hiff⟩ := fire_trace out t v s
  rw [new_events_of_append he, hiff, fire_window]
  by_cases h : out = eps_mppt_status.EPS_MPPT_CHARGING_IDLE <;> simp [h]

theorem take_succ_of_lt {α : Type} (ins : List α) (m : Nat) (hm : m < ins.length) :
    ins.take (m + 1) = ins.take m ++ [ins[m]] := by
  rw [List.take_succ, List.getElem?_eq_getElem hm]; rfl

theorem invoked_iff (ins : List IdleFiring) (s : State) (h0 : s.ci.consecutive_idles = 0)
    (n : Nat) (h1 : 1 ≤ n) (hn : n ≤ ins.length) :
    Event.call_handle_chronic_idle ∈
        new_events (run_chronic_idle (ins.take (n - 1)) s) (run_chronic_idle (ins.take n) s) ↔
      (8 ≤ n ∧ ∀ i, n - 8 ≤ i → i < n →
        (ins[i]?).map IdleFiring.status = some eps_mppt_status.EPS_MPPT_CHARGING_IDLE) := by
  obtain ⟨m, rfl⟩ : ∃ m, n = m + 1 := ⟨n - 1, by omega⟩
  have hm : m < ins.length := hn
  have hw := run_window (ins.take (m + 1)) s h0
  rw [Nat.add_sub_cancel]
  conv_lhs => rw [take_succ_of_lt ins m hm, run_chronic_idle_snoc]
  rw [fire_invokes_iff, ← run_chronic_idle_snoc, ← take_succ_of_lt ins m hm, hw,
    window_full_iff, List.map_take, streak_take_iff _ _ (by simpa using hn)]
  simp

theorem no_call_of_never_full (l : List IdleFiring) (s : State)
    (hs : Event.call_handle_chronic_idle ∉ s.trace)
    (h : ∀ m, m ≤ l.length → (run_chronic_idle (l.take m) s).ci.consecutive_idles ≠ 0xFF) :
    Event.call_handle_chronic_idle ∉ (run_chronic_idle l s).trace := by
  induction l using List.reverseRecOn with
  | nil => simpa [run_chronic_idle] using hs
  | append_singleton l x ih =>
    have ih2 := ih (fun m hm => by
      have := h m (by simp; omega)
      rwa [List.take_append_of_le_length hm] at this)
    have hlast := h (l ++ [x]).length (le_refl _)
    rw [List.take_length, run_chronic_idle_snoc] at hlast
    rw [run_chronic_idle_snoc]
    obtain ⟨evs, he, -⟩ := fire_trace x.status x.temp x.v_bus (run_chronic_idle l s)
    have hno := (fire_invokes_iff x.status x.temp x.v_bus (run_chronic_idle l s)).not.mpr hlast
    rw [new_events_of_append he] at hno
    rw [he]
    simp [ih2, hno]

open eps_mppt_status in
theorem eclipse_window (ins : List IdleFiring) (k : Nat) (s : State)
    (h0 : s.ci.consecutive_idles = 0)
    (hsc : ins.map IdleFiring.status =
      [EPS_MPPT_CHARGING_IDLE, EPS_MPPT_CHARGING_IDLE, EPS_MPPT_CHARGING_IDLE,
       EPS_MPPT_CHARGING_IDLE, EPS_MPPT_OTHER k, EPS_MPPT_CHARGING_IDLE,
       EPS_MPPT_CHARGING_IDLE, EPS_MPPT_CHARGING_IDLE, EPS_MPPT_CHARGING_IDLE]) (m : Nat) :
    (run_chronic_idle (ins.take m) s).ci.consecutive_idles ≠ 0xFF := by
  rw [run_window _ s h0, Ne, window_full_iff]
  have e : (fun i : IdleFiring => i.status) = IdleFiring.status := rfl
  rw [e, List.map_take, hsc]
  by_cases hm : m < 9
  · interval_cases m <;> simp [idle_streak]
  · rw [List.take_of_length_le (by simp; omega)]
    simp [idle_streak]

/-- A call of `detect_chronic_idle` whose tick counter has passed the cadence
threshold is a firing. -/
theorem detect_chronic_idle_expired (out : eps_mppt_status) (t v : Reading) (s : State)
    (h : g_const_PASS_REQ / (s.g_source_decay + 1) < s.ci.pass_num) :
    detect_chronic_idle out t v s = detect_chronic_idle_fire out t v s := by
  unfold detect_chronic_idle
  rw [if_neg (by omega)]

/-- C1: from the initial state, `handle_chronic_idle` is invoked at the n-th
firing of `detect_chronic_idle` exactly when n >= 8 and the firings n-7 .. n
(list positions n-8 .. n-1) all observed `EPS_MPPT_CHARGING_IDLE`; and on the
status sequence idle x4, non-idle, idle x4 the window is never 0xFF and the
handler is never invoked. -/
theorem C1_handler_iff_eight_consecutive_idles (ins : List IdleFiring) :
    (∀ n, 1 ≤ n → n ≤ ins.length →
      (Event.call_handle_chronic_idle ∈ firing_events ins init n ↔
        (8 ≤ n ∧ ∀ i, n - 8 ≤ i → i < n →
          (ins[i]?).map IdleFiring.status = some eps_mppt_status.EPS_MPPT_CHARGING_IDLE))) ∧
    (∀ k, ins.map IdleFiring.status =
        [eps_mppt_status.EPS_MPPT_CHARGING_IDLE, eps_mppt_status.EPS_MPPT_CHARGING_IDLE,
         eps_mppt_status.EPS_MPPT_CHARGING_IDLE, eps_mppt_status.EPS_MPPT_CHARGING_IDLE,
         eps_mppt_status.EPS_MPPT_OTHER k,
         eps_mppt_status.EPS_MPPT_CHARGING_IDLE, eps_mppt_status.EPS_MPPT_CHARGING_IDLE,
         eps_mppt_status.EPS_MPPT_CHARGING_IDLE, eps_mppt_status.EPS_MPPT_CHARGING_IDLE] →
      (∀ m, (run_chronic_idle (ins.take m) init).ci.consecutive_idles ≠ 0xFF) ∧
        Event.call_handle_chronic_idle ∉ (run_chronic_idle ins init).trace) := by
  refine ⟨fun n h1 hn => invoked_iff ins init rfl n h1 hn, ?_⟩
  intro k hsc
  have hw := eclipse_window ins k init rfl hsc
  exact ⟨hw, no_call_of_never_full ins init (by simp [init]) (fun m _ => hw m)⟩

/-- C1 on concrete runs: eight idle firings invoke the handler at the eighth,
and the eclipse sequence never does. -/
theorem C1_handler_iff_eight_consecutive_idles_witness :
    (1 ≤ 8 ∧ 8 ≤ (List.replicate 8 sunlit_idle).length ∧
      Event.call_handle_chronic_idle ∈ firing_events (List.replicate 8 sunlit_idle) init 8) ∧
    Event.call_handle_chronic_idle ∉ (run_chronic_idle eclipse_scenario init).trace :=
  ⟨⟨by decide, by decide,
    ((C1_handler_iff_eight_consecutive_idles (List.replicate 8 sunlit_idle)).1 8
      (by decide) (by decide)).mpr
      ⟨le_refl 8, by
        intro i _ hi
        have hi8 : i < 8 := hi
        interval_cases i <;> rfl⟩⟩,
   ((C1_handler_iff_eight_consecutive_idles eclipse_scenario).2 0 rfl).2⟩

/-! ## Chronic idle: the handler -/

theorem not_error_tag {m : String} (h : is_error_tag m = false) :
    m ≠ "ERRORT\r\n" ∧ m ≠ "ERRORV\r\n" ∧ m ≠ "ERRORC\r\n" ∧ m ≠ "ERRORP\r\n" := by
  simpa [is_error_tag, and_assoc] using h

theorem daylight_temp_iff (raw : Int) :
    convert_raw_to_celsius raw ≥ DAYLIGHT_TEMP_LIM ↔ 400 ≤ raw := by
  unfold convert_raw_to_celsius TEMP_CONVERT_FAC DAYLIGHT_TEMP_LIM
  constructor
  · intro h
    have h2 : (400 : ℚ) ≤ (raw : ℚ) := by linarith
    exact_mod_cast h2
  · intro h
    have h2 : (400 : ℚ) ≤ (raw : ℚ) := by exact_mod_cast h
    show (50 : ℚ) ≤ raw * 0.125
    linarith

theorem daylight_volt_iff (raw : Int) :
    convert_raw_to_mv raw ≥ DAYLIGHT_VOLT_LIM ↔ 0 ≤ raw := by
  unfold convert_raw_to_mv VOLT_CONVERT_FAC DAYLIGHT_VOLT_LIM
  constructor
  · intro h
    have h2 : (0 : ℚ) ≤ (raw : ℚ) := by linarith
    exact_mod_cast h2
  · intro h
    have h2 : (0 : ℚ) ≤ (raw : ℚ) := by exact_mod_cast h
    show (0 : ℚ) ≤ raw * 3.125
    linarith

/-- The handler with the MPPT-reset latch clear, in closed form. -/
theorem handle_chronic_idle_clear (t v : Reading) (s : State)
    (hl : s.ci.mppt_was_reset = FALSE) :
    handle_chronic_idle t v s =
      if t.out_message = "ERRORT\r\n" ∨ v.out_message = "ERRORT\r\n" then
        { s with g_read_error := TRUE,
                 trace := s.trace ++ [Event.call_handle_chronic_idle,
                   Event.eps_get_power_monitor_temp_func,
                   Event.eps_get_power_monitor_v_bus_val_func] }
      else if 400 ≤ t.raw ∧ 0 ≤ v.raw then
        { s with ci := { s.ci with mppt_was_reset := TRUE },
                 trace := s.trace ++ [Event.call_handle_chronic_idle,
                   Event.eps_get_power_monitor_temp_func,
                   Event.eps_get_power_monitor_v_bus_val_func, Event.mppt_init] }
      else
        { s with trace := s.trace ++ [Event.call_handle_chronic_idle,
                   Event.eps_get_power_monitor_temp_func,
                   Event.eps_get_power_monitor_v_bus_val_func] } := by
  unfold handle_chronic_idle check_if_in_daylight_temp check_if_in_daylight_volt
  simp only [State.emit, hl, if_true, daylight_temp_iff, daylight_volt_iff]
  by_cases h1 : t.out_message = "ERRORT\r\n" <;> by_cases h2 : v.out_message = "ERRORT\r\n" <;>
    by_cases h3 : 400 ≤ t.raw <;> by_cases h4 : 0 ≤ v.raw <;>
    simp [h1, h2, h3, h4, TRUE, FALSE, ERROR]

theorem handle_chronic_idle_set (t v : Reading) (s : State)
    (hl : s.ci.mppt_was_reset = TRUE) :
    handle_chronic_idle t v s =
      { s with trace := s.trace ++ [Event.call_handle_chronic_idle,
          Event.printf "Entering Safety Mode\n", Event.printf "Fault: chronic_idle\n"] } := by
  unfold handle_chronic_idle
  simp [State.emit, hl, TRUE, FALSE]

/-- C2: with the MPPT-reset latch clear and no error tag on either read,
`handle_chronic_idle` reinitialises the MPPT exactly once and sets the latch
exactly when raw_temp * 0.125 >= 50 and raw_volt * 3.125 >= 0, that is
raw_temp >= 400 and raw_volt >= 0; otherwise it neither reinitialises nor sets
the latch; it prints nothing in either case. -/
theorem C2_reinit_iff_daylight (t v : Reading) (s : State)
    (hl : s.ci.mppt_was_reset = FALSE)
    (ht : is_error_tag t.out_message = false) (hv : is_error_tag v.out_message = false) :
    (((new_events s (handle_chronic_idle t v s)).count Event.mppt_init = 1 ∧
        (handle_chronic_idle t v s).ci.mppt_was_reset = TRUE) ↔
      (convert_raw_to_celsius t.raw ≥ 50 ∧ convert_raw_to_mv v.raw ≥ 0)) ∧
    ((convert_raw_to_celsius t.raw ≥ 50 ∧ convert_raw_to_mv v.raw ≥ 0) ↔
      (400 ≤ t.raw ∧ 0 ≤ v.raw)) ∧
    (¬ (400 ≤ t.raw ∧ 0 ≤ v.raw) →
      Event.mppt_init ∉ new_events s (handle_chronic_idle t v s) ∧
        (handle_chronic_idle t v s).ci.mppt_was_reset = FALSE) ∧
    (∀ text, Event.printf text ∉ new_events s (handle_chronic_idle t v s)) := by
  have e1 := (not_error_tag ht).1
  have e2 := (not_error_tag hv).1
  have hd : (convert_raw_to_celsius t.raw ≥ 50 ∧ convert_raw_to_mv v.raw ≥ 0) ↔
      (400 ≤ t.raw ∧ 0 ≤ v.raw) := by
    have a := daylight_temp_iff t.raw
    have b := daylight_volt_iff v.raw
    simp only [DAYLIGHT_TEMP_LIM, DAYLIGHT_VOLT_LIM] at a b
    rw [a, b]
  rw [hd, handle_chronic_idle_clear t v s hl]
  by_cases h : 400 ≤ t.raw ∧ 0 ≤ v.raw
  · simp [e1, e2, h, new_events, TRUE, FALSE]
  · simp [e1, e2, h, new_events, TRUE, FALSE, hl]

/-- C2 at raw temperature 500 and raw bus voltage 100: one reinit, latch set. -/
theorem C2_reinit_iff_daylight_witness :
    init.ci.mppt_was_reset = FALSE ∧ is_error_tag "OK" = false ∧
      ((new_events init (handle_chronic_idle ⟨500, "OK"⟩ ⟨100, "OK"⟩ init)).count
          Event.mppt_init = 1 ∧
        (handle_chronic_idle ⟨500, "OK"⟩ ⟨100, "OK"⟩ init).ci.mppt_was_reset = TRUE) :=
  ⟨rfl, by decide,
    (C2_reinit_iff_daylight ⟨500, "OK"⟩ ⟨100, "OK"⟩ init rfl (by decide) (by decide)).1.mpr
      ((C2_reinit_iff_daylight ⟨500, "OK"⟩ ⟨100, "OK"⟩ init rfl (by decide)
        (by decide)).2.1.mpr ⟨by decide, by decide⟩)⟩

/-! ## Chronic idle: escalation -/

theorem fire_other (k : Nat) (t v : Reading) (s : State) :
    detect_chronic_idle_fire (eps_mppt_status.EPS_MPPT_OTHER k) t v s =
      { s with ci := { s.ci with pass_num := 0, consecutive_idles := 0, mppt_was_reset := FALSE },
               trace := s.trace ++ [Event.mppt_get_charge_status] } := by
  simp [detect_chronic_idle_fire, State.emit]

theorem fire_idle_not_full (t v : Reading) (s : State)
    (h : ((s.ci.consecutive_idles <<< 1) ||| 1) % 256 ≠ 0xFF) :
    detect_chronic_idle_fire eps_mppt_status.EPS_MPPT_CHARGING_IDLE t v s =
      { s with
        ci := { s.ci with
          pass_num := 0, consecutive_idles := ((s.ci.consecutive_idles <<< 1) ||| 1) % 256 },
               trace := s.trace ++ [Event.mppt_get_charge_status] } := by
  simp [detect_chronic_idle_fire, State.emit, h]

theorem fire_idle_full_set (t v : Reading) (s : State)
    (h : ((s.ci.consecutive_idles <<< 1) ||| 1) % 256 = 0xFF)
    (hl : s.ci.mppt_was_reset = TRUE) :
    detect_chronic_idle_fire eps_mppt_status.EPS_MPPT_CHARGING_IDLE t v s =
      { s with ci := { s.ci with pass_num := 0, consecutive_idles := 0xFF },
               trace := s.trace ++ [Event.mppt_get_charge_status,
                 Event.call_handle_chronic_idle, Event.printf "Entering Safety Mode\n",
                 Event.printf "Fault: chronic_idle\n"] } := by
  unfold detect_chronic_idle_fire
  simp only [State.emit, h, if_true]
  rw [handle_chronic_idle_set _ _ _ (by simpa using hl)]
  simp

theorem fire_idle_full_clear (t v : Reading) (s : State)
    (h : ((s.ci.consecutive_idles <<< 1) ||| 1) % 256 = 0xFF)
    (hl : s.ci.mppt_was_reset = FALSE) :
    ∃ evs, (detect_chronic_idle_fire eps_mppt_status.EPS_MPPT_CHARGING_IDLE t v s).trace
        = s.trace ++ evs ∧
      (∀ text, Event.printf text ∉ evs) ∧
      ((detect_chronic_idle_fire eps_mppt_status.EPS_MPPT_CHARGING_IDLE t v s).ci.mppt_was_reset
          = TRUE ↔ Event.mppt_init ∈ evs) ∧
      ((detect_chronic_idle_fire eps_mppt_status.EPS_MPPT_CHARGING_IDLE t v s).ci.mppt_was_reset
          = TRUE ∨
       (detect_chronic_idle_fire eps_mppt_status.EPS_MPPT_CHARGING_IDLE t v s).ci.mppt_was_reset
          = FALSE) := by
  unfold detect_chronic_idle_fire
  simp only [State.emit, h, if_true]
  rw [handle_chronic_idle_clear _ _ _ (by simpa using hl)]
  split_ifs
  · exact ⟨[Event.mppt_get_charge_status, Event.call_handle_chronic_idle,
      Event.eps_get_power_monitor_temp_func, Event.eps_get_power_monitor_v_bus_val_func],
      by simp, by simp, by simp [hl, TRUE, FALSE], by simp [hl]⟩
  · exact ⟨[Event.mppt_get_charge_status, Event.call_handle_chronic_idle,
      Event.eps_get_power_monitor_temp_func, Event.eps_get_power_monitor_v_bus_val_func,
      Event.mppt_init],
      by simp, by simp, by simp [TRUE, FALSE], by simp⟩
  · exact ⟨[Event.mppt_get_charge_status, Event.call_handle_chronic_idle,
      Event.eps_get_power_monitor_temp_func, Event.eps_get_power_monitor_v_bus_val_func],
      by simp, by simp, by simp [hl, TRUE, FALSE], by simp [hl]⟩

theorem firing_events_last (l : List IdleFiring) (x : IdleFiring) (s : State) :
    firing_events (l ++ [x]) s (l.length + 1) =
      new_events (run_chronic_idle l s)
        (detect_chronic_idle_fire x.status x.temp x.v_bus (run_chronic_idle l s)) := by
  unfold firing_events
  rw [Nat.add_sub_cancel, List.take_append_of_le_length (le_refl _), List.take_length,
    List.take_of_length_le (by simp), run_chronic_idle_snoc]

theorem firing_events_append (l r : List IdleFiring) (s : State) (m : Nat)
    (hm : m ≤ l.length) : firing_events (l ++ r) s m = firing_events l s m := by
  unfold firing_events
  rw [List.take_append_of_le_length hm, List.take_append_of_le_length (by omega)]

theorem firing_events_take (ins : List IdleFiring) (s : State) (n m : Nat) (hm : m ≤ n) :
    firing_events (ins.take n) s m = firing_events ins s m := by
  unfold firing_events
  rw [List.take_take, List.take_take, Nat.min_eq_left hm, Nat.min_eq_left (by omega)]

theorem fire_latch_step (x : IdleFiring) (s : State)
    (hb : s.ci.mppt_was_reset = TRUE ∨ s.ci.mppt_was_reset = FALSE)
    (hwl : s.ci.mppt_was_reset = TRUE → s.ci.consecutive_idles = 0xFF) :
    ((detect_chronic_idle_fire x.status x.temp x.v_bus s).ci.mppt_was_reset = TRUE ∨
      (detect_chronic_idle_fire x.status x.temp x.v_bus s).ci.mppt_was_reset = FALSE) ∧
    ((detect_chronic_idle_fire x.status x.temp x.v_bus s).ci.mppt_was_reset = TRUE →
      (detect_chronic_idle_fire x.status x.temp x.v_bus s).ci.consecutive_idles = 0xFF) ∧
    ((detect_chronic_idle_fire x.status x.temp x.v_bus s).ci.mppt_was_reset = TRUE ↔
      (x.status = eps_mppt_status.EPS_MPPT_CHARGING_IDLE ∧
        (s.ci.mppt_was_reset = TRUE ∨
          Event.mppt_init ∈
            new_events s (detect_chronic_idle_fire x.status x.temp x.v_bus s)))) ∧
    (Event.printf "Fault: chronic_idle\n" ∈
        new_events s (detect_chronic_idle_fire x.status x.temp x.v_bus s) ↔
      (x.status = eps_mppt_status.EPS_MPPT_CHARGING_IDLE ∧ s.ci.mppt_was_reset = TRUE)) ∧
    (Event.printf "Fault: chronic_idle\n" ∈
        new_events s (detect_chronic_idle_fire x.status x.temp x.v_bus s) →
      new_events s (detect_chronic_idle_fire x.status x.temp x.v_bus s) =
        [Event.mppt_get_charge_status, Event.call_handle_chronic_idle,
         Event.printf "Entering Safety Mode\n", Event.printf "Fault: chronic_idle\n"]) := by
  cases hx : x.status with
  | EPS_MPPT_OTHER k =>
    rw [fire_other]
    simp [new_events, TRUE, FALSE]
  | EPS_MPPT_CHARGING_IDLE =>
    by_cases hfull : ((s.ci.consecutive_idles <<< 1) ||| 1) % 256 = 0xFF
    · rcases hb with hl | hl
      · rw [fire_idle_full_set _ _ _ hfull hl]
        simp [new_events, hl]
      · obtain ⟨evs, he, hp, hi, hbb⟩ := fire_idle_full_clear x.temp x.v_bus s hfull hl
        have hw := fire_window eps_mppt_status.EPS_MPPT_CHARGING_IDLE x.temp x.v_bus s
        rw [if_pos rfl, hfull] at hw
        rw [new_events_of_append he]
        refine ⟨hbb, fun _ => hw, ?_, ?_, ?_⟩
        · rw [hi]; simp [hl, TRUE, FALSE]
        · simp [hp, hl, TRUE, FALSE]
        · intro h; exact absurd h (hp _)
    · have hl : s.ci.mppt_was_reset = FALSE := by
        rcases hb with hl | hl
        · exact absurd (by rw [hwl hl]; rfl) hfull
        · exact hl
      rw [fire_idle_not_full _ _ _ hfull]
      simp [new_events, hl, TRUE, FALSE]


theorem reinit_only_when_idle (x : IdleFiring) (s : State)
    (h : Event.mppt_init ∈ new_events s (detect_chronic_idle_fire x.status x.temp x.v_bus s)) :
    x.status = eps_mppt_status.EPS_MPPT_CHARGING_IDLE := by
  cases hx : x.status with
  | EPS_MPPT_CHARGING_IDLE => rfl
  | EPS_MPPT_OTHER k =>
    rw [hx, fire_other] at h
    simp [new_events] at h

theorem reinit_pending_snoc (l : List IdleFiring) (x : IdleFiring) (s : State) :
    reinit_pending (l ++ [x]) s ↔
      (x.status = eps_mppt_status.EPS_MPPT_CHARGING_IDLE ∧
        (reinit_pending l s ∨
          Event.mppt_init ∈ new_events (run_chronic_idle l s)
            (detect_chronic_idle_fire x.status x.temp x.v_bus (run_chronic_idle l s)))) := by
  unfold reinit_pending
  constructor
  · rintro ⟨m, h1, hm, hev, hall⟩
    rw [List.length_append, List.length_singleton] at hm hall
    by_cases hml : m ≤ l.length
    · have hx := hall l.length hml (by omega)
      rw [List.getElem?_append_right (le_refl _)] at hx
      simp at hx
      refine ⟨hx, Or.inl ⟨m, h1, hml, ?_, ?_⟩⟩
      · rwa [firing_events_append _ _ _ _ hml] at hev
      · intro j hj1 hj2
        have := hall j hj1 (by omega)
        rwa [List.getElem?_append_left hj2] at this
    · have hme : m = l.length + 1 := by omega
      subst hme
      rw [firing_events_last] at hev
      exact ⟨reinit_only_when_idle x _ hev, Or.inr hev⟩
  · rintro ⟨hx, hq | hev⟩
    · obtain ⟨m, h1, hm, hev, hall⟩ := hq
      refine ⟨m, h1, by simp; omega, ?_, ?_⟩
      · rwa [firing_events_append _ _ _ _ hm]
      · intro j hj1 hj2
        rw [List.length_append, List.length_singleton] at hj2
        by_cases hjl : j < l.length
        · rw [List.getElem?_append_left hjl]
          exact hall j hj1 hjl
        · have hje : j = l.length := by omega
          subst hje
          rw [List.getElem?_append_right (le_refl _)]
          simpa using hx
    · refine ⟨l.length + 1, by omega, by simp, ?_, ?_⟩
      · rwa [firing_events_last]
      · intro j hj1 hj2
        rw [List.length_append, List.length_singleton] at hj2
        omega

theorem latch_inv (l : List IdleFiring) (s : State)
    (hl : s.ci.mppt_was_reset = FALSE) :
    ((run_chronic_idle l s).ci.mppt_was_reset = TRUE ∨
      (run_chronic_idle l s).ci.mppt_was_reset = FALSE) ∧
    ((run_chronic_idle l s).ci.mppt_was_reset = TRUE →
      (run_chronic_idle l s).ci.consecutive_idles = 0xFF) ∧
    ((run_chronic_idle l s).ci.mppt_was_reset = TRUE ↔ reinit_pending l s) := by
  induction l using List.reverseRecOn with
  | nil =>
    have h : ¬ reinit_pending [] s := by
      rintro ⟨m, h1, hm, -⟩
      simp at hm; omega
    simp [run_chronic_idle, hl, h, TRUE, FALSE]
  | append_singleton l x ih =>
    obtain ⟨ihb, ihw, ihq⟩ := ih
    obtain ⟨sb, sw, sq, -, -⟩ := fire_latch_step x (run_chronic_idle l s) ihb ihw
    rw [run_chronic_idle_snoc]
    refine ⟨sb, sw, ?_⟩
    rw [sq, reinit_pending_snoc, ihq]


theorem reinit_pending_take (ins : List IdleFiring) (s : State) (k : Nat)
    (hk : k ≤ ins.length) :
    reinit_pending (ins.take k) s ↔
      ∃ m, 1 ≤ m ∧ m < k + 1 ∧ Event.mppt_init ∈ firing_events ins s m ∧
        ∀ j, m ≤ j → j < k →
          (ins[j]?).map IdleFiring.status = some eps_mppt_status.EPS_MPPT_CHARGING_IDLE := by
  unfold reinit_pending
  simp only [List.length_take, Nat.min_eq_left hk]
  constructor
  · rintro ⟨m, h1, hm, hev, hall⟩
    refine ⟨m, h1, by omega, ?_, ?_⟩
    · rwa [firing_events_take _ _ _ _ hm] at hev
    · intro j hj1 hj2
      have := hall j hj1 hj2
      rwa [List.getElem?_take, if_pos hj2] at this
  · rintro ⟨m, h1, hm, hev, hall⟩
    have hm2 : m ≤ k := by omega
    refine ⟨m, h1, hm2, ?_, ?_⟩
    · rwa [firing_events_take _ _ _ _ hm2]
    · intro j hj1 hj2
      rw [List.getElem?_take, if_pos hj2]
      exact hall j hj1 hj2

/-- C3: in a run of firings from the initial state, the safe-mode announcement
with `Fault: chronic_idle` is emitted at firing n exactly when that firing
observes idle with the window at 0xFF and an earlier firing m reinitialised
the MPPT with only idle observations since; then the firing does nothing but
query the status, enter the handler and print the two lines (no sensor read,
no second reinit). After a reinit every further idle firing escalates, and a
non-idle firing clears both the window and the latch. -/
theorem C3_escalation_iff_reinit_pending (ins : List IdleFiring) (n : Nat) (h1 : 1 ≤ n) (hn : n ≤ ins.length) :
    (Event.printf "Fault: chronic_idle\n" ∈ firing_events ins init n ↔
      ((ins[n - 1]?).map IdleFiring.status = some eps_mppt_status.EPS_MPPT_CHARGING_IDLE ∧
        (run_chronic_idle (ins.take n) init).ci.consecutive_idles = 0xFF ∧
        ∃ m, 1 ≤ m ∧ m < n ∧ Event.mppt_init ∈ firing_events ins init m ∧
          ∀ j, m ≤ j → j < n - 1 →
            (ins[j]?).map IdleFiring.status = some eps_mppt_status.EPS_MPPT_CHARGING_IDLE)) ∧
    (((ins[n - 1]?).map IdleFiring.status = some eps_mppt_status.EPS_MPPT_CHARGING_IDLE ∧
        ∃ m, 1 ≤ m ∧ m < n ∧ Event.mppt_init ∈ firing_events ins init m ∧
          ∀ j, m ≤ j → j < n - 1 →
            (ins[j]?).map IdleFiring.status = some eps_mppt_status.EPS_MPPT_CHARGING_IDLE) →
      Event.printf "Fault: chronic_idle\n" ∈ firing_events ins init n) ∧
    (Event.printf "Fault: chronic_idle\n" ∈ firing_events ins init n →
      firing_events ins init n =
        [Event.mppt_get_charge_status, Event.call_handle_chronic_idle,
         Event.printf "Entering Safety Mode\n", Event.printf "Fault: chronic_idle\n"]) ∧
    ((ins[n - 1]?).map IdleFiring.status ≠ some eps_mppt_status.EPS_MPPT_CHARGING_IDLE →
      (run_chronic_idle (ins.take n) init).ci.consecutive_idles = 0 ∧
        (run_chronic_idle (ins.take n) init).ci.mppt_was_reset = FALSE) := by
  obtain ⟨k, rfl⟩ : ∃ k, n = k + 1 := ⟨n - 1, by omega⟩
  have hk : k < ins.length := hn
  obtain ⟨ib, iw, iq⟩ := latch_inv (ins.take k) init rfl
  obtain ⟨-, -, -, sp, se⟩ := fire_latch_step ins[k] (run_chronic_idle (ins.take k) init) ib iw
  have hfe : firing_events ins init (k + 1) =
      new_events (run_chronic_idle (ins.take k) init)
        (detect_chronic_idle_fire ins[k].status ins[k].temp ins[k].v_bus
          (run_chronic_idle (ins.take k) init)) := by
    unfold firing_events
    rw [Nat.add_sub_cancel]
    conv_lhs => rw [take_succ_of_lt ins k hk, run_chronic_idle_snoc]
  have hrun : run_chronic_idle (ins.take (k + 1)) init =
      detect_chronic_idle_fire ins[k].status ins[k].temp ins[k].v_bus
          (run_chronic_idle (ins.take k) init) := by
    rw [take_succ_of_lt ins k hk, run_chronic_idle_snoc]
  have hq := reinit_pending_take ins init k (le_of_lt hk)
  have sp2 := sp
  rw [iq, hq] at sp2
  rw [Nat.add_sub_cancel, hfe, hrun, List.getElem?_eq_getElem hk]
  simp only [Option.map_some', Option.some.injEq, ne_eq]
  refine ⟨?_, sp2.mpr, se, ?_⟩
  · rw [sp2]
    constructor
    · rintro ⟨hx, hex⟩
      refine ⟨hx, ?_, hex⟩
      rw [fire_window, if_pos hx, iw (iq.mpr (hq.mpr hex))]
      rfl
    · rintro ⟨hx, -, hex⟩
      exact ⟨hx, hex⟩
  · intro hx
    cases hs : ins[k].status with
    | EPS_MPPT_CHARGING_IDLE => exact absurd hs hx
    | EPS_MPPT_OTHER j => rw [fire_other]; exact ⟨rfl, rfl⟩

/-- C3 on nine sunlit idle firings: the eighth reinitialises, the ninth
escalates and does nothing else. -/
theorem C3_escalation_iff_reinit_pending_witness :
    1 ≤ 9 ∧ 9 ≤ (List.replicate 9 sunlit_idle).length ∧
      Event.printf "Fault: chronic_idle\n" ∈
        firing_events (List.replicate 9 sunlit_idle) init 9 ∧
      firing_events (List.replicate 9 sunlit_idle) init 9 =
        [Event.mppt_get_charge_status, Event.call_handle_chronic_idle,
         Event.printf "Entering Safety Mode\n", Event.printf "Fault: chronic_idle\n"] := by
  have h := C3_escalation_iff_reinit_pending (List.replicate 9 sunlit_idle) 9
    (by decide) (by decide)
  have hp := h.2.1 ⟨rfl, 8, by decide, by decide, by
    simp [firing_events, run_chronic_idle, List.replicate, sunlit_idle,
      detect_chronic_idle_fire, State.emit, init, handle_chronic_idle,
      check_if_in_daylight_temp, check_if_in_daylight_volt, new_events, daylight_temp_iff,
      daylight_volt_iff, TRUE, FALSE, ERROR], by
    intro j hj1 hj2
    omega⟩
  exact ⟨by decide, by decide, hp, h.2.2.1 hp⟩

/-! ## Chronic idle: the bus-voltage error tag -/

/-- C4 (the code at the failing input): with the latch clear, a successful
temperature read and a bus-voltage read that returns its error tag `ERRORV`,
`check_if_in_daylight_volt` (which tests for `ERRORT`) reports daylight where
`volt_check` of `pwr_mon_read_error.c` reports `ERROR`; `handle_chronic_idle`
leaves `g_read_error` at 0, reinitialises the MPPT and sets the latch. Whatever
the raw values, `g_read_error` is not set. -/
theorem C4_volt_error_tag_not_detected :
    (check_if_in_daylight_volt ⟨0, "ERRORV\r\n"⟩ init).1 = TRUE ∧
    (volt_check ⟨0, "ERRORV\r\n"⟩ init).1 = ERROR ∧
    (handle_chronic_idle ⟨500, "OK"⟩ ⟨0, "ERRORV\r\n"⟩ init).g_read_error = 0 ∧
    Event.mppt_init ∈ new_events init (handle_chronic_idle ⟨500, "OK"⟩ ⟨0, "ERRORV\r\n"⟩ init) ∧
    (handle_chronic_idle ⟨500, "OK"⟩ ⟨0, "ERRORV\r\n"⟩ init).ci.mppt_was_reset = TRUE ∧
    (∀ raw_temp raw_volt : Int,
      (handle_chronic_idle ⟨raw_temp, "OK"⟩ ⟨raw_volt, "ERRORV\r\n"⟩ init).g_read_error = 0) := by
  have h1 : ¬ ("OK" = "ERRORT\r\n") := by decide
  have h2 : ¬ ("ERRORV\r\n" = "ERRORT\r\n") := by decide
  refine ⟨?_, ?_, ?_, ?_, ?_, ?_⟩
  · simp [check_if_in_daylight_volt, h2, daylight_volt_iff]
  · simp [volt_check]
  · rw [handle_chronic_idle_clear _ _ _ rfl]; simp [h1, h2]; rfl
  · rw [handle_chronic_idle_clear _ _ _ rfl]; simp [h1, h2, new_events, init]
  · rw [handle_chronic_idle_clear _ _ _ rfl]; simp [h1, h2]
  · intro a b
    rw [handle_chronic_idle_clear _ _ _ rfl]
    simp only [h1, h2, or_self, if_false]
    split_ifs <;> rfl

/-! ## Power-monitor read error -/

theorem any_check_is_error_eq (r : MonitorReads) (s : State) :
    any_check_is_error r s = (probe_fails r, { s with trace := s.trace ++ check_events r }) := by
  unfold any_check_is_error temp_check volt_check current_check power_check probe_fails
    check_events
  by_cases h1 : r.temp.out_message = "ERRORT\r\n" <;>
    by_cases h2 : r.v_bus.out_message = "ERRORV\r\n" <;>
    by_cases h3 : r.current.out_message = "ERRORC\r\n" <;>
    by_cases h4 : r.power.out_message = "ERRORP\r\n" <;>
    simp [h1, h2, h3, h4, ERROR, State.emit]

theorem call_not_in_check_events (r : MonitorReads) :
    Event.call_handle_pwr_mon_read_error ∉ check_events r := by
  unfold check_events
  split_ifs <;> simp

theorem daily_read_fire_eq (r : MonitorReads) (s : State) :
    daily_read_fire r s =
      (if probe_fails r = true ∧ s.pm.last_test_failed = TRUE then ERROR else 0,
       { s with
         pm := { s.pm with
           pass_num := 0, last_test_failed :=
             if probe_fails r = true ∧ s.pm.last_test_failed ≠ TRUE then TRUE else FALSE },
         trace := s.trace ++ check_events r }) := by
  unfold daily_read_fire
  simp only [any_check_is_error_eq]
  by_cases hf : probe_fails r = true <;> by_cases hl : s.pm.last_test_failed = TRUE <;>
    simp [hf, hl]

theorem follow_up_read_eq (r : MonitorReads) (s : State) :
    follow_up_read r s =
      if s.g_read_error = 1 then
        if s.pm.delay_counter ≥ read_error_delay then
          (if probe_fails r = true then ERROR else 0,
           { s with pm := { s.pm with delay_counter := 0 }, g_read_error := 0,
                    trace := s.trace ++ check_events r })
        else
          (0, { s with pm := { s.pm with
                  delay_counter := (s.pm.delay_counter + 1) % 2 ^ 32 } })
      else (0, s) := by
  unfold follow_up_read
  simp only [any_check_is_error_eq]
  split_ifs <;> rfl

theorem run_daily_read_snoc (l : List MonitorReads) (x : MonitorReads) (s : State) :
    run_daily_read (l ++ [x]) s = (daily_read_fire x (run_daily_read l s)).2 := by
  simp [run_daily_read, List.foldl_append]

theorem last_test_failed_inv (l : List MonitorReads) (s : State)
    (hs : s.pm.last_test_failed = FALSE) :
    (run_daily_read l s).pm.last_test_failed =
      (if fail_streak (l.map probe_fails).reverse % 2 = 1 then TRUE else FALSE) := by
  induction l using List.reverseRecOn with
  | nil => simp [run_daily_read, fail_streak, hs]
  | append_singleton l x ih =>
    rw [run_daily_read_snoc, daily_read_fire_eq]
    simp only [ih]
    cases hx : probe_fails x with
    | false => simp [fail_streak, hx]
    | true =>
      simp only [List.map_append, List.map_cons, List.map_nil, List.reverse_append,
        List.reverse_cons, List.reverse_nil, List.nil_append, List.singleton_append, hx,
        fail_streak]
      by_cases hp : fail_streak (List.map probe_fails l).reverse % 2 = 1
      · have : ¬ ((fail_streak (List.map probe_fails l).reverse + 1) % 2 = 1) := by omega
        simp [hp, this, TRUE, FALSE]
      · have : (fail_streak (List.map probe_fails l).reverse + 1) % 2 = 1 := by omega
        simp [hp, this, TRUE, FALSE]

theorem follow_up_read_trace (r : MonitorReads) (s : State) :
    ∃ evs, (follow_up_read r s).2.trace = s.trace ++ evs ∧
      Event.call_handle_pwr_mon_read_error ∉ evs := by
  rw [follow_up_read_eq]
  by_cases h1 : s.g_read_error = 1
  · by_cases h2 : s.pm.delay_counter ≥ read_error_delay
    · rw [if_pos h1, if_pos h2]
      exact ⟨check_events r, rfl, call_not_in_check_events r⟩
    · rw [if_pos h1, if_neg h2]
      exact ⟨[], by simp, by simp⟩
  · rw [if_neg h1]
    exact ⟨[], by simp, by simp⟩

theorem daily_read_trace (r : MonitorReads) (s : State) :
    ∃ evs, (daily_read r s).2.trace = s.trace ++ evs ∧
      Event.call_handle_pwr_mon_read_error ∉ evs := by
  unfold daily_read
  rw [daily_read_fire_eq]
  by_cases h1 : s.pm.pass_num ≥ g_const_PASS_REQ * read_error_pass_constant
  · rw [if_pos h1]
    exact ⟨check_events r, rfl, call_not_in_check_events r⟩
  · rw [if_neg h1]
    exact ⟨[], by simp, by simp⟩

theorem detect_pwr_mon_read_error_trace (fu d : MonitorReads) (s : State) :
    Event.call_handle_pwr_mon_read_error ∈ new_events s (detect_pwr_mon_read_error fu d s) ↔
      ((follow_up_read fu s).1 = ERROR ∨ (daily_read d (follow_up_read fu s).2).1 = ERROR) := by
  obtain ⟨e1, he1, c1⟩ := follow_up_read_trace fu s
  obtain ⟨e2, he2, c2⟩ := daily_read_trace d (follow_up_read fu s).2
  unfold detect_pwr_mon_read_error handle_pwr_mon_read_error
  simp only
  split_ifs with h1 h2
  · simp [new_events, State.emit, he1, h1]
  · simp [new_events, State.emit, he1, he2, h2]
  · simp [new_events, State.emit, he1, he2, h1, h2, c1, c2]

/-- A call of `daily_read` whose tick counter has reached a day is a firing. -/
theorem daily_read_expired (r : MonitorReads) (s : State)
    (h : g_const_PASS_REQ * read_error_pass_constant ≤ s.pm.pass_num) :
    daily_read r s = daily_read_fire r s := by
  unfold daily_read
  rw [if_pos h]

theorem take_succ_reads (ins : List MonitorReads) (m : Nat) (x : MonitorReads)
    (hm : ins[m]? = some x) : ins.take (m + 1) = ins.take m ++ [x] := by
  rw [List.take_succ, hm]; rfl

theorem last_test_failed_bool (l : List MonitorReads) :
    (run_daily_read l init).pm.last_test_failed = TRUE ∨
      (run_daily_read l init).pm.last_test_failed = FALSE := by
  rw [last_test_failed_inv l init rfl]
  split_ifs <;> simp

/-- C5: in a run of daily-probe firings from the initial state, the firing n
returns `ERROR` exactly when it fails and `last_test_failed` is set, which is
exactly when the immediately preceding firing failed with the latch clear (and
so set it). A failure with the latch clear returns 0 and sets it, an escalating
failure clears it, a success clears it; so the probe escalates exactly on the
even-numbered failures of each run of consecutive failures. When the follow-up
read does not itself return `ERROR`, `detect_pwr_mon_read_error` invokes the
handler exactly when `daily_read` returns `ERROR`. -/
theorem C5_two_strike_daily_probe (ins : List MonitorReads) (n : Nat) (r : MonitorReads)
    (h1 : 1 ≤ n) (hr : ins[n - 1]? = some r) :
    ((daily_read_fire r (run_daily_read (ins.take (n - 1)) init)).1 = ERROR ↔
      (probe_fails r = true ∧
        (run_daily_read (ins.take (n - 1)) init).pm.last_test_failed = TRUE)) ∧
    ((run_daily_read (ins.take (n - 1)) init).pm.last_test_failed = TRUE ↔
      ∃ r0, 2 ≤ n ∧ ins[n - 2]? = some r0 ∧ probe_fails r0 = true ∧
        (run_daily_read (ins.take (n - 2)) init).pm.last_test_failed = FALSE) ∧
    (probe_fails r = true →
      (run_daily_read (ins.take (n - 1)) init).pm.last_test_failed = FALSE →
      (daily_read_fire r (run_daily_read (ins.take (n - 1)) init)).1 = 0 ∧
        (run_daily_read (ins.take n) init).pm.last_test_failed = TRUE) ∧
    (probe_fails r = true →
      (run_daily_read (ins.take (n - 1)) init).pm.last_test_failed = TRUE →
      (daily_read_fire r (run_daily_read (ins.take (n - 1)) init)).1 = ERROR ∧
        (run_daily_read (ins.take n) init).pm.last_test_failed = FALSE) ∧
    (probe_fails r = false →
      (daily_read_fire r (run_daily_read (ins.take (n - 1)) init)).1 = 0 ∧
        (run_daily_read (ins.take n) init).pm.last_test_failed = FALSE) ∧
    ((daily_read_fire r (run_daily_read (ins.take (n - 1)) init)).1 = ERROR ↔
      (0 < fail_streak ((ins.take n).map probe_fails).reverse ∧
        fail_streak ((ins.take n).map probe_fails).reverse % 2 = 0)) ∧
    (∀ (s : State) (fu : MonitorReads), (follow_up_read fu s).1 ≠ ERROR →
      (Event.call_handle_pwr_mon_read_error ∈ new_events s (detect_pwr_mon_read_error fu r s) ↔
        (daily_read r (follow_up_read fu s).2).1 = ERROR)) := by
  obtain ⟨k, rfl⟩ : ∃ k, n = k + 1 := ⟨n - 1, by omega⟩
  rw [Nat.add_sub_cancel] at hr ⊢
  have htk := take_succ_reads ins k r hr
  have hb := last_test_failed_bool (ins.take k)
  have hstreak := last_test_failed_inv (ins.take k) init rfl
  rw [htk, run_daily_read_snoc, daily_read_fire_eq]
  refine ⟨?_, ?_, ?_, ?_, ?_, ?_, ?_⟩
  · simp [ERROR]
  · cases k with
    | zero => simp [run_daily_read, init, TRUE, FALSE]
    | succ j =>
      have hj : j < ins.length := by
        have := (List.getElem?_eq_some_iff.mp hr).1
        omega
      have hr0 : ins[j]? = some ins[j] := List.getElem?_eq_getElem hj
      have hb0 := last_test_failed_bool (ins.take j)
      rw [take_succ_reads ins j _ hr0, run_daily_read_snoc, daily_read_fire_eq]
      simp only [show j + 1 + 1 - 2 = j by omega, hr0]
      rcases hb0 with h0 | h0 <;> simp [h0, TRUE, FALSE]
  · intro hf hl
    simp [hf, hl, TRUE, FALSE]
  · intro hf hl
    simp [hf, hl, TRUE, FALSE]
  · intro hf
    simp [hf]
  · simp only [List.map_append, List.map_cons, List.map_nil, List.reverse_append,
      List.reverse_cons, List.reverse_nil, List.nil_append, List.singleton_append]
    generalize (List.map probe_fails (List.take k ins)).reverse = lst at hstreak ⊢
    cases hx : probe_fails r with
    | false => simp [fail_streak, ERROR]
    | true =>
      simp only [fail_streak]
      generalize fail_streak lst = st at hstreak ⊢
      by_cases hp : st % 2 = 1
      · rw [if_pos hp] at hstreak
        simp only [hstreak, and_self, if_true, true_iff]
        omega
      · rw [if_neg hp] at hstreak
        have hne : ¬ ((0 : Int) = ERROR) := by decide
        simp only [hstreak, show ¬ (FALSE = TRUE) by decide, and_false, if_false, hne,
          false_iff]
        omega
  · intro s fu hfu
    rw [detect_pwr_mon_read_error_trace]
    simp [hfu]

/-- C5 on two consecutive failing firings (`ERRORT` from the temperature
read): the first sets the latch and returns 0, the second returns `ERROR`. -/
theorem C5_two_strike_daily_probe_witness :
    1 ≤ 2 ∧ [temp_error_reads, temp_error_reads][2 - 1]? = some temp_error_reads ∧
    (daily_read_fire temp_error_reads init).1 = 0 ∧
    (daily_read_fire temp_error_reads
      (run_daily_read ([temp_error_reads, temp_error_reads].take (2 - 1)) init)).1 = ERROR := by
  have h1 := C5_two_strike_daily_probe [temp_error_reads, temp_error_reads] 1 temp_error_reads
    (by decide) rfl
  have h2 := C5_two_strike_daily_probe [temp_error_reads, temp_error_reads] 2 temp_error_reads
    (by decide) rfl
  have hf : probe_fails temp_error_reads = true := by decide
  exact ⟨by decide, rfl, (h1.2.2.1 hf rfl).1,
    h2.1.mpr ⟨hf, h2.2.1.mpr ⟨temp_error_reads, by decide, rfl, hf, rfl⟩⟩⟩

theorem probe_fails_iff (r : MonitorReads) :
    probe_fails r = true ↔
      (r.temp.out_message = "ERRORT\r\n" ∨ r.v_bus.out_message = "ERRORV\r\n" ∨
        r.current.out_message = "ERRORC\r\n" ∨ r.power.out_message = "ERRORP\r\n") := by
  unfold probe_fails
  simp only [Bool.or_eq_true, beq_iff_eq, or_assoc]

/-- C6: when `g_read_error` is 1 and the delay counter has reached
`read_error_delay` = 479940, `follow_up_read` zeroes the counter and clears the
flag whatever the reads return, and returns `ERROR` exactly when one of the four
reads returns its channel's error tag; `detect_pwr_mon_read_error` then invokes
the handler. -/
theorem C6_follow_up_read_when_due (r : MonitorReads) (s : State)
    (hg : s.g_read_error = 1) (hd : read_error_delay ≤ s.pm.delay_counter) :
    read_error_delay = 479940 ∧
    (follow_up_read r s).2.pm.delay_counter = 0 ∧
    (follow_up_read r s).2.g_read_error = 0 ∧
    ((follow_up_read r s).1 = ERROR ↔
      (r.temp.out_message = "ERRORT\r\n" ∨ r.v_bus.out_message = "ERRORV\r\n" ∨
        r.current.out_message = "ERRORC\r\n" ∨ r.power.out_message = "ERRORP\r\n")) ∧
    ((follow_up_read r s).1 = ERROR → ∀ daily,
      Event.call_handle_pwr_mon_read_error ∈
        new_events s (detect_pwr_mon_read_error r daily s)) := by
  have hd2 : s.pm.delay_counter ≥ read_error_delay := hd
  refine ⟨rfl, ?_, ?_, ?_, ?_⟩
  · rw [follow_up_read_eq, if_pos hg, if_pos hd2]
  · rw [follow_up_read_eq, if_pos hg, if_pos hd2]
  · rw [follow_up_read_eq, if_pos hg, if_pos hd2]
    rw [← probe_fails_iff]
    by_cases hf : probe_fails r = true <;> simp [hf, ERROR]
  · intro h daily
    rw [detect_pwr_mon_read_error_trace]
    exact Or.inl h

/-- C6 on a due follow-up whose temperature read reports `ERRORT`. -/
theorem C6_follow_up_read_when_due_witness :
    follow_up_due.g_read_error = 1 ∧ read_error_delay ≤ follow_up_due.pm.delay_counter ∧
    (follow_up_read temp_error_reads follow_up_due).1 = ERROR ∧
    (follow_up_read temp_error_reads follow_up_due).2.g_read_error = 0 :=
  ⟨rfl, by decide,
    (C6_follow_up_read_when_due temp_error_reads follow_up_due rfl
      (by decide)).2.2.2.1.mpr (Or.inl rfl),
    (C6_follow_up_read_when_due temp_error_reads follow_up_due rfl (by decide)).2.2.1⟩

theorem daily_read_frame (d : MonitorReads) (s : State) :
    (daily_read d s).2.g_read_error = s.g_read_error ∧
      (daily_read d s).2.pm.delay_counter = s.pm.delay_counter ∧
      ((daily_read d s).1 = ERROR → probe_fails d = true) := by
  unfold daily_read
  rw [daily_read_fire_eq]
  by_cases h : s.pm.pass_num ≥ g_const_PASS_REQ * read_error_pass_constant
  · rw [if_pos h]
    refine ⟨rfl, rfl, ?_⟩
    by_cases hf : probe_fails d = true <;> simp [hf, ERROR]
  · rw [if_neg h]
    exact ⟨rfl, rfl, by simp [ERROR]⟩

theorem detect_ok_step (fu d : MonitorReads) (s : State)
    (hfu : probe_fails fu = false) (hdd : probe_fails d = false) (hg : s.g_read_error = 1) :
    (s.pm.delay_counter < read_error_delay →
      (detect_pwr_mon_read_error fu d s).g_read_error = 1 ∧
        (detect_pwr_mon_read_error fu d s).pm.delay_counter = s.pm.delay_counter + 1) ∧
    (read_error_delay ≤ s.pm.delay_counter →
      (detect_pwr_mon_read_error fu d s).g_read_error = 0) ∧
    Event.call_handle_pwr_mon_read_error ∉ new_events s (detect_pwr_mon_read_error fu d s) := by
  obtain ⟨f1, f2, f3⟩ := daily_read_frame d (follow_up_read fu s).2
  have hn2 : (daily_read d (follow_up_read fu s).2).1 ≠ ERROR := by
    intro h; rw [f3 h] at hdd; exact absurd hdd (by decide)
  have hn1 : (follow_up_read fu s).1 ≠ ERROR := by
    rw [follow_up_read_eq]
    split_ifs <;> simp_all [ERROR]
  have hdet : detect_pwr_mon_read_error fu d s = (daily_read d (follow_up_read fu s).2).2 := by
    unfold detect_pwr_mon_read_error
    simp only
    rw [if_neg hn1, if_neg hn2]
  refine ⟨?_, ?_, ?_⟩
  · intro hlt
    rw [hdet, f1, f2, follow_up_read_eq, if_pos hg, if_neg (by omega)]
    refine ⟨hg, ?_⟩
    show (s.pm.delay_counter + 1) % 2 ^ 32 = s.pm.delay_counter + 1
    have : read_error_delay = 479940 := rfl
    omega
  · intro hge
    rw [hdet, f1, follow_up_read_eq, if_pos hg, if_pos hge]
  · rw [detect_pwr_mon_read_error_trace]
    simp [hn1, hn2]

theorem run_pwr_mon_snoc (l : List (MonitorReads × MonitorReads))
    (x : MonitorReads × MonitorReads) (s : State) :
    run_pwr_mon (l ++ [x]) s = detect_pwr_mon_read_error x.1 x.2 (run_pwr_mon l s) := by
  simp [run_pwr_mon, List.foldl_append]

theorem detect_pwr_mon_read_error_appends (fu d : MonitorReads) (s : State) :
    ∃ evs, (detect_pwr_mon_read_error fu d s).trace = s.trace ++ evs := by
  obtain ⟨e1, he1, -⟩ := follow_up_read_trace fu s
  obtain ⟨e2, he2, -⟩ := daily_read_trace d (follow_up_read fu s).2
  unfold detect_pwr_mon_read_error handle_pwr_mon_read_error
  simp only
  split_ifs
  · exact ⟨e1 ++ [Event.call_handle_pwr_mon_read_error, Event.printf "Entering Safety Mode\n",
      Event.printf "Fault: pwr_mon_read_error\n"], by simp [State.emit, he1]⟩
  · exact ⟨e1 ++ e2 ++ [Event.call_handle_pwr_mon_read_error,
      Event.printf "Entering Safety Mode\n", Event.printf "Fault: pwr_mon_read_error\n"],
      by simp [State.emit, he1, he2]⟩
  · exact ⟨e1 ++ e2, by simp [he1, he2]⟩

theorem follow_up_counting (l : List (MonitorReads × MonitorReads)) (s : State)
    (hg : s.g_read_error = 1) (hd : s.pm.delay_counter = 0)
    (hlen : l.length ≤ read_error_delay)
    (hok : ∀ i ∈ l, probe_fails i.1 = false ∧ probe_fails i.2 = false) :
    (run_pwr_mon l s).g_read_error = 1 ∧
      (run_pwr_mon l s).pm.delay_counter = l.length ∧
      ∃ evs, (run_pwr_mon l s).trace = s.trace ++ evs ∧
        Event.call_handle_pwr_mon_read_error ∉ evs := by
  induction l using List.reverseRecOn with
  | nil => exact ⟨hg, hd, [], by simp [run_pwr_mon], by simp⟩
  | append_singleton l x ih =>
    rw [List.length_append, List.length_singleton] at hlen
    obtain ⟨ig, idc, evs, iev, icall⟩ := ih (by omega) (fun i hi => hok i (by simp [hi]))
    obtain ⟨hx1, hx2⟩ := hok x (by simp)
    obtain ⟨st, -, scall⟩ := detect_ok_step x.1 x.2 _ hx1 hx2 ig
    obtain ⟨sg, sdc⟩ := st (by omega)
    obtain ⟨e2, he2⟩ := detect_pwr_mon_read_error_appends x.1 x.2 (run_pwr_mon l s)
    rw [new_events_of_append he2] at scall
    rw [run_pwr_mon_snoc]
    refine ⟨sg, by rw [sdc, idc]; simp, evs ++ e2, by rw [he2, iev]; simp, ?_⟩
    simp [icall, scall]

/-- C7 (amended): from a state with `g_read_error` set and the delay counter at
0, after PASS_REQ * 60 + 1 = 479941 error-free ticks of
`detect_pwr_mon_read_error` the flag is cleared and the handler has not been
invoked; after the first 479940 of them the flag is still set and the delay
counter stands at 479940. -/
theorem C7_flag_cleared_after_delay_plus_one (ins : List (MonitorReads × MonitorReads)) (s : State)
    (hg : s.g_read_error = 1) (hd : s.pm.delay_counter = 0)
    (hlen : ins.length = g_const_PASS_REQ * 60 + 1)
    (hok : ∀ i ∈ ins, probe_fails i.1 = false ∧ probe_fails i.2 = false) :
    (run_pwr_mon ins s).g_read_error = 0 ∧
    Event.call_handle_pwr_mon_read_error ∉ new_events s (run_pwr_mon ins s) ∧
    (run_pwr_mon (ins.take (g_const_PASS_REQ * 60)) s).g_read_error = 1 ∧
    (run_pwr_mon (ins.take (g_const_PASS_REQ * 60)) s).pm.delay_counter
      = g_const_PASS_REQ * 60 := by
  have hlt : g_const_PASS_REQ * 60 < ins.length := by omega
  have hsplit : ins = ins.take (g_const_PASS_REQ * 60) ++ [ins[g_const_PASS_REQ * 60]] := by
    rw [← take_succ_of_lt ins _ hlt, List.take_of_length_le (by omega)]
  have hmem : ∀ i ∈ ins.take (g_const_PASS_REQ * 60),
      probe_fails i.1 = false ∧ probe_fails i.2 = false :=
    fun i hi => hok i (List.mem_of_mem_take hi)
  obtain ⟨cg, cdc, evs, cev, ccall⟩ := follow_up_counting (ins.take (g_const_PASS_REQ * 60)) s
    hg hd (by rw [List.length_take]; exact Nat.min_le_left _ _) hmem
  rw [List.length_take, Nat.min_eq_left (le_of_lt hlt)] at cdc
  obtain ⟨hx1, hx2⟩ := hok ins[g_const_PASS_REQ * 60] (List.getElem_mem _)
  obtain ⟨-, sclear, scall⟩ := detect_ok_step _ _ _ hx1 hx2 cg
  obtain ⟨e2, he2⟩ := detect_pwr_mon_read_error_appends ins[g_const_PASS_REQ * 60].1
    ins[g_const_PASS_REQ * 60].2 (run_pwr_mon (ins.take (g_const_PASS_REQ * 60)) s)
  rw [new_events_of_append he2] at scall
  have hrun : run_pwr_mon ins s = detect_pwr_mon_read_error ins[g_const_PASS_REQ * 60].1
      ins[g_const_PASS_REQ * 60].2 (run_pwr_mon (ins.take (g_const_PASS_REQ * 60)) s) := by
    conv_lhs => rw [hsplit, run_pwr_mon_snoc]
  refine ⟨?_, ?_, cg, cdc⟩
  · rw [hrun]
    exact sclear (by rw [cdc]; exact le_refl _)
  · have ht : (run_pwr_mon ins s).trace = s.trace ++ (evs ++ e2) := by
      rw [hrun, he2, cev]; simp
    rw [new_events_of_append ht]
    simp [ccall, scall]

/-- C7 as stated fails: from the initial state with the flag set, 479940
error-free ticks leave `g_read_error` at 1. -/
theorem C7_flag_still_set_after_delay_ticks :
    read_error_pending.g_read_error = 1 ∧ read_error_pending.pm.delay_counter = 0 ∧
    probe_fails ok_reads = false ∧
    (List.replicate (g_const_PASS_REQ * 60) (ok_reads, ok_reads)).length = 479940 ∧
    (run_pwr_mon (List.replicate (g_const_PASS_REQ * 60) (ok_reads, ok_reads))
      read_error_pending).g_read_error = 1 := by
  have hlen : (List.replicate (g_const_PASS_REQ * 60) (ok_reads, ok_reads)).length
      = g_const_PASS_REQ * 60 := List.length_replicate _ _
  refine ⟨rfl, rfl, by decide, hlen, ?_⟩
  refine (follow_up_counting _ read_error_pending rfl rfl (le_of_eq hlen) ?_).1
  intro i hi
  rw [List.eq_of_mem_replicate hi]
  exact ⟨by decide, by decide⟩

/-- C7 on 479941 error-free ticks from the initial state with the flag set. -/
theorem C7_flag_cleared_after_delay_plus_one_witness :
    read_error_pending.g_read_error = 1 ∧ read_error_pending.pm.delay_counter = 0 ∧
    (run_pwr_mon (List.replicate (g_const_PASS_REQ * 60 + 1) (ok_reads, ok_reads))
      read_error_pending).g_read_error = 0 :=
  ⟨rfl, rfl,
    (C7_flag_cleared_after_delay_plus_one
      (List.replicate (g_const_PASS_REQ * 60 + 1) (ok_reads, ok_reads)) read_error_pending
      rfl rfl (List.length_replicate _ _)
      (fun i hi => by
        rw [List.eq_of_mem_replicate hi]
        exact ⟨by decide, by decide⟩)).1⟩

/-! ## Source decay -/

/-- A call of `detect_source_decay` with the fault flag clear and the tick
counter expired is a firing. -/
theorem detect_source_decay_expired (p : Reading) (s : State)
    (hg : s.g_source_decay ≠ 1) (h : g_const_PASS_REQ ≤ s.sd.pass_num) :
    detect_source_decay p s = detect_source_decay_fire p s := by
  unfold detect_source_decay
  rw [if_pos hg, if_neg (by omega)]

theorem log_current_power_baseline (p : Reading) (s : State) (h : s.sd.baseline_avg ≠ 0) :
    (log_current_power p s).2.sd.baseline_avg = s.sd.baseline_avg := by
  unfold log_current_power
  simp only [State.emit]
  split_ifs <;> rfl

theorem detect_source_decay_fire_baseline (p : Reading) (s : State) :
    (detect_source_decay_fire p s).sd.baseline_avg = (log_current_power p s).2.sd.baseline_avg := by
  unfold detect_source_decay_fire
  simp only
  split_ifs <;> rfl

/-- C9: in a state whose `baseline_avg` is non-zero, neither
`log_current_power` nor `detect_source_decay` changes `baseline_avg`, whatever
the power read returns. -/
theorem C9_baseline_never_overwritten (p : Reading) (s : State) (h : s.sd.baseline_avg ≠ 0) :
    (log_current_power p s).2.sd.baseline_avg = s.sd.baseline_avg ∧
    (detect_source_decay p s).sd.baseline_avg = s.sd.baseline_avg := by
  refine ⟨log_current_power_baseline p s h, ?_⟩
  unfold detect_source_decay
  split_ifs
  · rfl
  · rw [detect_source_decay_fire_baseline, log_current_power_baseline p s h]
  · rfl

theorem log_current_power_minute (p : Reading) (s : State)
    (hp : p.out_message ≠ "ERRORP\r\n") (hm : s.sd.minutes_pos + 1 < 60) :
    log_current_power p s =
      (0, { s with
        sd := { s.sd with
          raw_power_val := p.raw,
          minutes_roll_avg := s.sd.minutes_roll_avg + convert_raw_to_watts p.raw,
          minutes_pos := s.sd.minutes_pos + 1 },
        trace := s.trace ++ [Event.eps_get_power_monitor_power_func] }) := by
  have h1 : (s.sd.minutes_pos + 1) % 2 ^ 8 = s.sd.minutes_pos + 1 := by omega
  have h2 : s.sd.minutes_pos + 1 ≠ 60 := by omega
  unfold log_current_power
  simp only [State.emit, hp, if_false, h1, h2]

theorem log_current_power_hour (p : Reading) (s : State)
    (hp : p.out_message ≠ "ERRORP\r\n") (hm : s.sd.minutes_pos = 59)
    (hh : s.sd.hours_pos + 1 < 24) :
    log_current_power p s =
      (0, { s with
        sd := { s.sd with
          raw_power_val := p.raw,
          minutes_roll_avg := 0,
          minutes_pos := 0,
          hours_roll_avg := s.sd.hours_roll_avg +
            (s.sd.minutes_roll_avg + convert_raw_to_watts p.raw) / 60,
          hours_pos := s.sd.hours_pos + 1 },
        trace := s.trace ++ [Event.eps_get_power_monitor_power_func] }) := by
  have h1 : (s.sd.hours_pos + 1) % 256 = s.sd.hours_pos + 1 := by omega
  have h2 : s.sd.hours_pos + 1 ≠ 24 := by omega
  unfold log_current_power
  simp only [State.emit, hp, if_false, hm, h1, h2, Nat.reduceAdd, Nat.reducePow, Nat.reduceMod,
    if_true]

theorem log_current_power_day (p : Reading) (s : State)
    (hp : p.out_message ≠ "ERRORP\r\n") (hm : s.sd.minutes_pos = 59)
    (hh : s.sd.hours_pos = 23) (hd : s.sd.days_pos + 1 < 30) :
    log_current_power p s =
      (0, { s with
        sd := { s.sd with
          raw_power_val := p.raw,
          minutes_roll_avg := 0,
          minutes_pos := 0,
          hours_roll_avg := 0,
          hours_pos := 0,
          days_roll_avg := s.sd.days_roll_avg +
            (s.sd.hours_roll_avg + (s.sd.minutes_roll_avg + convert_raw_to_watts p.raw) / 60) / 24,
          days_pos := s.sd.days_pos + 1 },
        trace := s.trace ++ [Event.eps_get_power_monitor_power_func] }) := by
  have h1 : (s.sd.days_pos + 1) % 256 = s.sd.days_pos + 1 := by omega
  have h2 : s.sd.days_pos + 1 ≠ 30 := by omega
  unfold log_current_power
  simp only [State.emit, hp, if_false, hm, hh, h1, h2, Nat.reduceAdd, Nat.reducePow,
    Nat.reduceMod, if_true]

theorem log_current_power_month (p : Reading) (s : State)
    (hp : p.out_message ≠ "ERRORP\r\n") (hm : s.sd.minutes_pos = 59)
    (hh : s.sd.hours_pos = 23) (hd : s.sd.days_pos = 29) (hmp : s.sd.months_pos < 128) :
    log_current_power p s =
      (0, { s with
        sd := { s.sd with
          raw_power_val := p.raw,
          minutes_roll_avg := 0,
          minutes_pos := 0,
          hours_roll_avg := 0,
          hours_pos := 0,
          days_roll_avg := 0,
          days_pos := 0,
          months_log := Function.update s.sd.months_log s.sd.months_pos
            ((s.sd.days_roll_avg + (s.sd.hours_roll_avg +
              (s.sd.minutes_roll_avg + convert_raw_to_watts p.raw) / 60) / 24) / 30),
          baseline_avg :=
            if s.sd.baseline_avg = 0 then
              (s.sd.days_roll_avg + (s.sd.hours_roll_avg +
                (s.sd.minutes_roll_avg + convert_raw_to_watts p.raw) / 60) / 24) / 30
            else s.sd.baseline_avg,
          perform_monthly_check :=
            if s.sd.baseline_avg = 0 then s.sd.perform_monthly_check else TRUE,
          months_pos := if s.sd.months_pos + 1 = 128 then 0 else s.sd.months_pos + 1 },
        trace := s.trace ++ [Event.eps_get_power_monitor_power_func] }) := by
  have h1 : (s.sd.months_pos + 1) % 256 = s.sd.months_pos + 1 := by omega
  unfold log_current_power
  simp only [State.emit, hp, if_false, hm, hh, hd, h1, Nat.reduceAdd, Nat.reducePow,
    Nat.reduceMod, if_true, MONTHS_LOG_SZ, Function.update_same]
  by_cases hb : s.sd.baseline_avg = 0 <;> by_cases h128 : s.sd.months_pos + 1 = 128 <;>
    simp [hb, h128, h1]

theorem month_progress_zero (w : ℚ) (sd : SourceDecay) (h : month_start sd) :
    month_progress w 0 sd sd := by
  obtain ⟨h1, h2, h3, h4, h5, h6⟩ := h
  simp [month_progress, h1, h2, h3, h4, h5, h6]

theorem month_progress_step (w : ℚ) (k : Nat) (sd0 : SourceDecay) (p : Reading) (s : State)
    (hin : month_progress w k sd0 s.sd) (hk : k + 1 < 43200)
    (hp : p.out_message ≠ "ERRORP\r\n") (hw : convert_raw_to_watts p.raw = w) :
    (log_current_power p s).1 = 0 ∧
      month_progress w (k + 1) sd0 (log_current_power p s).2.sd := by
  obtain ⟨i1, i2, i3, i4, i5, i6, i7, i8, i9, i10⟩ := hin
  by_cases hm : k % 60 = 59
  · by_cases hh : k / 60 % 24 = 23
    · have hd : s.sd.days_pos + 1 < 30 := by omega
      rw [log_current_power_day p s hp (by omega) (by omega) hd]
      have e1 : (k + 1) % 60 = 0 := by omega
      have e2 : (k + 1) / 60 % 24 = 0 := by omega
      have e3 : (k + 1) / 1440 = k / 1440 + 1 := by omega
      refine ⟨rfl, ?_, ?_, ?_, ?_, ?_, ?_, i7, i8, i9, i10⟩
      · simp [e1]
      · simp [e2]
      · simp [e3, i3]
      · simp [e1]
      · simp [e2]
      · simp only [e3, i4, i5, i6, hw, hm, hh]
        push_cast
        ring
    · have hh2 : s.sd.hours_pos + 1 < 24 := by omega
      rw [log_current_power_hour p s hp (by omega) hh2]
      have e1 : (k + 1) % 60 = 0 := by omega
      have e2 : (k + 1) / 60 % 24 = k / 60 % 24 + 1 := by omega
      have e3 : (k + 1) / 1440 = k / 1440 := by omega
      refine ⟨rfl, ?_, ?_, ?_, ?_, ?_, ?_, i7, i8, i9, i10⟩
      · simp [e1]
      · simp [e2, i2]
      · simp [e3, i3]
      · simp [e1]
      · simp only [e2, i4, i5, hw, hm]
        push_cast
        ring
      · simp [e3, i6]
  · have hm2 : s.sd.minutes_pos + 1 < 60 := by omega
    rw [log_current_power_minute p s hp hm2]
    have e1 : (k + 1) % 60 = k % 60 + 1 := by omega
    have e2 : (k + 1) / 60 % 24 = k / 60 % 24 := by omega
    have e3 : (k + 1) / 1440 = k / 1440 := by omega
    refine ⟨rfl, ?_, ?_, ?_, ?_, ?_, ?_, i7, i8, i9, i10⟩
    · simp [e1, i1]
    · simp [e2, i2]
    · simp [e3, i3]
    · simp only [e1, i4, hw]
      push_cast
      ring
    · simp [e2, i5]
    · simp [e3, i6]

theorem month_progress_close (w : ℚ) (sd0 : SourceDecay) (p : Reading) (s : State)
    (hin : month_progress w 43199 sd0 s.sd) (hmp : sd0.months_pos < 128)
    (hp : p.out_message ≠ "ERRORP\r\n") (hw : convert_raw_to_watts p.raw = w) :
    log_current_power p s =
      (0, { s with
        sd := { s.sd with
          raw_power_val := p.raw,
          minutes_roll_avg := 0,
          minutes_pos := 0,
          hours_roll_avg := 0,
          hours_pos := 0,
          days_roll_avg := 0,
          days_pos := 0,
          months_log := Function.update sd0.months_log sd0.months_pos w,
          baseline_avg := if sd0.baseline_avg = 0 then w else sd0.baseline_avg,
          perform_monthly_check :=
            if sd0.baseline_avg = 0 then sd0.perform_monthly_check else TRUE,
          months_pos := if sd0.months_pos + 1 = 128 then 0 else sd0.months_pos + 1 },
        trace := s.trace ++ [Event.eps_get_power_monitor_power_func] }) := by
  obtain ⟨i1, i2, i3, i4, i5, i6, i7, i8, i9, i10⟩ := hin
  rw [log_current_power_month p s hp (by omega) (by omega) (by omega) (by omega)]
  have e : (s.sd.days_roll_avg + (s.sd.hours_roll_avg +
      (s.sd.minutes_roll_avg + convert_raw_to_watts p.raw) / 60) / 24) / 30 = w := by
    rw [i4, i5, i6, hw]
    norm_num
    ring
  rw [e, i7, i8, i9, i10]

theorem read_ok_iff (p : Reading) : read_ok p = true ↔ p.out_message ≠ "ERRORP\r\n" := by
  simp [read_ok]

theorem log_current_power_error (p : Reading) (s : State)
    (hp : p.out_message = "ERRORP\r\n") :
    log_current_power p s =
      (ERROR, { s with sd := { s.sd with raw_power_val := p.raw },
                       trace := s.trace ++ [Event.eps_get_power_monitor_power_func] }) := by
  unfold log_current_power
  simp [State.emit, hp]

theorem run_log_current_power_snoc (l : List Reading) (x : Reading) (s : State) :
    run_log_current_power (l ++ [x]) s = (log_current_power x (run_log_current_power l s)).2 := by
  simp [run_log_current_power, List.foldl_append]

theorem run_log_month (w : ℚ) (l : List Reading) (s : State)
    (hs : month_start s.sd) (hmp : s.sd.months_pos < 128)
    (hraw : ∀ p ∈ l, read_ok p = true → convert_raw_to_watts p.raw = w)
    (hlen : l.countP read_ok ≤ 43200) :
    (l.countP read_ok < 43200 →
      month_progress w (l.countP read_ok) s.sd (run_log_current_power l s).sd) ∧
    (l.countP read_ok = 43200 → month_closed w s.sd (run_log_current_power l s).sd) := by
  induction l using List.reverseRecOn with
  | nil =>
    refine ⟨fun _ => ?_, fun h => ?_⟩
    · simpa [run_log_current_power] using month_progress_zero w s.sd hs
    · simp at h
  | append_singleton l x ih =>
    rw [run_log_current_power_snoc]
    rw [List.countP_append, List.countP_singleton] at hlen ⊢
    have hraw2 : ∀ p ∈ l, read_ok p = true → convert_raw_to_watts p.raw = w :=
      fun p hp => hraw p (by simp [hp])
    by_cases hx : read_ok x = true
    · rw [if_pos hx] at hlen ⊢
      have hxp := (read_ok_iff x).mp hx
      have hxw := hraw x (by simp) hx
      obtain ⟨ihp, -⟩ := ih hraw2 (by omega)
      have hprog := ihp (by omega)
      refine ⟨fun hlt => ?_, fun heq => ?_⟩
      · exact (month_progress_step w _ s.sd x _ hprog hlt hxp hxw).2
      · have h43 : List.countP read_ok l = 43199 := by omega
        rw [h43] at hprog
        rw [month_progress_close w s.sd x _ hprog hmp hxp hxw]
        exact ⟨⟨rfl, rfl, rfl, rfl, rfl, rfl⟩, rfl, rfl, rfl, rfl⟩
    · rw [if_neg hx] at hlen ⊢
      have hxp : x.out_message = "ERRORP\r\n" := by
        by_contra h; exact hx ((read_ok_iff x).mpr h)
      rw [log_current_power_error x _ hxp]
      exact ih hraw2 hlen

theorem convert_raw_to_watts_eq (raw : Int) : convert_raw_to_watts raw = 0.2 * raw := by
  simp [convert_raw_to_watts, CURRENT_LSB, MAXIMUM_EXPECTED_CURRENT]

/-- C10: over exact rational arithmetic, from the initial state, if every
successful call of `log_current_power` reads the same raw power r, then once
30*24*60 = 43200 calls have succeeded `months_log[0]` is exactly 0.2 * r,
`months_pos` is 1 and the three running sums are 0; while fewer have
succeeded `months_log` is still all zero and `months_pos` is 0. -/
theorem C10_constant_month_average (r : Int) (ins : List Reading)
    (hraw : ∀ p ∈ ins, p.out_message ≠ "ERRORP\r\n" → p.raw = r) :
    (ins.countP read_ok = 30 * 24 * 60 →
      (run_log_current_power ins init).sd.months_log 0 = 0.2 * (r : ℚ) ∧
      (run_log_current_power ins init).sd.months_pos = 1 ∧
      (run_log_current_power ins init).sd.minutes_roll_avg = 0 ∧
      (run_log_current_power ins init).sd.hours_roll_avg = 0 ∧
      (run_log_current_power ins init).sd.days_roll_avg = 0) ∧
    (ins.countP read_ok < 30 * 24 * 60 →
      (∀ i, (run_log_current_power ins init).sd.months_log i = 0) ∧
      (run_log_current_power ins init).sd.months_pos = 0) := by
  have hw : ∀ p ∈ ins, read_ok p = true → convert_raw_to_watts p.raw = 0.2 * (r : ℚ) := by
    intro p hp hok
    rw [hraw p hp ((read_ok_iff p).mp hok), convert_raw_to_watts_eq]
  have hs : month_start init.sd := ⟨rfl, rfl, rfl, rfl, rfl, rfl⟩
  have hmp : init.sd.months_pos < 128 := by decide
  refine ⟨fun heq => ?_, fun hlt => ?_⟩
  · obtain ⟨⟨-, -, -, c4, c5, c6⟩, c7, c8, -, -⟩ :=
      (run_log_month _ ins init hs hmp hw (le_of_eq heq)).2 heq
    refine ⟨?_, ?_, c4, c5, c6⟩
    · rw [c7]; simp [init]
    · rw [c8]; simp [init]
  · obtain ⟨-, -, -, -, -, -, c7, c8, -, -⟩ :=
      (run_log_month _ ins init hs hmp hw (le_of_lt hlt)).1 hlt
    refine ⟨fun i => ?_, ?_⟩
    · rw [c7]; rfl
    · rw [c8]; rfl

theorem countP_read_ok_replicate (n : Nat) (p : Reading) (hp : read_ok p = true) :
    (List.replicate n p).countP read_ok = n := by
  rw [List.countP_replicate, if_pos hp]

theorem run_source_decay_snoc (l : List Reading) (x : Reading) (s : State) :
    run_source_decay (l ++ [x]) s = detect_source_decay_fire x (run_source_decay l s) := by
  simp [run_source_decay, List.foldl_append]

theorem run_source_decay_append (l l2 : List Reading) (s : State) :
    run_source_decay (l ++ l2) s = run_source_decay l2 (run_source_decay l s) := by
  simp [run_source_decay, List.foldl_append]

theorem log_current_power_frame (p : Reading) (s : State) :
    (log_current_power p s).2.g_source_decay = s.g_source_decay ∧
      (log_current_power p s).2.g_read_error = s.g_read_error ∧
      (log_current_power p s).2.trace = s.trace ++ [Event.eps_get_power_monitor_power_func] := by
  unfold log_current_power
  simp only [State.emit]
  split_ifs <;> exact ⟨rfl, rfl, rfl⟩

/-- A firing whose read succeeds and which finds no monthly check pending. -/
theorem fire_without_check (p : Reading) (s : State)
    (h1 : (log_current_power p s).1 = 0)
    (h2 : (log_current_power p s).2.sd.perform_monthly_check = FALSE) :
    detect_source_decay_fire p s =
      { (log_current_power p s).2 with
        sd := { (log_current_power p s).2.sd with pass_num := 0 } } := by
  unfold detect_source_decay_fire
  simp [h1, h2, ERROR, TRUE, FALSE]

/-- A firing whose read succeeds and which finds the monthly check pending. -/
theorem fire_with_check (p : Reading) (s : State)
    (h1 : (log_current_power p s).1 = 0)
    (h2 : (log_current_power p s).2.sd.perform_monthly_check = TRUE) :
    detect_source_decay_fire p s =
      if (log_current_power p s).2.sd.months_log (log_current_power p s).2.sd.months_pos <
          (log_current_power p s).2.sd.baseline_avg * CAP_THRESHOLD then
        { (log_current_power p s).2 with
          sd := { (log_current_power p s).2.sd with
            pass_num := 0, perform_monthly_check := FALSE },
          g_source_decay := 1,
          trace := (log_current_power p s).2.trace ++
            [Event.call_handle_source_decay, Event.printf "Fault: source_decay\n"] }
      else
        { (log_current_power p s).2 with
          sd := { (log_current_power p s).2.sd with
            pass_num := 0, perform_monthly_check := FALSE } } := by
  unfold detect_source_decay_fire handle_source_decay
  simp only [h1, h2, ERROR, State.emit]
  split_ifs <;> simp_all

theorem run_source_decay_progress (w : ℚ) (l : List Reading) (s : State)
    (hs : month_start s.sd) (hpend : s.sd.perform_monthly_check = FALSE)
    (hok : ∀ p ∈ l, p.out_message ≠ "ERRORP\r\n" ∧ convert_raw_to_watts p.raw = w)
    (hlen : l.length < 43200) :
    month_progress w l.length s.sd (run_source_decay l s).sd ∧
      (run_source_decay l s).g_source_decay = s.g_source_decay := by
  induction l using List.reverseRecOn with
  | nil => exact ⟨by simpa [run_source_decay] using month_progress_zero w s.sd hs, rfl⟩
  | append_singleton l x ih =>
    rw [List.length_append, List.length_singleton] at hlen ⊢
    obtain ⟨ihp, ihg⟩ := ih (fun p hp => hok p (by simp [hp])) (by omega)
    obtain ⟨hxp, hxw⟩ := hok x (by simp)
    obtain ⟨s1, s2⟩ := month_progress_step w _ s.sd x _ ihp hlen hxp hxw
    have hpd : (log_current_power x (run_source_decay l s)).2.sd.perform_monthly_check = FALSE := by
      rw [s2.2.2.2.2.2.2.2.2.2, hpend]
    rw [run_source_decay_snoc, fire_without_check x _ s1 hpd]
    exact ⟨s2, by rw [← ihg]; exact (log_current_power_frame x _).1⟩

theorem fire_close_baseline (w : ℚ) (sd0 : SourceDecay) (p : Reading) (s : State)
    (hin : month_progress w 43199 sd0 s.sd) (hmp : sd0.months_pos < 128)
    (hp : p.out_message ≠ "ERRORP\r\n") (hw : convert_raw_to_watts p.raw = w)
    (hb : sd0.baseline_avg = 0) (hpend : sd0.perform_monthly_check = FALSE) :
    month_closed w sd0 (detect_source_decay_fire p s).sd ∧
      (detect_source_decay_fire p s).g_source_decay = s.g_source_decay := by
  have hlog := month_progress_close w sd0 p s hin hmp hp hw
  have h1 : (log_current_power p s).1 = 0 := by rw [hlog]
  have h2 : (log_current_power p s).2.sd.perform_monthly_check = FALSE := by
    rw [hlog]; simp [hb, hpend]
  rw [fire_without_check p s h1 h2, hlog]
  exact ⟨⟨⟨rfl, rfl, rfl, rfl, rfl, rfl⟩, rfl, rfl, rfl, rfl⟩, rfl⟩

theorem ten_watts_ok :
    ∀ p ∈ List.replicate 43199 ten_watts,
      p.out_message ≠ "ERRORP\r\n" ∧ convert_raw_to_watts p.raw = 10 := by
  intro p hp
  rw [List.eq_of_mem_replicate hp, convert_raw_to_watts_eq]
  refine ⟨by decide, ?_⟩
  simp only [ten_watts]
  norm_num

theorem first_month_closed :
    month_closed 10 init.sd first_month_end.sd ∧ first_month_end.g_source_decay = 0 := by
  have hsplit : List.replicate 43200 ten_watts = List.replicate 43199 ten_watts ++ [ten_watts] :=
    List.replicate_succ' 43199 ten_watts
  obtain ⟨hprog, hg⟩ := run_source_decay_progress 10 (List.replicate 43199 ten_watts) init
    ⟨rfl, rfl, rfl, rfl, rfl, rfl⟩ rfl ten_watts_ok
    (by rw [List.length_replicate]; decide)
  rw [List.length_replicate] at hprog
  obtain ⟨hc, hg2⟩ := fire_close_baseline 10 init.sd ten_watts _ hprog (by decide) (by decide)
    (ten_watts_ok ten_watts (List.mem_replicate.mpr ⟨by decide, rfl⟩)).2 rfl rfl
  unfold first_month_end
  rw [hsplit, run_source_decay_snoc]
  exact ⟨hc, by rw [hg2, hg]; rfl⟩

theorem first_month_end_facts :
    month_start first_month_end.sd ∧
    first_month_end.sd.months_log = Function.update (fun _ => 0) 0 10 ∧
    first_month_end.sd.months_pos = 1 ∧
    first_month_end.sd.baseline_avg = 10 ∧
    first_month_end.sd.perform_monthly_check = FALSE ∧
    first_month_end.g_source_decay = 0 := by
  obtain ⟨⟨c1, c7, c8, c9, c10⟩, hg⟩ := first_month_closed
  refine ⟨c1, ?_, ?_, ?_, ?_, hg⟩
  · rw [c7]; rfl
  · rw [c8]; rfl
  · rw [c9]; rfl
  · rw [c10]; rfl

theorem second_month_end_progress :
    month_progress 10 43199 first_month_end.sd second_month_end.sd ∧
      second_month_end.g_source_decay = 0 := by
  obtain ⟨hst, -, -, -, hpd, hg⟩ := first_month_end_facts
  obtain ⟨hprog, hg2⟩ := run_source_decay_progress 10 (List.replicate 43199 ten_watts)
    first_month_end hst hpd ten_watts_ok (by rw [List.length_replicate]; decide)
  rw [List.length_replicate] at hprog
  unfold second_month_end
  exact ⟨hprog, by rw [← hg]; exact hg2⟩

theorem second_month_end_reached :
    second_month_end = run_source_decay (List.replicate 86399 ten_watts) init := by
  have hsplit : List.replicate 86399 ten_watts =
      List.replicate 43200 ten_watts ++ List.replicate 43199 ten_watts :=
    List.replicate_add 43200 43199 ten_watts
  unfold second_month_end first_month_end
  rw [hsplit, run_source_decay_append]

theorem close_with_check (w : ℚ) (sd0 : SourceDecay) (p : Reading) (s : State)
    (hin : month_progress w 43199 sd0 s.sd) (hmp : sd0.months_pos + 1 < 128)
    (hp : p.out_message ≠ "ERRORP\r\n") (hw : convert_raw_to_watts p.raw = w)
    (hb : sd0.baseline_avg ≠ 0) :
    (log_current_power p s).2.sd.perform_monthly_check = TRUE ∧
    (log_current_power p s).2.sd.months_log sd0.months_pos = w ∧
    (log_current_power p s).2.sd.months_pos = sd0.months_pos + 1 ∧
    (log_current_power p s).2.sd.baseline_avg = sd0.baseline_avg ∧
    (Event.call_handle_source_decay ∈ new_events s (detect_source_decay_fire p s) ↔
      sd0.months_log (sd0.months_pos + 1) < sd0.baseline_avg * CAP_THRESHOLD) ∧
    (sd0.months_log (sd0.months_pos + 1) < sd0.baseline_avg * CAP_THRESHOLD →
      (detect_source_decay_fire p s).g_source_decay = 1) ∧
    (detect_source_decay_fire p s).sd.perform_monthly_check = FALSE := by
  have hlog := month_progress_close w sd0 p s hin (by omega) hp hw
  have hne : ¬ (sd0.months_pos + 1 = 128) := by omega
  have hupd : Function.update sd0.months_log sd0.months_pos w (sd0.months_pos + 1)
      = sd0.months_log (sd0.months_pos + 1) :=
    Function.update_noteq (by omega) _ _
  rw [if_neg hne, if_neg hb, if_neg hb] at hlog
  have h1 : (log_current_power p s).1 = 0 := by rw [hlog]
  have h2 : (log_current_power p s).2.sd.perform_monthly_check = TRUE := by rw [hlog]
  have hfire := fire_with_check p s h1 h2
  rw [hlog] at hfire
  simp only [hupd] at hfire
  refine ⟨h2, ?_, ?_, ?_, ?_, ?_, ?_⟩
  · rw [hlog]; simp
  · rw [hlog]
  · rw [hlog]
  · rw [hfire]
    by_cases hc : sd0.months_log (sd0.months_pos + 1) < sd0.baseline_avg * CAP_THRESHOLD
    · simp [hc, new_events]
    · simp [hc, new_events]
  · intro hc
    rw [hfire, if_pos hc]
  · rw [hfire]
    split_ifs <;> rfl

/-- C8 (the code at the failing input): after a first month at 10 W (baseline
10) and all but the last firing of a second month at 10 W, the closing firing
writes the average 10 into `months_log[1]` and sets the pending flag; 10 is not
below 10 * 0.8, yet `detect_source_decay` invokes `handle_source_decay` and
sets `g_source_decay`, because it compares `months_log[2]` (still 0). -/
theorem C8_second_month_at_baseline_fires :
    second_month_end = run_source_decay (List.replicate 86399 ten_watts) init ∧
    second_month_end.sd.baseline_avg = 10 ∧
    second_month_end.sd.months_pos = 1 ∧
    second_month_end.sd.perform_monthly_check = FALSE ∧
    second_month_end.g_source_decay = 0 ∧
    (log_current_power ten_watts second_month_end).2.sd.perform_monthly_check = TRUE ∧
    (log_current_power ten_watts second_month_end).2.sd.months_log 1 = 10 ∧
    (log_current_power ten_watts second_month_end).2.sd.months_pos = 2 ∧
    ¬ ((log_current_power ten_watts second_month_end).2.sd.months_log 1 <
        (log_current_power ten_watts second_month_end).2.sd.baseline_avg * CAP_THRESHOLD) ∧
    Event.call_handle_source_decay ∈
      new_events second_month_end (detect_source_decay_fire ten_watts second_month_end) ∧
    (detect_source_decay_fire ten_watts second_month_end).g_source_decay = 1 := by
  obtain ⟨-, c7, c8, c9, c10, -⟩ := first_month_end_facts
  obtain ⟨hprog, hg⟩ := second_month_end_progress
  have hw := (ten_watts_ok ten_watts (List.mem_replicate.mpr ⟨by decide, rfl⟩)).2
  obtain ⟨k1, k2, k3, k4, k5, k6, -⟩ := close_with_check 10 first_month_end.sd ten_watts
    second_month_end hprog (by rw [c8]; decide) (by decide) hw (by rw [c9]; norm_num)
  obtain ⟨-, -, -, -, -, -, i7, i8, i9, i10⟩ := hprog
  rw [c8] at k2 k3
  rw [c9] at k4
  have hcond : first_month_end.sd.months_log (first_month_end.sd.months_pos + 1) <
      first_month_end.sd.baseline_avg * CAP_THRESHOLD := by
    rw [c7, c8, c9]
    norm_num [Function.update, CAP_THRESHOLD]
  refine ⟨second_month_end_reached, by rw [i9, c9], by rw [i8, c8], by rw [i10, c10], hg,
    k1, k2, k3, ?_, k5.mpr hcond, k6 hcond⟩
  rw [k2, k4]
  norm_num [CAP_THRESHOLD]

/-- C9 at the close of the second 10 W month: the call writes a new monthly
average and leaves the baseline alone. -/
theorem C9_baseline_never_overwritten_witness :
    second_month_end.sd.baseline_avg ≠ 0 ∧
    (log_current_power ten_watts second_month_end).2.sd.baseline_avg
      = second_month_end.sd.baseline_avg ∧
    (detect_source_decay ten_watts second_month_end).sd.baseline_avg
      = second_month_end.sd.baseline_avg :=
  have h : second_month_end.sd.baseline_avg ≠ 0 := by
    rw [second_month_end_progress.1.2.2.2.2.2.2.2.2.1, first_month_end_facts.2.2.2.1]
    norm_num
  ⟨h, C9_baseline_never_overwritten ten_watts second_month_end h⟩

/-- C10 on 43200 successful reads of raw 5 (1 W). -/
theorem C10_constant_month_average_witness :
    (∀ p ∈ List.replicate 43200 (Reading.mk 5 "OK"), p.out_message ≠ "ERRORP\r\n" → p.raw = 5) ∧
    (run_log_current_power (List.replicate 43200 ⟨5, "OK"⟩) init).sd.months_log 0
      = 0.2 * ((5 : Int) : ℚ) ∧
    (run_log_current_power (List.replicate 43200 ⟨5, "OK"⟩) init).sd.months_pos = 1 :=
  have h : ∀ p ∈ List.replicate 43200 (Reading.mk 5 "OK"),
      p.out_message ≠ "ERRORP\r\n" → p.raw = 5 :=
    fun p hp _ => by rw [List.eq_of_mem_replicate hp]
  have hc := (C10_constant_month_average 5 (List.replicate 43200 ⟨5, "OK"⟩) h).1
    (countP_read_ok_replicate 43200 ⟨5, "OK"⟩ (by decide))
  ⟨h, hc.1, hc.2.1⟩

/-! ## Invariants, frame properties, cadence and month closing -/

theorem log_current_power_in_range (p : Reading) (s : State)
    (h : positions_in_range s.sd) : positions_in_range (log_current_power p s).2.sd := by
  obtain ⟨h1, h2, h3, h4⟩ := h
  have h4b : s.sd.months_pos < 128 := h4
  by_cases hp : p.out_message = "ERRORP\r\n"
  · rw [log_current_power_error p s hp]
    exact ⟨h1, h2, h3, h4⟩
  by_cases hm : s.sd.minutes_pos + 1 < 60
  · rw [log_current_power_minute p s hp hm]
    exact ⟨hm, h2, h3, h4⟩
  by_cases hh : s.sd.hours_pos + 1 < 24
  · rw [log_current_power_hour p s hp (by omega) hh]
    exact ⟨by simp, hh, h3, h4⟩
  by_cases hd : s.sd.days_pos + 1 < 30
  · rw [log_current_power_day p s hp (by omega) (by omega) hd]
    exact ⟨by simp, by simp, hd, h4⟩
  · rw [log_current_power_month p s hp (by omega) (by omega) (by omega) h4b]
    refine ⟨by simp, by simp, by simp, ?_⟩
    show (if s.sd.months_pos + 1 = 128 then 0 else s.sd.months_pos + 1) < 128
    split_ifs <;> omega

theorem detect_source_decay_fire_sd (p : Reading) (s : State) :
    (detect_source_decay_fire p s).sd =
      { (log_current_power p s).2.sd with
        pass_num := 0,
        perform_monthly_check :=
          if (log_current_power p s).1 = ERROR then
            (log_current_power p s).2.sd.perform_monthly_check
          else if (log_current_power p s).2.sd.perform_monthly_check = TRUE then FALSE
          else (log_current_power p s).2.sd.perform_monthly_check } := by
  unfold detect_source_decay_fire handle_source_decay
  simp only [State.emit]
  split_ifs <;> rfl

theorem detect_source_decay_in_range (p : Reading) (s : State)
    (h : positions_in_range s.sd) : positions_in_range (detect_source_decay p s).sd := by
  unfold detect_source_decay
  split_ifs
  · exact h
  · rw [detect_source_decay_fire_sd]
    exact log_current_power_in_range p s h
  · exact h

theorem handle_chronic_idle_sd (t v : Reading) (s : State) :
    (handle_chronic_idle t v s).sd = s.sd := by
  unfold handle_chronic_idle check_if_in_daylight_temp check_if_in_daylight_volt State.emit
  simp only
  split_ifs <;> rfl

theorem handle_chronic_idle_pm (t v : Reading) (s : State) :
    (handle_chronic_idle t v s).pm = s.pm := by
  unfold handle_chronic_idle check_if_in_daylight_temp check_if_in_daylight_volt State.emit
  simp only
  split_ifs <;> rfl

theorem handle_chronic_idle_g_source_decay (t v : Reading) (s : State) :
    (handle_chronic_idle t v s).g_source_decay = s.g_source_decay := by
  unfold handle_chronic_idle check_if_in_daylight_temp check_if_in_daylight_volt State.emit
  simp only
  split_ifs <;> rfl

theorem handle_chronic_idle_g_read_error (t v : Reading) (s : State)
    (h : s.g_read_error = 1) : (handle_chronic_idle t v s).g_read_error = 1 := by
  unfold handle_chronic_idle check_if_in_daylight_temp check_if_in_daylight_volt State.emit
  simp only
  split_ifs <;> first | exact h | rfl

theorem detect_chronic_idle_fire_frame (out : eps_mppt_status) (t v : Reading) (s : State) :
    (detect_chronic_idle_fire out t v s).sd = s.sd ∧
    (detect_chronic_idle_fire out t v s).pm = s.pm ∧
    (detect_chronic_idle_fire out t v s).g_source_decay = s.g_source_decay ∧
    (s.g_read_error = 1 → (detect_chronic_idle_fire out t v s).g_read_error = 1) := by
  unfold detect_chronic_idle_fire
  simp only
  split_ifs
  · refine ⟨?_, ?_, ?_, ?_⟩
    · simp [handle_chronic_idle_sd, State.emit]
    · simp [handle_chronic_idle_pm, State.emit]
    · simp [handle_chronic_idle_g_source_decay, State.emit]
    · intro h
      exact handle_chronic_idle_g_read_error t v _ h
  · exact ⟨rfl, rfl, rfl, fun h => h⟩
  · exact ⟨rfl, rfl, rfl, fun h => h⟩

theorem detect_chronic_idle_frame (out : eps_mppt_status) (t v : Reading) (s : State) :
    (detect_chronic_idle out t v s).sd = s.sd ∧
    (detect_chronic_idle out t v s).pm = s.pm ∧
    (detect_chronic_idle out t v s).g_source_decay = s.g_source_decay ∧
    (s.g_read_error = 1 → (detect_chronic_idle out t v s).g_read_error = 1) := by
  unfold detect_chronic_idle
  split_ifs
  · exact ⟨rfl, rfl, rfl, fun h => h⟩
  · exact detect_chronic_idle_fire_frame out t v s

theorem daily_read_frame2 (d : MonitorReads) (s : State) :
    (daily_read d s).2.sd = s.sd ∧ (daily_read d s).2.ci = s.ci ∧
    (daily_read d s).2.g_source_decay = s.g_source_decay := by
  unfold daily_read
  rw [daily_read_fire_eq]
  split_ifs <;> exact ⟨rfl, rfl, rfl⟩

theorem follow_up_read_frame (r : MonitorReads) (s : State) :
    (follow_up_read r s).2.sd = s.sd ∧ (follow_up_read r s).2.ci = s.ci ∧
    (follow_up_read r s).2.g_source_decay = s.g_source_decay := by
  rw [follow_up_read_eq]
  split_ifs <;> exact ⟨rfl, rfl, rfl⟩

theorem detect_pwr_mon_read_error_frame (fu d : MonitorReads) (s : State) :
    (detect_pwr_mon_read_error fu d s).sd = s.sd ∧
    (detect_pwr_mon_read_error fu d s).ci = s.ci ∧
    (detect_pwr_mon_read_error fu d s).g_source_decay = s.g_source_decay := by
  obtain ⟨f1, f2, f3⟩ := follow_up_read_frame fu s
  obtain ⟨d1, d2, d3⟩ := daily_read_frame2 d (follow_up_read fu s).2
  unfold detect_pwr_mon_read_error handle_pwr_mon_read_error
  simp only [State.emit]
  split_ifs
  · exact ⟨f1, f2, f3⟩
  · exact ⟨d1.trans f1, d2.trans f2, d3.trans f3⟩
  · exact ⟨d1.trans f1, d2.trans f2, d3.trans f3⟩

theorem run_calls_snoc (l : List Call) (c : Call) (s : State) :
    run_calls (l ++ [c]) s = c.apply (run_calls l s) := by
  simp [run_calls, List.foldl_append]

theorem apply_in_range (c : Call) (s : State) (h : positions_in_range s.sd) :
    positions_in_range (c.apply s).sd := by
  cases c with
  | detect_chronic_idle out t v =>
    show positions_in_range (detect_chronic_idle out t v s).sd
    rw [(detect_chronic_idle_frame out t v s).1]; exact h
  | detect_pwr_mon_read_error fu d =>
    show positions_in_range (detect_pwr_mon_read_error fu d s).sd
    rw [(detect_pwr_mon_read_error_frame fu d s).1]; exact h
  | detect_source_decay p => exact detect_source_decay_in_range p s h
  | log_current_power p => exact log_current_power_in_range p s h

/-- C11_positions_in_range: in every state reached from the initial state by any sequence of
calls of the detectors and of `log_current_power`, with any driver results,
`minutes_pos` < 60, `hours_pos` < 24, `days_pos` < 30 and `months_pos` < 128. -/
theorem C11_positions_in_range (calls : List Call) :
    (run_calls calls init).sd.minutes_pos < 60 ∧
    (run_calls calls init).sd.hours_pos < 24 ∧
    (run_calls calls init).sd.days_pos < 30 ∧
    (run_calls calls init).sd.months_pos < 128 := by
  have h : positions_in_range (run_calls calls init).sd := by
    induction calls using List.reverseRecOn with
    | nil => exact ⟨by decide, by decide, by decide, by decide⟩
    | append_singleton l c ih =>
      rw [run_calls_snoc]
      exact apply_in_range c _ ih
  exact h

theorem idle_streak_all_idle (sts : List eps_mppt_status)
    (h : ∀ x ∈ sts, x = eps_mppt_status.EPS_MPPT_CHARGING_IDLE) :
    idle_streak sts = sts.length := by
  induction sts with
  | nil => rfl
  | cons a r ih =>
    have ha := h a (by simp)
    subst ha
    simp only [idle_streak, List.length_cons]
    rw [ih (fun x hx => h x (by simp [hx]))]

theorem idle_streak_no_idle (sts : List eps_mppt_status)
    (h : ∀ x ∈ sts, x ≠ eps_mppt_status.EPS_MPPT_CHARGING_IDLE) :
    idle_streak sts = 0 := by
  cases sts with
  | nil => rfl
  | cons a r =>
    cases a with
    | EPS_MPPT_CHARGING_IDLE => exact absurd rfl (h _ (by simp))
    | EPS_MPPT_OTHER k => rfl

/-- C12_window_after_k_idles: from an idle window of 0, after k consecutive idle firings the window
is (1 << k) - 1 for k <= 8 and 0xFF for k > 8; along firings that observe no
idle the window stays 0. -/
theorem C12_window_after_k_idles (ins : List IdleFiring) (s : State) (h0 : s.ci.consecutive_idles = 0) :
    ((∀ x ∈ ins, x.status = eps_mppt_status.EPS_MPPT_CHARGING_IDLE) →
      (ins.length ≤ 8 →
        (run_chronic_idle ins s).ci.consecutive_idles = (1 <<< ins.length) - 1) ∧
      (8 < ins.length → (run_chronic_idle ins s).ci.consecutive_idles = 0xFF)) ∧
    ((∀ x ∈ ins, x.status ≠ eps_mppt_status.EPS_MPPT_CHARGING_IDLE) →
      ∀ m, (run_chronic_idle (ins.take m) s).ci.consecutive_idles = 0) := by
  constructor
  · intro hall
    have hs : idle_streak (ins.map (fun i => i.status)).reverse = ins.length := by
      rw [idle_streak_all_idle]
      · simp
      · intro x hx
        simp only [List.mem_reverse, List.mem_map] at hx
        obtain ⟨i, hi, rfl⟩ := hx
        exact hall i hi
    rw [run_window ins s h0, hs]
    constructor
    · intro hle
      rw [Nat.min_eq_right hle, Nat.one_shiftLeft]
    · intro hlt
      rw [Nat.min_eq_left (le_of_lt hlt)]
      rfl
  · intro hnone m
    rw [run_window _ s h0, idle_streak_no_idle]
    · rfl
    · intro x hx
      simp only [List.mem_reverse, List.mem_map] at hx
      obtain ⟨i, hi, rfl⟩ := hx
      exact hnone i (List.mem_of_mem_take hi)

theorem apply_g_source_decay (c : Call) (s : State) (h : s.g_source_decay = 1) :
    (c.apply s).g_source_decay = 1 := by
  cases c with
  | detect_chronic_idle out t v =>
    show (detect_chronic_idle out t v s).g_source_decay = 1
    rw [(detect_chronic_idle_frame out t v s).2.2.1]; exact h
  | detect_pwr_mon_read_error fu d =>
    show (detect_pwr_mon_read_error fu d s).g_source_decay = 1
    rw [(detect_pwr_mon_read_error_frame fu d s).2.2]; exact h
  | detect_source_decay p =>
    show (detect_source_decay p s).g_source_decay = 1
    unfold detect_source_decay
    rw [if_neg (by simp [h])]; exact h
  | log_current_power p =>
    show (log_current_power p s).2.g_source_decay = 1
    rw [(log_current_power_frame p s).1]; exact h

/-- C13_inert_once_latched: with `g_source_decay` = 1, `detect_source_decay` returns the state
unchanged and records no driver call; and no call of a detector, of
`log_current_power` or of a handler, nor any sequence of calls, makes
`g_source_decay` differ from 1 again. -/
theorem C13_inert_once_latched (s : State) (h : s.g_source_decay = 1) :
    (∀ power, detect_source_decay power s = s) ∧
    (∀ power, new_events s (detect_source_decay power s) = []) ∧
    (∀ c : Call, (c.apply s).g_source_decay = 1) ∧
    (∀ calls : List Call, (run_calls calls s).g_source_decay = 1) ∧
    (∀ t v, (handle_chronic_idle t v s).g_source_decay = 1) ∧
    (handle_pwr_mon_read_error s).g_source_decay = 1 ∧
    (handle_source_decay s).g_source_decay = 1 := by
  have hd : ∀ power, detect_source_decay power s = s := by
    intro power
    unfold detect_source_decay
    rw [if_neg (by simp [h])]
  refine ⟨hd, ?_, fun c => apply_g_source_decay c s h, ?_, ?_, h, rfl⟩
  · intro power
    rw [hd]; simp [new_events]
  · intro calls
    induction calls using List.reverseRecOn with
    | nil => exact h
    | append_singleton l c ih =>
      rw [run_calls_snoc]
      exact apply_g_source_decay c _ ih
  · intro t v
    rw [handle_chronic_idle_g_source_decay]; exact h

theorem detect_source_decay_fire_error (p : Reading) (s : State)
    (hp : p.out_message = "ERRORP\r\n") :
    detect_source_decay_fire p s =
      { s with
        sd := { s.sd with raw_power_val := p.raw, pass_num := 0 },
        g_read_error := TRUE,
        trace := s.trace ++ [Event.eps_get_power_monitor_power_func] } := by
  unfold detect_source_decay_fire
  rw [log_current_power_error p s hp]
  simp

/-- C14_power_read_error: at a firing of `detect_source_decay` whose power read returns
`ERRORP`, `log_current_power` returns `ERROR` with sums, positions,
`months_log`, `baseline_avg` and the pending flag unchanged;
`detect_source_decay` sets `g_read_error` to 1, does not invoke
`handle_source_decay` and zeroes its tick counter. -/
theorem C14_power_read_error (p : Reading) (s : State) (hp : p.out_message = "ERRORP\r\n")
    (hg : s.g_source_decay ≠ 1) (hdue : g_const_PASS_REQ ≤ s.sd.pass_num) :
    (log_current_power p s).1 = ERROR ∧
    ((log_current_power p s).2.sd.minutes_roll_avg = s.sd.minutes_roll_avg ∧
      (log_current_power p s).2.sd.hours_roll_avg = s.sd.hours_roll_avg ∧
      (log_current_power p s).2.sd.days_roll_avg = s.sd.days_roll_avg ∧
      (log_current_power p s).2.sd.minutes_pos = s.sd.minutes_pos ∧
      (log_current_power p s).2.sd.hours_pos = s.sd.hours_pos ∧
      (log_current_power p s).2.sd.days_pos = s.sd.days_pos ∧
      (log_current_power p s).2.sd.months_pos = s.sd.months_pos ∧
      (log_current_power p s).2.sd.months_log = s.sd.months_log ∧
      (log_current_power p s).2.sd.baseline_avg = s.sd.baseline_avg ∧
      (log_current_power p s).2.sd.perform_monthly_check = s.sd.perform_monthly_check) ∧
    (detect_source_decay p s).g_read_error = 1 ∧
    Event.call_handle_source_decay ∉ new_events s (detect_source_decay p s) ∧
    (detect_source_decay p s).g_source_decay = s.g_source_decay ∧
    (detect_source_decay p s).sd.pass_num = 0 ∧
    (detect_source_decay p s).sd =
      { s.sd with raw_power_val := p.raw, pass_num := 0 } := by
  have hlog := log_current_power_error p s hp
  have hdet : detect_source_decay p s = detect_source_decay_fire p s :=
    detect_source_decay_expired p s hg hdue
  rw [hdet, detect_source_decay_fire_error p s hp, hlog]
  refine ⟨rfl, ⟨rfl, rfl, rfl, rfl, rfl, rfl, rfl, rfl, rfl, rfl⟩, rfl, ?_, rfl, rfl, rfl⟩
  simp [new_events]

theorem detect_source_decay_fire_g_read_error (p : Reading) (s : State)
    (h : s.g_read_error = 1) : (detect_source_decay_fire p s).g_read_error = 1 := by
  have hf := (log_current_power_frame p s).2.1
  unfold detect_source_decay_fire handle_source_decay
  simp only [State.emit]
  split_ifs <;> first | rfl | (rw [hf]; exact h)

/-- C16_read_error_cleared_only_by_follow_up: with `g_read_error` = 1, `detect_chronic_idle`, `handle_chronic_idle`,
`detect_source_decay`, `log_current_power` and `daily_read` leave it at 1
whatever the drivers return; `follow_up_read` leaves it at 1 while the delay
counter is below `read_error_delay` and clears it otherwise. -/
theorem C16_read_error_cleared_only_by_follow_up (s : State) (h : s.g_read_error = 1) :
    (∀ out t v, (detect_chronic_idle out t v s).g_read_error = 1) ∧
    (∀ t v, (handle_chronic_idle t v s).g_read_error = 1) ∧
    (∀ p, (detect_source_decay p s).g_read_error = 1) ∧
    (∀ p, (log_current_power p s).2.g_read_error = 1) ∧
    (∀ r, (daily_read r s).2.g_read_error = 1) ∧
    (∀ r, s.pm.delay_counter < read_error_delay → (follow_up_read r s).2.g_read_error = 1) ∧
    (∀ r, (follow_up_read r s).2.g_read_error ≠ 1 → read_error_delay ≤ s.pm.delay_counter) ∧
    (∀ r, read_error_delay ≤ s.pm.delay_counter → (follow_up_read r s).2.g_read_error = 0) := by
  have hfu : ∀ r, s.pm.delay_counter < read_error_delay →
      (follow_up_read r s).2.g_read_error = 1 := by
    intro r hlt
    rw [follow_up_read_eq, if_pos h, if_neg (by omega)]
    exact h
  refine ⟨fun out t v => (detect_chronic_idle_frame out t v s).2.2.2 h,
    fun t v => handle_chronic_idle_g_read_error t v s h, ?_, ?_, ?_, hfu, ?_, ?_⟩
  · intro p
    unfold detect_source_decay
    split_ifs
    · exact h
    · exact detect_source_decay_fire_g_read_error p s h
    · exact h
  · intro p
    rw [(log_current_power_frame p s).2.1]; exact h
  · intro r
    rw [(daily_read_frame r s).1]; exact h
  · intro r hne
    by_contra hlt
    exact hne (hfu r (by omega))
  · intro r hge
    have hge2 : s.pm.delay_counter ≥ read_error_delay := hge
    rw [follow_up_read_eq, if_pos h, if_pos hge2]

/-! ## Binary floating point: the unit conversions -/

/-- An integer strictly within 1/2 of `q` is the rounding of `q`. -/
theorem round_half_even_near (q : ℚ) (n : Int) (h : |q - n| < 1 / 2) :
    round_half_even q = n := by
  have h1 := Int.floor_le q
  have h2 := Int.lt_floor_add_one q
  rw [abs_lt] at h
  obtain ⟨h3, h4⟩ := h
  have h5 : (⌊q⌋ : ℚ) < (n : ℚ) + 1 := by linarith
  have h6 : ((n : ℚ)) < (⌊q⌋ : ℚ) + 2 := by linarith
  have h7 : ⌊q⌋ < n + 1 := by exact_mod_cast h5
  have h8 : n < ⌊q⌋ + 2 := by exact_mod_cast h6
  have h9 : n = ⌊q⌋ ∨ n = ⌊q⌋ + 1 := by omega
  unfold round_half_even
  rcases h9 with h9 | h9
  · have : q - ⌊q⌋ < 1 / 2 := by rw [← h9]; linarith
    rw [if_pos this, h9]
  · have e : (n : ℚ) = (⌊q⌋ : ℚ) + 1 := by rw [h9]; push_cast; ring
    have a : ¬ (q - ⌊q⌋ < 1 / 2) := by rw [e] at h3; linarith
    have b : 1 / 2 < q - ⌊q⌋ := by rw [e] at h3; linarith
    rw [if_neg a, if_pos b, h9]

theorem round_half_even_intCast (n : Int) : round_half_even (n : ℚ) = n :=
  round_half_even_near _ n (by simp)

/-- Rounding to an integer moves a number by at most 1/2. -/
theorem round_half_even_error (q : ℚ) : |(round_half_even q : ℚ) - q| ≤ 1 / 2 := by
  have h1 := Int.floor_le q
  have h2 := Int.lt_floor_add_one q
  unfold round_half_even
  rw [abs_le]
  split_ifs with a b c
  · constructor <;> linarith
  · push_cast; constructor <;> linarith
  · constructor <;> linarith
  · push_cast; constructor <;> linarith


theorem two_zpow_pos (e : Int) : (0 : ℚ) < 2 ^ e := zpow_pos (by norm_num) e

theorem round_to_format_zero (p : Nat) (emin : Int) : round_to_format p emin 0 = 0 := by
  unfold round_to_format
  rw [zero_div]
  have := round_half_even_intCast 0
  simp only [Int.cast_zero] at this
  rw [this]; simp

/-- A number `m * 2 ^ k` whose significand `m` fits `p` bits, with `k` not below the
least exponent of the format, is a number of the format: rounding leaves it as it is. -/
theorem round_to_format_exact (p : Nat) (emin m k : Int) (hm : |m| < 2 ^ p)
    (hk : emin - ((p : Int) - 1) ≤ k) :
    round_to_format p emin ((m : ℚ) * 2 ^ k) = (m : ℚ) * 2 ^ k := by
  by_cases h0 : m = 0
  · subst h0; simp [round_to_format_zero]
  have hpos : (0 : ℚ) < |(m : ℚ) * 2 ^ k| := by
    rw [abs_pos]
    exact mul_ne_zero (by exact_mod_cast h0) (two_zpow_pos k).ne'
  have hlt : |(m : ℚ) * 2 ^ k| < ((2 : ℕ) : ℚ) ^ ((p : Int) + k) := by
    rw [abs_mul, abs_of_pos (two_zpow_pos k), zpow_add₀ (by norm_num), zpow_natCast]
    have : (|(m : ℚ)|) < 2 ^ p := by exact_mod_cast hm
    push_cast
    exact mul_lt_mul_of_pos_right this (two_zpow_pos k)
  have hlog := (Int.lt_zpow_iff_log_lt (by norm_num : 1 < 2) hpos).mp hlt
  have he : ulp_exponent p emin ((m : ℚ) * 2 ^ k) ≤ k := by
    unfold ulp_exponent
    have : max (Int.log 2 |(m : ℚ) * 2 ^ k|) emin ≤ k + ((p : Int) - 1) :=
      max_le (by omega) (by omega)
    omega
  unfold round_to_format
  generalize ulp_exponent p emin ((m : ℚ) * 2 ^ k) = e at he ⊢
  obtain ⟨d, hd⟩ : ∃ d : Nat, k = e + d := ⟨(k - e).toNat, by omega⟩
  subst hd
  have hx : (m : ℚ) * 2 ^ (e + (d : Int)) / 2 ^ e = ((m * 2 ^ d : Int) : ℚ) := by
    rw [zpow_add₀ (by norm_num), zpow_natCast]
    push_cast
    field_simp
    ring
  rw [hx, round_half_even_intCast, zpow_add₀ (by norm_num), zpow_natCast]
  push_cast
  ring

theorem log_two_eq (x : ℚ) (E : Int) (h1 : 2 ^ E ≤ |x|) (h2 : |x| < 2 ^ (E + 1)) :
    Int.log 2 |x| = E := by
  have hpos : (0 : ℚ) < |x| := lt_of_lt_of_le (two_zpow_pos E) h1
  have a := (Int.lt_zpow_iff_log_lt (by norm_num : 1 < 2) hpos).mp
    (by push_cast; exact h2 : |x| < ((2 : ℕ) : ℚ) ^ (E + 1))
  have b := (Int.zpow_le_iff_le_log (by norm_num : 1 < 2) hpos).mp
    (by push_cast; exact h1 : ((2 : ℕ) : ℚ) ^ E ≤ |x|)
  omega

/-- Rounding evaluated: for `x` in the binade of `2 ^ E`, an integer `n` strictly
within 1/2 of `x` scaled by the unit in the last place gives the rounded value. -/
theorem round_to_format_at (p : Nat) (emin : Int) (x : ℚ) (E n : Int)
    (h1 : 2 ^ E ≤ |x|) (h2 : |x| < 2 ^ (E + 1)) (hE : emin ≤ E)
    (hn : |x / 2 ^ (E - ((p : Int) - 1)) - n| < 1 / 2) :
    round_to_format p emin x = (n : ℚ) * 2 ^ (E - ((p : Int) - 1)) := by
  have he : ulp_exponent p emin x = E - ((p : Int) - 1) := by
    unfold ulp_exponent
    rw [log_two_eq x E h1 h2, max_eq_left hE]
  unfold round_to_format
  rw [he, round_half_even_near _ n hn]

/-- In the normal range rounding has relative error at most `2 ^ (-p)`. -/
theorem round_to_format_error (p : Nat) (emin : Int) (x : ℚ) (hx : 2 ^ emin ≤ |x|) :
    |round_to_format p emin x - x| ≤ |x| / 2 ^ p := by
  have hpos : (0 : ℚ) < |x| := lt_of_lt_of_le (two_zpow_pos emin) hx
  have b := (Int.zpow_le_iff_le_log (by norm_num : 1 < 2) hpos).mp
    (by push_cast; exact hx : ((2 : ℕ) : ℚ) ^ emin ≤ |x|)
  have hl := Int.zpow_log_le_self (by norm_num : 1 < 2) hpos
  push_cast at hl
  have he : ulp_exponent p emin x = Int.log 2 |x| - p + 1 := by
    unfold ulp_exponent
    rw [max_eq_left b]; ring
  unfold round_to_format
  rw [he]
  generalize Int.log 2 |x| = L at hl
  have hu : (0 : ℚ) < 2 ^ (L - (p : Int) + 1) := two_zpow_pos _
  have hr := round_half_even_error (x / 2 ^ (L - (p : Int) + 1))
  have heq : (round_half_even (x / 2 ^ (L - (p : Int) + 1)) : ℚ) * 2 ^ (L - (p : Int) + 1) - x =
      ((round_half_even (x / 2 ^ (L - (p : Int) + 1)) : ℚ) - x / 2 ^ (L - (p : Int) + 1)) *
        2 ^ (L - (p : Int) + 1) := by
    field_simp
  rw [heq, abs_mul, abs_of_pos hu]
  have hu2 : (2 : ℚ) ^ (L - (p : Int) + 1) = 2 ^ L / 2 ^ p * 2 := by
    rw [zpow_add₀ (by norm_num), zpow_sub₀ (by norm_num), zpow_natCast, zpow_one]
  have hp : (0 : ℚ) < 2 ^ p := by positivity
  calc |(round_half_even (x / 2 ^ (L - (p : Int) + 1)) : ℚ) - x / 2 ^ (L - (p : Int) + 1)| *
        2 ^ (L - (p : Int) + 1)
      ≤ 1 / 2 * 2 ^ (L - (p : Int) + 1) := mul_le_mul_of_nonneg_right hr hu.le
    _ = 2 ^ L / 2 ^ p := by rw [hu2]; ring
    _ ≤ |x| / 2 ^ p := div_le_div_of_nonneg_right hl hp.le


theorem round_float_exact (m k : Int) (hm : |m| < 2 ^ 24) (hk : -149 ≤ k) :
    round_float ((m : ℚ) * 2 ^ k) = (m : ℚ) * 2 ^ k :=
  round_to_format_exact 24 (-126) m k hm (by push_cast; omega)

theorem round_double_exact (m k : Int) (hm : |m| < 2 ^ 53) (hk : -1074 ≤ k) :
    round_double ((m : ℚ) * 2 ^ k) = (m : ℚ) * 2 ^ k :=
  round_to_format_exact 53 (-1022) m k hm (by push_cast; omega)

theorem round_float_intCast (m : Int) (hm : |m| < 2 ^ 24) : round_float (m : ℚ) = m := by
  have := round_float_exact m 0 hm (by norm_num)
  simpa using this

theorem round_double_intCast (m : Int) (hm : |m| < 2 ^ 53) : round_double (m : ℚ) = m := by
  have := round_double_exact m 0 hm (by norm_num)
  simpa using this

theorem TEMP_CONVERT_FAC_float_eq : TEMP_CONVERT_FAC_float = 1 / 8 := by
  have e : (0.125 : ℚ) = ((1 : Int) : ℚ) * 2 ^ (-3 : Int) := by norm_num
  unfold TEMP_CONVERT_FAC_float
  rw [e, round_double_exact 1 (-3) (by norm_num) (by norm_num),
    round_float_exact 1 (-3) (by norm_num) (by norm_num)]
  norm_num

theorem VOLT_CONVERT_FAC_float_eq : VOLT_CONVERT_FAC_float = 25 / 8 := by
  have e : (3.125 : ℚ) = ((25 : Int) : ℚ) * 2 ^ (-3 : Int) := by norm_num
  unfold VOLT_CONVERT_FAC_float
  rw [e, round_double_exact 25 (-3) (by norm_num) (by norm_num),
    round_float_exact 25 (-3) (by norm_num) (by norm_num)]
  norm_num

theorem convert_raw_to_celsius_float_eq (raw : Int) (h : -32768 ≤ raw ∧ raw ≤ 32767) :
    convert_raw_to_celsius_float raw = (raw : ℚ) * 0.125 := by
  have hm : |raw| < 2 ^ 24 := by rw [abs_lt]; constructor <;> omega
  unfold convert_raw_to_celsius_float
  rw [round_float_intCast raw hm, TEMP_CONVERT_FAC_float_eq]
  have e : (raw : ℚ) * (1 / 8) = (raw : ℚ) * 2 ^ (-3 : Int) := by norm_num
  rw [e, round_float_exact raw (-3) hm (by norm_num)]
  norm_num

theorem convert_raw_to_mv_float_eq (raw : Int) (h : -32768 ≤ raw ∧ raw ≤ 32767) :
    convert_raw_to_mv_float raw = (raw : ℚ) * 3.125 := by
  have hm : |raw| < 2 ^ 24 := by rw [abs_lt]; constructor <;> omega
  have hm2 : |25 * raw| < 2 ^ 24 := by rw [abs_lt]; constructor <;> omega
  unfold convert_raw_to_mv_float
  rw [round_float_intCast raw hm, VOLT_CONVERT_FAC_float_eq]
  have e : (raw : ℚ) * (25 / 8) = ((25 * raw : Int) : ℚ) * 2 ^ (-3 : Int) := by
    push_cast; norm_num; ring
  rw [e, round_float_exact (25 * raw) (-3) hm2 (by norm_num)]
  push_cast; norm_num; ring

theorem CURRENT_LSB_float_eq : CURRENT_LSB_float = 1 := by
  unfold CURRENT_LSB_float MAXIMUM_EXPECTED_CURRENT
  have := round_float_intCast 1 (by norm_num)
  simpa using this

/-- The `double` literal `0.2` is 3602879701896397 / 2^54. -/
theorem round_double_fifth : round_double 0.2 = 3602879701896397 / 18014398509481984 := by
  have := round_to_format_at 53 (-1022) 0.2 (-3) 7205759403792794
    (by rw [abs_of_pos (by norm_num)]; norm_num)
    (by rw [abs_of_pos (by norm_num)]; norm_num) (by norm_num)
    (by rw [abs_lt]; norm_num)
  unfold round_double
  rw [this]; norm_num


/-- The product by `CURRENT_LSB() = 1` and the conversion of the integer are exact:
what is rounded is the product of the `double` 0.2 and the raw value. -/
theorem convert_raw_to_watts_float_eq (raw : Int) (h : |raw| < 2 ^ 53) :
    convert_raw_to_watts_float raw =
      round_float (round_double (3602879701896397 / 18014398509481984 * (raw : ℚ))) := by
  have e : (3602879701896397 / 18014398509481984 : ℚ) =
      ((3602879701896397 : Int) : ℚ) * 2 ^ (-54 : Int) := by norm_num
  unfold convert_raw_to_watts_float
  rw [round_double_fifth, CURRENT_LSB_float_eq, mul_one, round_double_intCast raw h, e,
    round_double_exact 3602879701896397 (-54) (by norm_num) (by norm_num)]

theorem convert_raw_to_watts_float_one :
    convert_raw_to_watts_float 1 = 13421773 / 67108864 := by
  have e : (3602879701896397 / 18014398509481984 * ((1 : Int) : ℚ) : ℚ) =
      ((3602879701896397 : Int) : ℚ) * 2 ^ (-54 : Int) := by norm_num
  rw [convert_raw_to_watts_float_eq 1 (by norm_num), e,
    round_double_exact 3602879701896397 (-54) (by norm_num) (by norm_num)]
  have := round_to_format_at 24 (-126)
    (((3602879701896397 : Int) : ℚ) * 2 ^ (-54 : Int)) (-3) 13421773
    (by rw [abs_of_pos (by norm_num)]; norm_num)
    (by rw [abs_of_pos (by norm_num)]; norm_num) (by norm_num)
    (by rw [abs_lt]; norm_num)
  unfold round_float
  rw [this]; norm_num

theorem convert_raw_to_watts_float_five : convert_raw_to_watts_float 5 = 1 := by
  rw [convert_raw_to_watts_float_eq 5 (by norm_num)]
  have a := round_to_format_at 53 (-1022)
    (3602879701896397 / 18014398509481984 * ((5 : Int) : ℚ)) 0 4503599627370496
    (by rw [abs_of_pos (by norm_num)]; norm_num)
    (by rw [abs_of_pos (by norm_num)]; norm_num) (by norm_num)
    (by rw [abs_lt]; norm_num)
  have b : round_double (3602879701896397 / 18014398509481984 * ((5 : Int) : ℚ)) =
      ((1 : Int) : ℚ) := by
    unfold round_double
    rw [a]; norm_num
  rw [b, round_float_intCast 1 (by norm_num)]
  norm_num

/-- A fifth of an integer is a binary fraction only if the integer is a multiple of 5. -/
theorem dyadic_eq_fifth (n e raw : Int) (h : (n : ℚ) * 2 ^ e = (raw : ℚ) / 5) : 5 ∣ raw := by
  obtain ⟨d, rfl | rfl⟩ := Int.eq_nat_or_neg e
  · rw [zpow_natCast] at h
    have : (raw : ℚ) = ((5 * (n * 2 ^ d) : Int) : ℚ) := by push_cast; linarith
    exact ⟨n * 2 ^ d, by exact_mod_cast this⟩
  · rw [zpow_neg, zpow_natCast] at h
    have hp : (0 : ℚ) < 2 ^ d := by positivity
    have : ((5 * n : Int) : ℚ) = ((raw * 2 ^ d : Int) : ℚ) := by
      push_cast
      field_simp at h
      linarith
    have h2 : 5 * n = raw * 2 ^ d := by exact_mod_cast this
    have hc : IsCoprime (5 : Int) (2 ^ d) :=
      IsCoprime.pow_right (by rw [Int.isCoprime_iff_gcd_eq_one]; rfl)
    exact hc.dvd_of_dvd_mul_right ⟨n, h2.symm⟩

theorem round_to_format_eq_fifth (p : Nat) (emin : Int) (x : ℚ) (raw : Int)
    (h : round_to_format p emin x = (raw : ℚ) / 5) : 5 ∣ raw :=
  dyadic_eq_fifth _ _ raw h

/-- The value `convert_raw_to_watts` returns is 0.2 * raw only if raw is a multiple of 5. -/
theorem convert_raw_to_watts_float_exact_only_if (raw : Int)
    (h : convert_raw_to_watts_float raw = 0.2 * (raw : ℚ)) : 5 ∣ raw := by
  unfold convert_raw_to_watts_float round_float at h
  exact round_to_format_eq_fifth 24 (-126) _ raw (by rw [h]; norm_num; ring)

/-- The value `convert_raw_to_watts` returns is within a relative 2^-23 of 0.2 * raw. -/
theorem convert_raw_to_watts_float_error (raw : Int) (h : |raw| < 2 ^ 53) :
    |convert_raw_to_watts_float raw - 0.2 * (raw : ℚ)| ≤ |0.2 * (raw : ℚ)| / 2 ^ 23 := by
  rw [convert_raw_to_watts_float_eq raw h]
  by_cases h0 : raw = 0
  · subst h0
    simp [round_double, round_float, round_to_format_zero]
  have hr : (1 : ℚ) ≤ |(raw : ℚ)| := by
    have : (1 : Int) ≤ |raw| := Int.one_le_abs h0
    exact_mod_cast this
  set c : ℚ := 3602879701896397 / 18014398509481984 with hc
  set y1 : ℚ := c * (raw : ℚ) with hy1
  have ha1 : |y1| = c * |(raw : ℚ)| := by
    rw [hy1, abs_mul, abs_of_pos (by rw [hc]; norm_num)]
  have hd1 : |y1 - 0.2 * (raw : ℚ)| = |(raw : ℚ)| / 90071992547409920 := by
    have : y1 - 0.2 * (raw : ℚ) = (raw : ℚ) * (1 / 90071992547409920) := by
      rw [hy1, hc]; ring
    rw [this, abs_mul, abs_of_pos (by norm_num : (0 : ℚ) < 1 / 90071992547409920)]
    ring
  have ht : |0.2 * (raw : ℚ)| = |(raw : ℚ)| / 5 := by
    rw [abs_mul, abs_of_pos (by norm_num : (0 : ℚ) < 0.2)]; ring
  have e1 : (2 : ℚ) ^ (-1022 : Int) ≤ |y1| := by
    rw [ha1]
    have : (2 : ℚ) ^ (-1022 : Int) ≤ 2 ^ (-3 : Int) :=
      zpow_le_zpow_right₀ (by norm_num) (by norm_num)
    have h3 : (2 : ℚ) ^ (-3 : Int) = 1 / 8 := by norm_num
    rw [hc]
    nlinarith
  have b1 := round_to_format_error 53 (-1022) y1 e1
  have b1f : |round_double y1 - y1| ≤ |y1| / 2 ^ 53 := b1
  set y2 : ℚ := round_double y1 with hy2
  have l2 : |y1| - |y2| ≤ |y2 - y1| := by
    rw [abs_sub_comm y2 y1]; exact abs_sub_abs_le_abs_sub y1 y2
  have u2 : |y2| - |y1| ≤ |y2 - y1| := abs_sub_abs_le_abs_sub y2 y1
  have e2 : (2 : ℚ) ^ (-126 : Int) ≤ |y2| := by
    have : (2 : ℚ) ^ (-126 : Int) ≤ 2 ^ (-4 : Int) :=
      zpow_le_zpow_right₀ (by norm_num) (by norm_num)
    have h3 : (2 : ℚ) ^ (-4 : Int) = 1 / 16 := by norm_num
    have h4 : (2 : ℚ) ^ 53 = 9007199254740992 := by norm_num
    rw [h4] at b1f
    rw [ha1, hc] at b1f l2
    have h7 : (1 : ℚ) / 16 ≤ |y2| := by linarith
    exact le_trans (le_trans this h3.le) h7
  have b2 := round_to_format_error 24 (-126) y2 e2
  have b2f : |round_float y2 - y2| ≤ |y2| / 2 ^ 24 := b2
  have tri : |round_float y2 - 0.2 * (raw : ℚ)| ≤
      |round_float y2 - y2| + |y2 - y1| + |y1 - 0.2 * (raw : ℚ)| := by
    have t1 := abs_sub_le (round_float y2) y2 (0.2 * (raw : ℚ))
    have t2 := abs_sub_le y2 y1 (0.2 * (raw : ℚ))
    linarith
  have h4 : (2 : ℚ) ^ 53 = 9007199254740992 := by norm_num
  have h5 : (2 : ℚ) ^ 24 = 16777216 := by norm_num
  have h6 : (2 : ℚ) ^ 23 = 8388608 := by norm_num
  rw [h4] at b1f
  rw [h5] at b2f
  rw [ht, h6]
  rw [hd1] at tri
  rw [ha1, hc] at b1f u2
  linarith

/-- For a 16-bit raw value the exact-arithmetic `convert_raw_to_celsius` is the
value the C function returns. -/
theorem convert_raw_to_celsius_float_agrees (raw : Int) (h : -32768 ≤ raw ∧ raw ≤ 32767) :
    convert_raw_to_celsius_float raw = convert_raw_to_celsius raw := by
  rw [convert_raw_to_celsius_float_eq raw h]; rfl

/-- For a 16-bit raw value the exact-arithmetic `convert_raw_to_mv` is the value
the C function returns. -/
theorem convert_raw_to_mv_float_agrees (raw : Int) (h : -32768 ≤ raw ∧ raw ≤ 32767) :
    convert_raw_to_mv_float raw = convert_raw_to_mv raw := by
  rw [convert_raw_to_mv_float_eq raw h]; rfl

/-- The exact-arithmetic `convert_raw_to_watts` is within a relative 2^-23 of the
value the C function returns. -/
theorem convert_raw_to_watts_float_near (raw : Int) (h : |raw| < 2 ^ 53) :
    |convert_raw_to_watts_float raw - convert_raw_to_watts raw| ≤
      |convert_raw_to_watts raw| / 2 ^ 23 := by
  rw [convert_raw_to_watts_eq]
  exact convert_raw_to_watts_float_error raw h

/-- C17 (amended): with the roundings of `float` and `double` in place, for every
16-bit signed raw `convert_raw_to_celsius` returns exactly raw * 0.125 and
`convert_raw_to_mv` exactly raw * 3.125; `CURRENT_LSB` returns 1 (integer
division 32768 / 32768); for every 32-bit signed raw power `convert_raw_to_watts`
returns 0.2 * raw up to a relative error of 2^-23, and returns exactly 0.2 * raw
only if raw is a multiple of 5; raw 400 gives 50 degrees, raw 320 gives
1000 mV and raw power 5 gives 1 W. -/
theorem C17_unit_conversions_up_to_rounding (raw power : Int)
    (hraw : -32768 ≤ raw ∧ raw ≤ 32767)
    (hpower : -2147483648 ≤ power ∧ power ≤ 2147483647) :
    convert_raw_to_celsius_float raw = (raw : ℚ) * 0.125 ∧
    convert_raw_to_mv_float raw = (raw : ℚ) * 3.125 ∧
    CURRENT_LSB_float = 1 ∧
    |convert_raw_to_watts_float power - 0.2 * (power : ℚ)| ≤ |0.2 * (power : ℚ)| / 2 ^ 23 ∧
    (convert_raw_to_watts_float power = 0.2 * (power : ℚ) → 5 ∣ power) ∧
    convert_raw_to_celsius_float 400 = 50 ∧
    convert_raw_to_mv_float 320 = 1000 ∧
    convert_raw_to_watts_float 5 = 1 := by
  have hp : |power| < 2 ^ 53 := by rw [abs_lt]; constructor <;> omega
  refine ⟨convert_raw_to_celsius_float_eq raw hraw, convert_raw_to_mv_float_eq raw hraw,
    CURRENT_LSB_float_eq, convert_raw_to_watts_float_error power hp,
    convert_raw_to_watts_float_exact_only_if power, ?_, ?_, convert_raw_to_watts_float_five⟩
  · rw [convert_raw_to_celsius_float_eq 400 (by decide)]; norm_num
  · rw [convert_raw_to_mv_float_eq 320 (by decide)]; norm_num

/-- C17 as stated fails: at raw power 1 `convert_raw_to_watts` returns the `float`
13421773 / 2^26 (the `double` 0.2 rounded to binary32), which is not 0.2 * 1. -/
theorem C17_watts_inexact_at_raw_one :
    convert_raw_to_watts_float 1 = 13421773 / 67108864 ∧
    convert_raw_to_watts_float 1 ≠ 0.2 * ((1 : Int) : ℚ) := by
  refine ⟨convert_raw_to_watts_float_one, ?_⟩
  rw [convert_raw_to_watts_float_one]; norm_num

/-- C17 (amended) at the least 16-bit raw value and the greatest 32-bit raw power. -/
theorem C17_unit_conversions_up_to_rounding_witness :
    (-32768 ≤ (-32768 : Int) ∧ (-32768 : Int) ≤ 32767) ∧
    (-2147483648 ≤ (2147483647 : Int) ∧ (2147483647 : Int) ≤ 2147483647) ∧
    convert_raw_to_celsius_float (-32768) = -4096 ∧
    convert_raw_to_mv_float (-32768) = -102400 ∧
    |convert_raw_to_watts_float 2147483647 - 0.2 * ((2147483647 : Int) : ℚ)|
      ≤ |0.2 * ((2147483647 : Int) : ℚ)| / 2 ^ 23 ∧
    (convert_raw_to_watts_float 2147483647 = 0.2 * ((2147483647 : Int) : ℚ) →
      (5 : Int) ∣ 2147483647) := by
  have h := C17_unit_conversions_up_to_rounding (-32768) 2147483647 (by decide) (by decide)
  refine ⟨by decide, by decide, ?_, ?_, h.2.2.2.1, h.2.2.2.2.1⟩
  · rw [h.1]; norm_num
  · rw [h.2.1]; norm_num

/-- C19_not_sunlit_keeps_evidence: with the latch clear, no error tag on either read, and temperature
below 50 degrees or voltage below 0 mV, `handle_chronic_idle` only reads the
two registers: no reinit, nothing printed, window, latch and `g_read_error`
unchanged; with the window at 0xFF the next idle firing invokes it again. -/
theorem C19_not_sunlit_keeps_evidence (t v : Reading) (s : State)
    (hl : s.ci.mppt_was_reset = FALSE)
    (ht : is_error_tag t.out_message = false) (hv : is_error_tag v.out_message = false)
    (hdark : convert_raw_to_celsius t.raw < 50 ∨ convert_raw_to_mv v.raw < 0) :
    handle_chronic_idle t v s =
      { s with trace := s.trace ++ [Event.call_handle_chronic_idle,
          Event.eps_get_power_monitor_temp_func, Event.eps_get_power_monitor_v_bus_val_func] } ∧
    Event.mppt_init ∉ new_events s (handle_chronic_idle t v s) ∧
    (∀ text, Event.printf text ∉ new_events s (handle_chronic_idle t v s)) ∧
    (handle_chronic_idle t v s).ci.consecutive_idles = s.ci.consecutive_idles ∧
    (handle_chronic_idle t v s).ci.mppt_was_reset = FALSE ∧
    (handle_chronic_idle t v s).g_read_error = s.g_read_error ∧
    (s.ci.consecutive_idles = 0xFF → ∀ t2 v2,
      Event.call_handle_chronic_idle ∈
        new_events (handle_chronic_idle t v s)
          (detect_chronic_idle_fire eps_mppt_status.EPS_MPPT_CHARGING_IDLE t2 v2
            (handle_chronic_idle t v s))) := by
  have e1 := (not_error_tag ht).1
  have e2 := (not_error_tag hv).1
  have hnd : ¬ (400 ≤ t.raw ∧ 0 ≤ v.raw) := by
    rintro ⟨a, b⟩
    have a2 := (daylight_temp_iff t.raw).mpr a
    have b2 := (daylight_volt_iff v.raw).mpr b
    simp only [DAYLIGHT_TEMP_LIM, DAYLIGHT_VOLT_LIM, ge_iff_le] at a2 b2
    rcases hdark with h | h
    · exact absurd a2 (not_le.mpr h)
    · exact absurd b2 (not_le.mpr h)
  have heq : handle_chronic_idle t v s =
      { s with trace := s.trace ++ [Event.call_handle_chronic_idle,
          Event.eps_get_power_monitor_temp_func, Event.eps_get_power_monitor_v_bus_val_func] } := by
    rw [handle_chronic_idle_clear t v s hl, if_neg (by simp [e1, e2]), if_neg hnd]
  refine ⟨heq, ?_, ?_, ?_, ?_, ?_, ?_⟩
  · rw [heq]; simp [new_events]
  · intro text; rw [heq]; simp [new_events]
  · rw [heq]
  · rw [heq]; exact hl
  · rw [heq]
  · intro hw t2 v2
    rw [fire_invokes_iff, fire_window, if_pos rfl, heq]
    simp only [hw]
    rfl

theorem run_chronic_idle_ticks_snoc (l : List IdleFiring) (x : IdleFiring) (s : State) :
    run_chronic_idle_ticks (l ++ [x]) s
      = detect_chronic_idle x.status x.temp x.v_bus (run_chronic_idle_ticks l s) := by
  simp [run_chronic_idle_ticks, List.foldl_append]

theorem handle_chronic_idle_no_sample (t v : Reading) (s : State) :
    ∃ evs, (handle_chronic_idle t v s).trace = s.trace ++ evs ∧
      Event.mppt_get_charge_status ∉ evs := by
  by_cases hl : s.ci.mppt_was_reset = FALSE
  · rw [handle_chronic_idle_clear t v s hl]
    split_ifs
    · exact ⟨_, rfl, by simp⟩
    · exact ⟨_, rfl, by simp⟩
    · exact ⟨_, rfl, by simp⟩
  · by_cases hl2 : s.ci.mppt_was_reset = TRUE
    · rw [handle_chronic_idle_set t v s hl2]
      exact ⟨_, rfl, by simp⟩
    · refine ⟨[Event.call_handle_chronic_idle], ?_, by simp⟩
      unfold handle_chronic_idle
      simp only [State.emit]
      rw [if_neg hl, if_neg hl2]

theorem fire_resets_counter (out : eps_mppt_status) (t v : Reading) (s : State) :
    (detect_chronic_idle_fire out t v s).ci.pass_num = 0 := rfl

theorem fire_samples_once (out : eps_mppt_status) (t v : Reading) (s : State) :
    (new_events s (detect_chronic_idle_fire out t v s)).count
      Event.mppt_get_charge_status = 1 := by
  unfold detect_chronic_idle_fire
  simp only
  split_ifs with h1 h2
  · obtain ⟨evs, he, hno⟩ := handle_chronic_idle_no_sample t v
      { s.emit Event.mppt_get_charge_status with ci := { s.ci with
        consecutive_idles := ((s.ci.consecutive_idles <<< 1) ||| 1) % 256 } }
    simp only [State.emit] at he ⊢
    simp only [new_events, he]
    simp [List.count_eq_zero_of_not_mem hno]
  · simp [new_events, State.emit]
  · simp [new_events, State.emit]

theorem ticks_counting (ins : List IdleFiring) (s : State) (h0 : s.ci.pass_num = 0)
    (hlen : ins.length ≤ g_const_PASS_REQ / (s.g_source_decay + 1) + 1) :
    run_chronic_idle_ticks ins s = { s with ci := { s.ci with pass_num := ins.length } } := by
  induction ins using List.reverseRecOn with
  | nil =>
    simp only [run_chronic_idle_ticks, List.foldl_nil, List.length_nil]
    rw [← h0]
  | append_singleton l x ih =>
    rw [List.length_append, List.length_singleton] at hlen ⊢
    have hT : g_const_PASS_REQ / (s.g_source_decay + 1) ≤ 7999 := Nat.div_le_self _ _
    rw [run_chronic_idle_ticks_snoc, ih (by omega)]
    unfold detect_chronic_idle
    simp only
    rw [if_pos (by omega)]
    have e : (l.length + 1) % 2 ^ 16 = l.length + 1 := by
      apply Nat.mod_eq_of_lt
      have : (2 : Nat) ^ 16 = 65536 := by norm_num
      omega
    rw [e]

theorem ticks_bounded (ins : List IdleFiring) (s : State) (h0 : s.ci.pass_num = 0) :
    (run_chronic_idle_ticks ins s).ci.pass_num ≤ g_const_PASS_REQ / (s.g_source_decay + 1) + 1 ∧
      (run_chronic_idle_ticks ins s).g_source_decay = s.g_source_decay := by
  induction ins using List.reverseRecOn with
  | nil =>
    refine ⟨?_, rfl⟩
    show s.ci.pass_num ≤ _
    rw [h0]; exact Nat.zero_le _
  | append_singleton l x ih =>
    obtain ⟨ib, ig⟩ := ih
    rw [run_chronic_idle_ticks_snoc]
    refine ⟨?_, by rw [(detect_chronic_idle_frame _ _ _ _).2.2.1, ig]⟩
    unfold detect_chronic_idle
    split_ifs with hc
    · rw [ig] at hc
      show ((run_chronic_idle_ticks l s).ci.pass_num + 1) % 2 ^ 16 ≤ _
      have := Nat.mod_le ((run_chronic_idle_ticks l s).ci.pass_num + 1) (2 ^ 16)
      omega
    · rw [fire_resets_counter]
      exact Nat.zero_le _

/-- C15_chronic_idle_cadence: with `g_source_decay` = d and T = 7999 / (d + 1), from tick counter 0
the first T + 1 calls of `detect_chronic_idle` only set the counter to the
number of calls made; the next call, the (T + 2)-th, finds the counter above T,
queries the MPPT status exactly once and zeroes the counter. T + 2 is 8001 for
d = 0 and 4001 for d = 1, and the counter never exceeds T + 1. -/
theorem C15_chronic_idle_cadence (d : Nat) (s : State) (hd : s.g_source_decay = d) (h0 : s.ci.pass_num = 0) :
    ((d = 0 → g_const_PASS_REQ / (d + 1) = 7999) ∧ (d = 1 → g_const_PASS_REQ / (d + 1) = 3999)) ∧
    (∀ ins : List IdleFiring, ins.length ≤ g_const_PASS_REQ / (d + 1) + 1 →
      run_chronic_idle_ticks ins s = { s with ci := { s.ci with pass_num := ins.length } }) ∧
    (∀ (ins : List IdleFiring) (x : IdleFiring), ins.length = g_const_PASS_REQ / (d + 1) + 1 →
      (ins ++ [x]).length = g_const_PASS_REQ / (d + 1) + 2 ∧
      g_const_PASS_REQ / (d + 1) < (run_chronic_idle_ticks ins s).ci.pass_num ∧
      (new_events (run_chronic_idle_ticks ins s)
        (run_chronic_idle_ticks (ins ++ [x]) s)).count Event.mppt_get_charge_status = 1 ∧
      (run_chronic_idle_ticks (ins ++ [x]) s).ci.pass_num = 0) ∧
    ((d = 0 → g_const_PASS_REQ / (d + 1) + 2 = 8001) ∧
      (d = 1 → g_const_PASS_REQ / (d + 1) + 2 = 4001)) ∧
    (∀ ins : List IdleFiring,
      (run_chronic_idle_ticks ins s).ci.pass_num ≤ g_const_PASS_REQ / (d + 1) + 1 ∧
        (run_chronic_idle_ticks ins s).g_source_decay = d) := by
  subst hd
  refine ⟨⟨?_, ?_⟩, ?_, ?_, ⟨?_, ?_⟩, ?_⟩
  · intro h; rw [h]; rfl
  · intro h; rw [h]; rfl
  · intro ins hlen
    exact ticks_counting ins s h0 hlen
  · intro ins x hlen
    have hc := ticks_counting ins s h0 (le_of_eq hlen)
    have hexp : g_const_PASS_REQ / (s.g_source_decay + 1) < (run_chronic_idle_ticks ins s).ci.pass_num := by
      rw [hc]; show _ < ins.length; omega
    have hg : (run_chronic_idle_ticks ins s).g_source_decay = s.g_source_decay := by rw [hc]
    rw [run_chronic_idle_ticks_snoc,
      detect_chronic_idle_expired _ _ _ _ (by rw [hg]; exact hexp)]
    refine ⟨by simp [hlen], hexp, ?_, ?_⟩
    · exact fire_samples_once _ _ _ _
    · exact fire_resets_counter _ _ _ _
  · intro h; rw [h]; rfl
  · intro h; rw [h]; rfl
  · intro ins
    exact ticks_bounded ins s h0

theorem month_position_step (k : Nat) (sd0 : SourceDecay) (p : Reading) (s : State)
    (hin : month_position k sd0 s.sd) (hk : k + 1 < 43200)
    (hp : p.out_message ≠ "ERRORP\r\n") :
    (log_current_power p s).1 = 0 ∧
      month_position (k + 1) sd0 (log_current_power p s).2.sd := by
  obtain ⟨i1, i2, i3, i7, i8, i9, i10⟩ := hin
  by_cases hm : k % 60 = 59
  · by_cases hh : k / 60 % 24 = 23
    · have hd : s.sd.days_pos + 1 < 30 := by omega
      rw [log_current_power_day p s hp (by omega) (by omega) hd]
      refine ⟨rfl, ?_, ?_, ?_, i7, i8, i9, i10⟩
      · show 0 = (k + 1) % 60
        omega
      · show 0 = (k + 1) / 60 % 24
        omega
      · show s.sd.days_pos + 1 = (k + 1) / 1440
        omega
    · have hh2 : s.sd.hours_pos + 1 < 24 := by omega
      rw [log_current_power_hour p s hp (by omega) hh2]
      refine ⟨rfl, ?_, ?_, ?_, i7, i8, i9, i10⟩
      · show 0 = (k + 1) % 60
        omega
      · show s.sd.hours_pos + 1 = (k + 1) / 60 % 24
        omega
      · show s.sd.days_pos = (k + 1) / 1440
        omega
  · have hm2 : s.sd.minutes_pos + 1 < 60 := by omega
    rw [log_current_power_minute p s hp hm2]
    refine ⟨rfl, ?_, ?_, ?_, i7, i8, i9, i10⟩
    · show s.sd.minutes_pos + 1 = (k + 1) % 60
      omega
    · show s.sd.hours_pos = (k + 1) / 60 % 24
      omega
    · show s.sd.days_pos = (k + 1) / 1440
      omega

theorem fire_error_sd (p : Reading) (s : State) (hp : p.out_message = "ERRORP\r\n") :
    (detect_source_decay_fire p s).sd = { s.sd with raw_power_val := p.raw, pass_num := 0 } ∧
      (detect_source_decay_fire p s).g_source_decay = s.g_source_decay := by
  rw [detect_source_decay_fire_error p s hp]
  exact ⟨rfl, rfl⟩

theorem run_source_decay_position (l : List Reading) (s : State)
    (hs : s.sd.minutes_pos = 0 ∧ s.sd.hours_pos = 0 ∧ s.sd.days_pos = 0)
    (hpend : s.sd.perform_monthly_check = FALSE)
    (hlen : l.countP read_ok < 43200) :
    month_position (l.countP read_ok) s.sd (run_source_decay l s).sd ∧
      (run_source_decay l s).g_source_decay = s.g_source_decay := by
  induction l using List.reverseRecOn with
  | nil =>
    obtain ⟨h1, h2, h3⟩ := hs
    exact ⟨⟨h1, h2, h3, rfl, rfl, rfl, rfl⟩, rfl⟩
  | append_singleton l x ih =>
    rw [List.countP_append, List.countP_singleton] at hlen ⊢
    rw [run_source_decay_snoc]
    by_cases hx : read_ok x = true
    · rw [if_pos hx] at hlen ⊢
      obtain ⟨ihp, ihg⟩ := ih (by omega)
      have hxp := (read_ok_iff x).mp hx
      obtain ⟨s1, s2⟩ := month_position_step _ s.sd x _ ihp hlen hxp
      have hpd : (log_current_power x (run_source_decay l s)).2.sd.perform_monthly_check
          = FALSE := by
        rw [s2.2.2.2.2.2.2, hpend]
      rw [fire_without_check x _ s1 hpd]
      exact ⟨s2, by rw [← ihg]; exact (log_current_power_frame x _).1⟩
    · rw [if_neg hx] at hlen ⊢
      obtain ⟨ihp, ihg⟩ := ih hlen
      have hxp : x.out_message = "ERRORP\r\n" := by
        by_contra h; exact hx ((read_ok_iff x).mpr h)
      obtain ⟨e1, e2⟩ := fire_error_sd x (run_source_decay l s) hxp
      rw [e1, e2]
      exact ⟨ihp, ihg⟩

theorem log_current_power_close (p : Reading) (s : State)
    (hp : p.out_message ≠ "ERRORP\r\n") (he : month_end s.sd) :
    log_current_power p s =
      (0, { s with
        sd := { s.sd with
          raw_power_val := p.raw,
          minutes_roll_avg := 0,
          minutes_pos := 0,
          hours_roll_avg := 0,
          hours_pos := 0,
          days_roll_avg := 0,
          days_pos := 0,
          months_log := Function.update s.sd.months_log s.sd.months_pos (month_average p s.sd),
          baseline_avg :=
            if s.sd.baseline_avg = 0 then month_average p s.sd else s.sd.baseline_avg,
          perform_monthly_check :=
            if s.sd.baseline_avg = 0 then s.sd.perform_monthly_check else TRUE,
          months_pos := next_months_pos s.sd },
        trace := s.trace ++ [Event.eps_get_power_monitor_power_func] }) := by
  obtain ⟨h1, h2, h3, h4⟩ := he
  rw [log_current_power_month p s hp h1 h2 h3 h4]
  rfl

theorem next_months_pos_ne (sd : SourceDecay) (h : sd.months_pos < 128) :
    next_months_pos sd ≠ sd.months_pos ∧ next_months_pos sd < 128 := by
  unfold next_months_pos
  split_ifs <;> omega

theorem fire_close_capture (p : Reading) (s : State)
    (hp : p.out_message ≠ "ERRORP\r\n") (he : month_end s.sd)
    (hb : s.sd.baseline_avg = 0) :
    (log_current_power p s).2.sd.months_log s.sd.months_pos = month_average p s.sd ∧
    (log_current_power p s).2.sd.baseline_avg = month_average p s.sd ∧
    (log_current_power p s).2.sd.perform_monthly_check = s.sd.perform_monthly_check ∧
    (s.sd.perform_monthly_check = FALSE →
      detect_source_decay_fire p s =
        { (log_current_power p s).2 with
          sd := { (log_current_power p s).2.sd with pass_num := 0 } } ∧
      Event.call_handle_source_decay ∉ new_events s (detect_source_decay_fire p s)) := by
  have hlog := log_current_power_close p s hp he
  rw [if_pos hb, if_pos hb] at hlog
  have h1 : (log_current_power p s).1 = 0 := by rw [hlog]
  refine ⟨?_, ?_, ?_, ?_⟩
  · rw [hlog]; simp
  · rw [hlog]
  · rw [hlog]
  · intro hpend
    have h2 : (log_current_power p s).2.sd.perform_monthly_check = FALSE := by
      rw [hlog]; exact hpend
    have hf := fire_without_check p s h1 h2
    refine ⟨hf, ?_⟩
    rw [hf, hlog]
    simp [new_events]

theorem fire_close_check (p : Reading) (s : State)
    (hp : p.out_message ≠ "ERRORP\r\n") (he : month_end s.sd)
    (hb : s.sd.baseline_avg ≠ 0) :
    (log_current_power p s).2.sd.months_log s.sd.months_pos = month_average p s.sd ∧
    (log_current_power p s).2.sd.months_pos = next_months_pos s.sd ∧
    (log_current_power p s).2.sd.baseline_avg = s.sd.baseline_avg ∧
    (log_current_power p s).2.sd.perform_monthly_check = TRUE ∧
    (log_current_power p s).2.sd.months_log (next_months_pos s.sd)
      = s.sd.months_log (next_months_pos s.sd) ∧
    (Event.call_handle_source_decay ∈ new_events s (detect_source_decay_fire p s) ↔
      s.sd.months_log (next_months_pos s.sd) < s.sd.baseline_avg * CAP_THRESHOLD) ∧
    (s.sd.months_log (next_months_pos s.sd) < s.sd.baseline_avg * CAP_THRESHOLD →
      (detect_source_decay_fire p s).g_source_decay = 1) ∧
    (detect_source_decay_fire p s).sd.perform_monthly_check = FALSE := by
  have hlog := log_current_power_close p s hp he
  rw [if_neg hb, if_neg hb] at hlog
  have hupd : Function.update s.sd.months_log s.sd.months_pos (month_average p s.sd)
      (next_months_pos s.sd) = s.sd.months_log (next_months_pos s.sd) :=
    Function.update_noteq (next_months_pos_ne s.sd he.2.2.2).1 _ _
  have h1 : (log_current_power p s).1 = 0 := by rw [hlog]
  have h2 : (log_current_power p s).2.sd.perform_monthly_check = TRUE := by rw [hlog]
  have hfire := fire_with_check p s h1 h2
  rw [hlog] at hfire
  simp only [hupd] at hfire
  refine ⟨?_, ?_, ?_, h2, ?_, ?_, ?_, ?_⟩
  · rw [hlog]; simp
  · rw [hlog]
  · rw [hlog]
  · rw [hlog]; exact hupd
  · rw [hfire]
    by_cases hc : s.sd.months_log (next_months_pos s.sd) < s.sd.baseline_avg * CAP_THRESHOLD
    · simp [hc, new_events]
    · simp [hc, new_events]
  · intro hc
    rw [hfire, if_pos hc]
  · rw [hfire]
    split_ifs <;> rfl

theorem month_position_end (sd0 sd : SourceDecay) (h : month_position 43199 sd0 sd)
    (hmp : sd0.months_pos < 128) : month_end sd := by
  obtain ⟨i1, i2, i3, -, i8, -, -⟩ := h
  exact ⟨by rw [i1], by rw [i2], by rw [i3], by rw [i8]; exact hmp⟩

theorem run_first_close (l : List Reading) (s : State)
    (hs : s.sd.minutes_pos = 0 ∧ s.sd.hours_pos = 0 ∧ s.sd.days_pos = 0)
    (hb : s.sd.baseline_avg = 0) (hpend : s.sd.perform_monthly_check = FALSE)
    (hmp : s.sd.months_pos < 128) (hcount : l.countP read_ok = 43200) :
    ∃ v, ((run_source_decay l s).sd.minutes_pos = 0 ∧ (run_source_decay l s).sd.hours_pos = 0 ∧
        (run_source_decay l s).sd.days_pos = 0) ∧
      (run_source_decay l s).sd.months_log = Function.update s.sd.months_log s.sd.months_pos v ∧
      (run_source_decay l s).sd.months_pos = next_months_pos s.sd ∧
      (run_source_decay l s).sd.baseline_avg = v ∧
      (run_source_decay l s).sd.perform_monthly_check = FALSE ∧
      (run_source_decay l s).g_source_decay = s.g_source_decay := by
  induction l using List.reverseRecOn with
  | nil => simp at hcount
  | append_singleton l x ih =>
    rw [List.countP_append, List.countP_singleton] at hcount
    rw [run_source_decay_snoc]
    by_cases hx : read_ok x = true
    · rw [if_pos hx] at hcount
      have hxp := (read_ok_iff x).mp hx
      obtain ⟨hpos, hg⟩ := run_source_decay_position l s hs hpend (by omega)
      rw [show List.countP read_ok l = 43199 by omega] at hpos
      have hend := month_position_end _ _ hpos hmp
      obtain ⟨-, -, -, i7, i8, i9, i10⟩ := hpos
      obtain ⟨-, -, -, hfire⟩ := fire_close_capture x (run_source_decay l s) hxp hend
        (by rw [i9, hb])
      obtain ⟨hf, -⟩ := hfire (by rw [i10, hpend])
      have hlog := log_current_power_close x (run_source_decay l s) hxp hend
      rw [if_pos (by rw [i9, hb]), if_pos (by rw [i9, hb])] at hlog
      rw [hf, hlog]
      refine ⟨month_average x (run_source_decay l s).sd, ⟨rfl, rfl, rfl⟩, ?_, ?_, rfl, ?_, hg⟩
      · show Function.update _ _ _ = _
        rw [i7, i8]
      · show next_months_pos _ = _
        unfold next_months_pos
        rw [i8]
      · show (run_source_decay l s).sd.perform_monthly_check = FALSE
        rw [i10, hpend]
    · rw [if_neg hx] at hcount
      have hxp : x.out_message = "ERRORP\r\n" := by
        by_contra h; exact hx ((read_ok_iff x).mpr h)
      obtain ⟨v, c1, c2, c3, c4, c5, c6⟩ := ih hcount
      obtain ⟨e1, e2⟩ := fire_error_sd x (run_source_decay l s) hxp
      rw [e1, e2]
      exact ⟨v, c1, c2, c3, c4, c5, c6⟩

/-- C18_monthly_check_reads_next_slot: at a firing that closes a month with a baseline set, the average is
written at the old `months_pos` and the comparison reads `months_log` at the
advanced `months_pos`, a different slot that the call did not write. So from
the initial state, once a first month has set a baseline b > 0, the firing that
closes the second month invokes `handle_source_decay` whatever the readings of
the second month are. -/
theorem C18_monthly_check_reads_next_slot :
    (∀ (p : Reading) (s : State), p.out_message ≠ "ERRORP\r\n" → month_end s.sd →
      s.sd.baseline_avg ≠ 0 →
      (log_current_power p s).2.sd.months_log s.sd.months_pos = month_average p s.sd ∧
      (log_current_power p s).2.sd.months_pos = next_months_pos s.sd ∧
      next_months_pos s.sd ≠ s.sd.months_pos ∧
      (Event.call_handle_source_decay ∈ new_events s (detect_source_decay_fire p s) ↔
        (log_current_power p s).2.sd.months_log (log_current_power p s).2.sd.months_pos <
          s.sd.baseline_avg * CAP_THRESHOLD) ∧
      (Event.call_handle_source_decay ∈ new_events s (detect_source_decay_fire p s) ↔
        s.sd.months_log (next_months_pos s.sd) < s.sd.baseline_avg * CAP_THRESHOLD)) ∧
    (∀ (first second : List Reading) (p : Reading),
      first.countP read_ok = 43200 →
      0 < (run_source_decay first init).sd.baseline_avg →
      second.countP read_ok = 43199 → p.out_message ≠ "ERRORP\r\n" →
      (run_source_decay first init).sd.months_log 0
        = (run_source_decay first init).sd.baseline_avg ∧
      (run_source_decay (second ++ [p]) (run_source_decay first init)).sd.months_log 1
        = month_average p (run_source_decay second (run_source_decay first init)).sd ∧
      (run_source_decay second (run_source_decay first init)).g_source_decay = 0 ∧
      Event.call_handle_source_decay ∈
        new_events (run_source_decay second (run_source_decay first init))
          (run_source_decay (second ++ [p]) (run_source_decay first init)) ∧
      (run_source_decay (second ++ [p]) (run_source_decay first init)).g_source_decay = 1) := by
  constructor
  · intro p s hp he hb
    obtain ⟨k1, k2, k3, -, k5, k6, -, -⟩ := fire_close_check p s hp he hb
    refine ⟨k1, k2, (next_months_pos_ne s.sd he.2.2.2).1, ?_, k6⟩
    rw [k2, k5]; exact k6
  · intro first second p hc1 hb hc2 hp
    obtain ⟨v, c1, c2, c3, c4, c5, c6⟩ := run_first_close first init ⟨rfl, rfl, rfl⟩ rfl rfl
      (by decide) hc1
    have c3b : (run_source_decay first init).sd.months_pos = 1 := by rw [c3]; rfl
    obtain ⟨hpos, hg⟩ := run_source_decay_position second (run_source_decay first init) c1 c5
      (by omega)
    rw [hc2] at hpos
    have hend := month_position_end _ _ hpos (by rw [c3b]; decide)
    obtain ⟨-, -, -, i7, i8, i9, i10⟩ := hpos
    have hbne : (run_source_decay second (run_source_decay first init)).sd.baseline_avg ≠ 0 := by
      rw [i9]; exact ne_of_gt hb
    obtain ⟨k1, -, -, -, -, k6, k7, -⟩ := fire_close_check p _ hp hend hbne
    have hnext : next_months_pos (run_source_decay second (run_source_decay first init)).sd = 2 := by
      unfold next_months_pos
      rw [i8, c3b]; rfl
    have hcond : (run_source_decay second (run_source_decay first init)).sd.months_log
        (next_months_pos (run_source_decay second (run_source_decay first init)).sd) <
        (run_source_decay second (run_source_decay first init)).sd.baseline_avg * CAP_THRESHOLD := by
      rw [hnext, i7, i9, c2, c4]
      have hv : 0 < v := by rw [← c4]; exact hb
      have : (0 : ℚ) < v * CAP_THRESHOLD := by
        unfold CAP_THRESHOLD; positivity
      simpa [Function.update, init] using this
    rw [run_source_decay_snoc]
    refine ⟨?_, ?_, ?_, k6.mpr hcond, k7 hcond⟩
    · rw [c2, c4]; simp [init]
    · rw [detect_source_decay_fire_sd]
      rw [i8, c3b] at k1
      exact k1
    · rw [hg, c6]; rfl

/-- C20_zero_sentinel_baseline: a call that closes a month while `baseline_avg` is 0 assigns the
month's average to `baseline_avg` and leaves the pending flag as it was. So
from the initial state, after a first month whose average is exactly 0, the
firing that closes the second month captures the second month's average as
baseline, leaves the pending flag clear and does not invoke
`handle_source_decay`. -/
theorem C20_zero_sentinel_baseline :
    (∀ (p : Reading) (s : State), p.out_message ≠ "ERRORP\r\n" → month_end s.sd →
      s.sd.baseline_avg = 0 →
      (log_current_power p s).2.sd.months_log s.sd.months_pos = month_average p s.sd ∧
      (log_current_power p s).2.sd.baseline_avg = month_average p s.sd ∧
      (log_current_power p s).2.sd.perform_monthly_check = s.sd.perform_monthly_check) ∧
    (∀ (first second : List Reading) (p : Reading),
      first.countP read_ok = 43200 →
      (run_source_decay first init).sd.months_log 0 = 0 →
      second.countP read_ok = 43199 → p.out_message ≠ "ERRORP\r\n" →
      (run_source_decay first init).sd.baseline_avg = 0 ∧
      (run_source_decay (second ++ [p]) (run_source_decay first init)).sd.months_log 1
        = month_average p (run_source_decay second (run_source_decay first init)).sd ∧
      (run_source_decay (second ++ [p]) (run_source_decay first init)).sd.baseline_avg
        = month_average p (run_source_decay second (run_source_decay first init)).sd ∧
      (run_source_decay (second ++ [p]) (run_source_decay first init)).sd.perform_monthly_check
        = FALSE ∧
      Event.call_handle_source_decay ∉
        new_events (run_source_decay second (run_source_decay first init))
          (run_source_decay (second ++ [p]) (run_source_decay first init)) ∧
      (run_source_decay (second ++ [p]) (run_source_decay first init)).g_source_decay = 0) := by
  constructor
  · intro p s hp he hb
    obtain ⟨k1, k2, k3, -⟩ := fire_close_capture p s hp he hb
    exact ⟨k1, k2, k3⟩
  · intro first second p hc1 hzero hc2 hp
    obtain ⟨v, c1, c2, c3, c4, c5, c6⟩ := run_first_close first init ⟨rfl, rfl, rfl⟩ rfl rfl
      (by decide) hc1
    have c3b : (run_source_decay first init).sd.months_pos = 1 := by rw [c3]; rfl
    have hv : v = 0 := by
      rw [c2] at hzero
      simpa [init] using hzero
    have hb1 : (run_source_decay first init).sd.baseline_avg = 0 := by rw [c4, hv]
    obtain ⟨hpos, hg⟩ := run_source_decay_position second (run_source_decay first init) c1 c5
      (by omega)
    rw [hc2] at hpos
    have hend := month_position_end _ _ hpos (by rw [c3b]; decide)
    obtain ⟨-, -, -, i7, i8, i9, i10⟩ := hpos
    obtain ⟨k1, k2, k3, hfire⟩ := fire_close_capture p _ hp hend (by rw [i9, hb1])
    obtain ⟨hf, hno⟩ := hfire (by rw [i10, c5])
    rw [run_source_decay_snoc]
    rw [i8, c3b] at k1
    refine ⟨hb1, ?_, ?_, ?_, hno, ?_⟩
    · rw [detect_source_decay_fire_sd]; exact k1
    · rw [detect_source_decay_fire_sd]; exact k2
    · rw [hf]
      show (log_current_power p _).2.sd.perform_monthly_check = FALSE
      rw [k3, i10, c5]
    · rw [hf]
      show (log_current_power p _).2.g_source_decay = 0
      rw [(log_current_power_frame p _).1, hg, c6]; rfl

theorem first_month_end_eq :
    first_month_end = run_source_decay (List.replicate 43200 ten_watts) init := by
  unfold first_month_end
  rfl

theorem constant_first_month (p : Reading) (hp : p.out_message ≠ "ERRORP\r\n") :
    month_closed (convert_raw_to_watts p.raw) init.sd
      (run_source_decay (List.replicate 43200 p) init).sd := by
  have hsplit : List.replicate 43200 p = List.replicate 43199 p ++ [p] :=
    List.replicate_succ' 43199 p
  have hok : ∀ q ∈ List.replicate 43199 p,
      q.out_message ≠ "ERRORP\r\n" ∧ convert_raw_to_watts q.raw = convert_raw_to_watts p.raw := by
    intro q hq
    rw [List.eq_of_mem_replicate hq]
    exact ⟨hp, rfl⟩
  obtain ⟨hprog, -⟩ := run_source_decay_progress (convert_raw_to_watts p.raw)
    (List.replicate 43199 p) init ⟨rfl, rfl, rfl, rfl, rfl, rfl⟩ rfl hok
    (by rw [List.length_replicate]; decide)
  rw [List.length_replicate] at hprog
  obtain ⟨hc, -⟩ := fire_close_baseline (convert_raw_to_watts p.raw) init.sd p _ hprog
    (by decide) hp rfl rfl rfl
  rw [hsplit, run_source_decay_snoc]
  exact hc

/-- C12_window_after_k_idles on three idle firings from the initial state: the window is 7. -/
theorem C12_window_after_k_idles_witness :
    init.ci.consecutive_idles = 0 ∧
    (∀ x ∈ List.replicate 3 sunlit_idle, x.status = eps_mppt_status.EPS_MPPT_CHARGING_IDLE) ∧
    (run_chronic_idle (List.replicate 3 sunlit_idle) init).ci.consecutive_idles = 7 :=
  have h : ∀ x ∈ List.replicate 3 sunlit_idle,
      x.status = eps_mppt_status.EPS_MPPT_CHARGING_IDLE :=
    fun x hx => by rw [List.eq_of_mem_replicate hx]; rfl
  ⟨rfl, h, ((C12_window_after_k_idles (List.replicate 3 sunlit_idle) init rfl).1 h).1 (by decide)⟩

/-- C13_inert_once_latched on the initial state with the flag set. -/
theorem C13_inert_once_latched_witness :
    latched.g_source_decay = 1 ∧ detect_source_decay ten_watts latched = latched :=
  ⟨rfl, (C13_inert_once_latched latched rfl).1 ten_watts⟩

/-- C14_power_read_error on a due firing from the initial state with an `ERRORP` read. -/
theorem C14_power_read_error_witness :
    power_error.out_message = "ERRORP\r\n" ∧ source_decay_due.g_source_decay ≠ 1 ∧
    g_const_PASS_REQ ≤ source_decay_due.sd.pass_num ∧
    (detect_source_decay power_error source_decay_due).g_read_error = 1 ∧
    (detect_source_decay power_error source_decay_due).sd.pass_num = 0 :=
  have h := C14_power_read_error power_error source_decay_due rfl (by decide) (by decide)
  ⟨rfl, by decide, by decide, h.2.2.1, h.2.2.2.2.2.1⟩

/-- C15_chronic_idle_cadence for d = 0 and d = 1: 8001 and 4001 calls per sample. -/
theorem C15_chronic_idle_cadence_witness :
    init.g_source_decay = 0 ∧ init.ci.pass_num = 0 ∧
    g_const_PASS_REQ / (0 + 1) + 2 = 8001 ∧
    latched.g_source_decay = 1 ∧ latched.ci.pass_num = 0 ∧
    g_const_PASS_REQ / (1 + 1) + 2 = 4001 :=
  ⟨rfl, rfl, (C15_chronic_idle_cadence 0 init rfl rfl).2.2.2.1.1 rfl, rfl, rfl,
    (C15_chronic_idle_cadence 1 latched rfl rfl).2.2.2.1.2 rfl⟩

/-- C16_read_error_cleared_only_by_follow_up on the initial state with the flag set. -/
theorem C16_read_error_cleared_only_by_follow_up_witness :
    read_error_pending.g_read_error = 1 ∧
    (detect_chronic_idle sunlit_idle.status sunlit_idle.temp sunlit_idle.v_bus
      read_error_pending).g_read_error = 1 ∧
    (daily_read temp_error_reads read_error_pending).2.g_read_error = 1 :=
  have h := C16_read_error_cleared_only_by_follow_up read_error_pending rfl
  ⟨rfl, h.1 _ _ _, h.2.2.2.2.1 _⟩

/-- C19_not_sunlit_keeps_evidence on raw temperature 100 (12.5 degrees) with a full window. -/
theorem C19_not_sunlit_keeps_evidence_witness :
    eclipsed_full_window.ci.mppt_was_reset = FALSE ∧
    (convert_raw_to_celsius 100 < 50 ∨ convert_raw_to_mv 100 < 0) ∧
    (handle_chronic_idle ⟨100, "OK"⟩ ⟨100, "OK"⟩ eclipsed_full_window).ci.consecutive_idles
      = 0xFF ∧
    Event.mppt_init ∉
      new_events eclipsed_full_window
        (handle_chronic_idle ⟨100, "OK"⟩ ⟨100, "OK"⟩ eclipsed_full_window) :=
  have hd : convert_raw_to_celsius 100 < 50 ∨ convert_raw_to_mv 100 < 0 :=
    Or.inl (by simp only [convert_raw_to_celsius, TEMP_CONVERT_FAC]; norm_num)
  have h := C19_not_sunlit_keeps_evidence ⟨100, "OK"⟩ ⟨100, "OK"⟩ eclipsed_full_window rfl (by decide) (by decide) hd
  ⟨rfl, hd, h.2.2.2.1, h.2.1⟩

/-- C18_monthly_check_reads_next_slot on two months at 10 W: the second month equals the baseline and the
handler still fires. -/
theorem C18_monthly_check_reads_next_slot_witness :
    (List.replicate 43200 ten_watts).countP read_ok = 43200 ∧
    0 < (run_source_decay (List.replicate 43200 ten_watts) init).sd.baseline_avg ∧
    (List.replicate 43199 ten_watts).countP read_ok = 43199 ∧
    (run_source_decay (List.replicate 43199 ten_watts ++ [ten_watts])
      (run_source_decay (List.replicate 43200 ten_watts) init)).g_source_decay = 1 := by
  have hc1 := countP_read_ok_replicate 43200 ten_watts (by decide)
  have hc2 := countP_read_ok_replicate 43199 ten_watts (by decide)
  have hb : 0 < (run_source_decay (List.replicate 43200 ten_watts) init).sd.baseline_avg := by
    rw [← first_month_end_eq, first_month_end_facts.2.2.2.1]
    norm_num
  exact ⟨hc1, hb, hc2,
    (C18_monthly_check_reads_next_slot.2 (List.replicate 43200 ten_watts) (List.replicate 43199 ten_watts) ten_watts
      hc1 hb hc2 (by decide)).2.2.2.2⟩

/-- C20_zero_sentinel_baseline on a first month at 0 W followed by a month at 10 W. -/
theorem C20_zero_sentinel_baseline_witness :
    (List.replicate 43200 zero_watts).countP read_ok = 43200 ∧
    (run_source_decay (List.replicate 43200 zero_watts) init).sd.months_log 0 = 0 ∧
    (List.replicate 43199 ten_watts).countP read_ok = 43199 ∧
    Event.call_handle_source_decay ∉
      new_events
        (run_source_decay (List.replicate 43199 ten_watts)
          (run_source_decay (List.replicate 43200 zero_watts) init))
        (run_source_decay (List.replicate 43199 ten_watts ++ [ten_watts])
          (run_source_decay (List.replicate 43200 zero_watts) init)) := by
  have hc1 := countP_read_ok_replicate 43200 zero_watts (by decide)
  have hc2 := countP_read_ok_replicate 43199 ten_watts (by decide)
  have hz : (run_source_decay (List.replicate 43200 zero_watts) init).sd.months_log 0 = 0 := by
    rw [(constant_first_month zero_watts (by decide)).2.1, convert_raw_to_watts_eq]
    simp [zero_watts, init]
  exact ⟨hc1, hz, hc2,
    (C20_zero_sentinel_baseline.2 (List.replicate 43200 zero_watts) (List.replicate 43199 ten_watts) ten_watts
      hc1 hz hc2 (by decide)).2.2.2.2.1⟩

/-! ## The read-error flag and the delay counter under interleaving -/

theorem handle_chronic_idle_flag (t v : Reading) (s : State) :
    (handle_chronic_idle t v s).g_read_error = s.g_read_error ∨
      (handle_chronic_idle t v s).g_read_error = 1 := by
  unfold handle_chronic_idle check_if_in_daylight_temp check_if_in_daylight_volt State.emit
  simp only
  split_ifs <;> first | exact Or.inl rfl | exact Or.inr rfl

theorem detect_chronic_idle_flag (out : eps_mppt_status) (t v : Reading) (s : State) :
    (detect_chronic_idle out t v s).g_read_error = s.g_read_error ∨
      (detect_chronic_idle out t v s).g_read_error = 1 := by
  unfold detect_chronic_idle detect_chronic_idle_fire
  simp only
  split_ifs
  · exact Or.inl rfl
  · exact handle_chronic_idle_flag t v _
  · exact Or.inl rfl
  · exact Or.inl rfl

theorem log_current_power_pm (p : Reading) (s : State) :
    (log_current_power p s).2.pm = s.pm := by
  unfold log_current_power
  simp only [State.emit]
  split_ifs <;> rfl

theorem detect_source_decay_flag (p : Reading) (s : State) :
    (detect_source_decay p s).pm = s.pm ∧
    ((detect_source_decay p s).g_read_error = s.g_read_error ∨
      (detect_source_decay p s).g_read_error = 1) := by
  have hpm := log_current_power_pm p s
  have hg := (log_current_power_frame p s).2.1
  unfold detect_source_decay detect_source_decay_fire handle_source_decay
  simp only [State.emit]
  split_ifs
  all_goals first
    | exact ⟨rfl, Or.inl rfl⟩
    | exact ⟨hpm, Or.inr rfl⟩
    | exact ⟨hpm, Or.inl hg⟩

theorem detect_pwr_mon_read_error_flag (fu d : MonitorReads) (s : State) :
    (detect_pwr_mon_read_error fu d s).g_read_error = (follow_up_read fu s).2.g_read_error ∧
    (detect_pwr_mon_read_error fu d s).pm.delay_counter
      = (follow_up_read fu s).2.pm.delay_counter := by
  obtain ⟨d1, d2, -⟩ := daily_read_frame d (follow_up_read fu s).2
  unfold detect_pwr_mon_read_error handle_pwr_mon_read_error
  simp only [State.emit]
  split_ifs
  · exact ⟨rfl, rfl⟩
  · exact ⟨d1, d2⟩
  · exact ⟨d1, d2⟩

theorem read_error_delay_eq : read_error_delay = 479940 := rfl

theorem follow_up_read_inv (r : MonitorReads) (s : State) (h : read_error_inv s) :
    ((follow_up_read r s).2.g_read_error = 0 ∨ (follow_up_read r s).2.g_read_error = 1) ∧
    (follow_up_read r s).2.pm.delay_counter ≤ read_error_delay ∧
    ((follow_up_read r s).2.g_read_error = 0 → (follow_up_read r s).2.pm.delay_counter = 0) ∧
    (follow_up_read r s).2.pm.delay_counter ≤ s.pm.delay_counter + 1 := by
  obtain ⟨hb, hle, hz⟩ := h
  rw [follow_up_read_eq]
  by_cases hg : s.g_read_error = 1
  · by_cases hd : s.pm.delay_counter ≥ read_error_delay
    · rw [if_pos hg, if_pos hd]
      exact ⟨Or.inl rfl, Nat.zero_le _, fun _ => rfl, Nat.zero_le _⟩
    · rw [if_pos hg, if_neg hd]
      have hlt : s.pm.delay_counter < 479940 := by
        rw [read_error_delay_eq] at hd; omega
      have e : (s.pm.delay_counter + 1) % 2 ^ 32 = s.pm.delay_counter + 1 := by
        apply Nat.mod_eq_of_lt
        have : (2 : Nat) ^ 32 = 4294967296 := by norm_num
        omega
      refine ⟨Or.inr hg, ?_, ?_, ?_⟩
      · show (s.pm.delay_counter + 1) % 2 ^ 32 ≤ read_error_delay
        rw [e, read_error_delay_eq]; omega
      · intro h0
        have h1 : s.g_read_error = 0 := h0
        omega
      · show (s.pm.delay_counter + 1) % 2 ^ 32 ≤ _
        rw [e]
  · rw [if_neg hg]
    exact ⟨hb, hle, hz, Nat.le_succ _⟩

theorem follow_up_read_step (r : MonitorReads) (s : State) :
    (follow_up_read r s).2.pm.delay_counter ≤ s.pm.delay_counter + 1 := by
  rw [follow_up_read_eq]
  by_cases hg : s.g_read_error = 1
  · by_cases hd : s.pm.delay_counter ≥ read_error_delay
    · rw [if_pos hg, if_pos hd]
      exact Nat.zero_le _
    · rw [if_pos hg, if_neg hd]
      show (s.pm.delay_counter + 1) % 2 ^ 32 ≤ _
      exact Nat.mod_le _ _
  · rw [if_neg hg]
    exact Nat.le_succ _

theorem apply_read_error_inv (c : Call) (s : State) (h : read_error_inv s) :
    read_error_inv (c.apply s) := by
  obtain ⟨hb, hle, hz⟩ := h
  cases c with
  | detect_chronic_idle out t v =>
    show read_error_inv (detect_chronic_idle out t v s)
    have hpm := (detect_chronic_idle_frame out t v s).2.1
    unfold read_error_inv
    rw [hpm]
    rcases detect_chronic_idle_flag out t v s with hf | hf
    · rw [hf]; exact ⟨hb, hle, hz⟩
    · rw [hf]
      refine ⟨Or.inr rfl, hle, fun h0 => absurd h0 (by decide)⟩
  | detect_pwr_mon_read_error fu d =>
    show read_error_inv (detect_pwr_mon_read_error fu d s)
    obtain ⟨f1, f2⟩ := detect_pwr_mon_read_error_flag fu d s
    obtain ⟨i1, i2, i3, -⟩ := follow_up_read_inv fu s ⟨hb, hle, hz⟩
    unfold read_error_inv
    rw [f1, f2]
    exact ⟨i1, i2, i3⟩
  | detect_source_decay p =>
    show read_error_inv (detect_source_decay p s)
    obtain ⟨hpm, hflag⟩ := detect_source_decay_flag p s
    unfold read_error_inv
    rw [hpm]
    rcases hflag with hf | hf
    · rw [hf]; exact ⟨hb, hle, hz⟩
    · rw [hf]
      refine ⟨Or.inr rfl, hle, fun h0 => absurd h0 (by decide)⟩
  | log_current_power p =>
    show read_error_inv (log_current_power p s).2
    unfold read_error_inv
    rw [log_current_power_pm, (log_current_power_frame p s).2.1]
    exact ⟨hb, hle, hz⟩

theorem apply_delay_counter (c : Call) (s : State) :
    (c.apply s).pm.delay_counter ≤
      s.pm.delay_counter + (if is_read_error_call c = true then 1 else 0) := by
  cases c with
  | detect_chronic_idle out t v =>
    show (detect_chronic_idle out t v s).pm.delay_counter ≤ _
    rw [(detect_chronic_idle_frame out t v s).2.1]
    exact Nat.le_add_right _ _
  | detect_pwr_mon_read_error fu d =>
    show (detect_pwr_mon_read_error fu d s).pm.delay_counter ≤ _
    rw [(detect_pwr_mon_read_error_flag fu d s).2]
    simpa [is_read_error_call] using follow_up_read_step fu s
  | detect_source_decay p =>
    show (detect_source_decay p s).pm.delay_counter ≤ _
    rw [(detect_source_decay_flag p s).1]
    exact Nat.le_add_right _ _
  | log_current_power p =>
    show (log_current_power p s).2.pm.delay_counter ≤ _
    rw [log_current_power_pm]
    exact Nat.le_add_right _ _

theorem run_calls_inv (calls : List Call) (s : State) (h : read_error_inv s) :
    read_error_inv (run_calls calls s) := by
  induction calls using List.reverseRecOn with
  | nil => exact h
  | append_singleton l c ih =>
    rw [run_calls_snoc]
    exact apply_read_error_inv c _ ih

theorem run_calls_delay_counter (calls : List Call) (s : State) :
    (run_calls calls s).pm.delay_counter ≤
      s.pm.delay_counter + calls.countP is_read_error_call := by
  induction calls using List.reverseRecOn with
  | nil => exact Nat.le_refl _
  | append_singleton l c ih =>
    rw [run_calls_snoc, List.countP_append, List.countP_singleton]
    have := apply_delay_counter c (run_calls l s)
    omega

theorem check_events_ne_nil (r : MonitorReads) : check_events r ≠ [] := by
  unfold check_events
  split_ifs <;> simp

theorem follow_up_read_attempts (r : MonitorReads) (s : State) :
    new_events s (follow_up_read r s).2 ≠ [] ↔
      (s.g_read_error = 1 ∧ read_error_delay ≤ s.pm.delay_counter) := by
  rw [follow_up_read_eq]
  by_cases hg : s.g_read_error = 1
  · by_cases hd : s.pm.delay_counter ≥ read_error_delay
    · rw [if_pos hg, if_pos hd]
      simp [new_events, check_events_ne_nil, hg, hd]
    · rw [if_pos hg, if_neg hd]
      simp [new_events, hg, hd]
  · rw [if_neg hg]
    simp [new_events, hg]

theorem init_read_error_inv : read_error_inv init :=
  ⟨Or.inl rfl, Nat.zero_le _, fun _ => rfl⟩

/-- C21: in every state reached from the initial state by any interleaving of
calls of the detectors (and of `log_current_power`), with any driver results,
`g_read_error` is 0 or 1, `delay_counter` <= `read_error_delay` = 479940, and
`g_read_error` = 0 implies `delay_counter` = 0. `follow_up_read` makes driver
calls exactly when the flag is 1 and the counter has reached the delay. So when
a call takes the flag from 0 to 1 the counter is 0, and whatever calls follow,
a `follow_up_read` that makes driver calls comes after at least 479940 of them
were calls of `detect_pwr_mon_read_error`. -/
theorem C21_read_error_flag_and_delay_counter (calls : List Call) :
    ((run_calls calls init).g_read_error = 0 ∨ (run_calls calls init).g_read_error = 1) ∧
    (run_calls calls init).pm.delay_counter ≤ read_error_delay ∧
    read_error_delay = 479940 ∧
    ((run_calls calls init).g_read_error = 0 → (run_calls calls init).pm.delay_counter = 0) ∧
    (∀ (r : MonitorReads) (s : State),
      new_events s (follow_up_read r s).2 ≠ [] ↔
        (s.g_read_error = 1 ∧ read_error_delay ≤ s.pm.delay_counter)) ∧
    (∀ c : Call, (run_calls calls init).g_read_error = 0 →
      (c.apply (run_calls calls init)).g_read_error = 1 →
      (c.apply (run_calls calls init)).pm.delay_counter = 0 ∧
      ∀ (more : List Call) (r : MonitorReads),
        new_events (run_calls more (c.apply (run_calls calls init)))
            (follow_up_read r (run_calls more (c.apply (run_calls calls init)))).2 ≠ [] →
          479940 ≤ more.countP is_read_error_call) := by
  obtain ⟨hb, hle, hz⟩ := run_calls_inv calls init init_read_error_inv
  refine ⟨hb, hle, rfl, hz, follow_up_read_attempts, ?_⟩
  intro c h0 h1
  have hdc0 := hz h0
  have hstep := apply_delay_counter c (run_calls calls init)
  have hc : is_read_error_call c = false := by
    cases c with
    | detect_pwr_mon_read_error fu d =>
      exfalso
      have hf := (detect_pwr_mon_read_error_flag fu d (run_calls calls init)).1
      have h1b : (detect_pwr_mon_read_error fu d (run_calls calls init)).g_read_error = 1 := h1
      rw [hf, follow_up_read_eq, if_neg (by rw [h0]; decide)] at h1b
      have h1c : (run_calls calls init).g_read_error = 1 := h1b
      rw [h0] at h1c
      exact absurd h1c (by decide)
    | detect_chronic_idle out t v => rfl
    | detect_source_decay p => rfl
    | log_current_power p => rfl
  have hzero : (c.apply (run_calls calls init)).pm.delay_counter = 0 := by
    rw [hc, hdc0] at hstep
    simpa using hstep
  refine ⟨hzero, ?_⟩
  intro more r hatt
  obtain ⟨-, hdue⟩ := (follow_up_read_attempts r _).mp hatt
  have hcount := run_calls_delay_counter more (c.apply (run_calls calls init))
  rw [hzero, read_error_delay_eq] at *
  omega

theorem source_decay_ticks (p : Reading) (k : Nat) (hk : k ≤ 7999) :
    run_calls (List.replicate k (Call.detect_source_decay p)) init =
      { init with sd := { init.sd with pass_num := k } } := by
  induction k with
  | zero => rfl
  | succ n ih =>
    rw [List.replicate_succ', run_calls_snoc, ih (by omega)]
    show detect_source_decay p _ = _
    unfold detect_source_decay
    have hn : n < g_const_PASS_REQ := by
      show n < 7999
      omega
    have e : (n + 1) % 2 ^ 16 = n + 1 := by
      apply Nat.mod_eq_of_lt
      have : (2 : Nat) ^ 16 = 65536 := by norm_num
      omega
    simp only
    rw [if_pos (by decide), if_pos hn, e]

/-- C21 on a reachable transition: 7999 counting calls of
`detect_source_decay`, then a firing whose power read reports `ERRORP` sets
the flag with the delay counter at 0. -/
theorem C21_read_error_flag_and_delay_counter_witness :
    (run_calls (List.replicate 7999 (Call.detect_source_decay ten_watts)) init).g_read_error
      = 0 ∧
    ((Call.detect_source_decay power_error).apply
      (run_calls (List.replicate 7999 (Call.detect_source_decay ten_watts)) init)).g_read_error
      = 1 ∧
    ((Call.detect_source_decay power_error).apply
      (run_calls (List.replicate 7999
        (Call.detect_source_decay ten_watts)) init)).pm.delay_counter = 0 := by
  have hrun : run_calls (List.replicate 7999 (Call.detect_source_decay ten_watts)) init
      = source_decay_due := source_decay_ticks ten_watts 7999 (le_refl _)
  have h0 : (run_calls (List.replicate 7999 (Call.detect_source_decay ten_watts))
      init).g_read_error = 0 := by rw [hrun]; rfl
  have h1 : ((Call.detect_source_decay power_error).apply
      (run_calls (List.replicate 7999 (Call.detect_source_decay ten_watts))
        init)).g_read_error = 1 := by
    rw [hrun]
    show (detect_source_decay power_error _).g_read_error = 1
    rw [detect_source_decay_expired _ _ (by decide) (le_refl _),
      detect_source_decay_fire_error _ _ rfl]
    rfl
  exact ⟨h0, h1,
    ((C21_read_error_flag_and_delay_counter (List.replicate 7999 (Call.detect_source_decay ten_watts))).2.2.2.2.2
      (Call.detect_source_decay power_error) h0 h1).1⟩

end EPS
